import Mathlib

/-!
# OpenGL3D: a verification development

A shallow embedding of the input handling (`main.cpp`), the fragment shader's
lighting function (`main.cpp`), the frame renderer (`main.cpp`) and the mesh
tables and generators (`meshes.cpp`), with the properties proved about them.

Numbers are exact: the program's `float`/`double` values are read as the
rationals (or reals) their literals denote, and rounding is not modelled.
-/

set_option autoImplicit false

namespace OpenGL3D

/-! ## Input handling (`main.cpp`) -/

/-- The globals `gLastX`, `gLastY`, `gFirstMouse` of `main.cpp`. -/
structure MouseState where
  gLastX : ℚ
  gLastY : ℚ
  gFirstMouse : Bool
  deriving DecidableEq, Repr

/-- The offsets passed to `gCamera.ProcessMouseMovement`. -/
structure MouseOffsets where
  xoffset : ℚ
  yoffset : ℚ
  deriving DecidableEq, Repr

/-- `UMousePositionCallback(window, xpos, ypos)`: the offsets it hands to the
camera and the globals after the call. -/
def UMousePositionCallback (s : MouseState) (xpos ypos : ℚ) : MouseOffsets × MouseState :=
  -- if (gFirstMouse) { gLastX = xpos; gLastY = ypos; gFirstMouse = false; }
  let s1 : MouseState :=
    if s.gFirstMouse then { gLastX := xpos, gLastY := ypos, gFirstMouse := false } else s
  let xoffset := xpos - s1.gLastX
  let yoffset := s1.gLastY - ypos
  -- gLastX = xpos; gLastY = ypos;
  let s2 : MouseState := { s1 with gLastX := xpos, gLastY := ypos }
  -- gCamera.ProcessMouseMovement(xoffset, yoffset);
  ({ xoffset := xoffset, yoffset := yoffset }, s2)

/-- The start-up values of the mouse globals: `gLastX = WINDOW_WIDTH / 2.0f`,
`gLastY = WINDOW_HEIGHT / 2.0f`, `gFirstMouse = true`. -/
def initialMouseState : MouseState :=
  { gLastX := 800 / 2, gLastY := 600 / 2, gFirstMouse := true }

/-- A run of cursor events through `UMousePositionCallback`: the offsets handed
to the camera, in order, and the globals at the end. -/
def processMouseEvents : MouseState → List (ℚ × ℚ) → List MouseOffsets × MouseState
  | s, [] => ([], s)
  | s, (x, y) :: rest =>
    let r := UMousePositionCallback s x y
    let t := processMouseEvents r.2 rest
    (r.1 :: t.1, t.2)

/-- The `Camera_Movement` values `UProcessInput` passes to `ProcessKeyboard`. -/
inductive Camera_Movement
  | FORWARD | BACKWARD | LEFT | RIGHT | UP | DOWN
  deriving DecidableEq, Repr

/-- GLFW's key and key-state codes, as `glfw3.h` defines them. -/
def GLFW_PRESS : Int := 1
def GLFW_KEY_ESCAPE : Int := 256
def GLFW_KEY_W : Int := 87
def GLFW_KEY_S : Int := 83
def GLFW_KEY_A : Int := 65
def GLFW_KEY_D : Int := 68
def GLFW_KEY_Q : Int := 81
def GLFW_KEY_E : Int := 69

/-- The calls `UProcessInput` can issue. -/
inductive InputCall
  | glfwSetWindowShouldClose (value : Bool)
  | ProcessKeyboard (direction : Camera_Movement) (deltaTime : ℚ)
  deriving DecidableEq, Repr

/-- `UProcessInput(window)`, with `glfwGetKey window` the key states of the
window and `gDeltaTime` the global of that name: the calls issued, in order. -/
def UProcessInput (glfwGetKey : Int → Int) (gDeltaTime : ℚ) : List InputCall :=
  let c0 : List InputCall := []
  let c1 := if glfwGetKey GLFW_KEY_ESCAPE = GLFW_PRESS
    then c0 ++ [InputCall.glfwSetWindowShouldClose true] else c0
  let c2 := if glfwGetKey GLFW_KEY_W = GLFW_PRESS
    then c1 ++ [InputCall.ProcessKeyboard Camera_Movement.FORWARD gDeltaTime] else c1
  let c3 := if glfwGetKey GLFW_KEY_S = GLFW_PRESS
    then c2 ++ [InputCall.ProcessKeyboard Camera_Movement.BACKWARD gDeltaTime] else c2
  let c4 := if glfwGetKey GLFW_KEY_A = GLFW_PRESS
    then c3 ++ [InputCall.ProcessKeyboard Camera_Movement.LEFT gDeltaTime] else c3
  let c5 := if glfwGetKey GLFW_KEY_D = GLFW_PRESS
    then c4 ++ [InputCall.ProcessKeyboard Camera_Movement.RIGHT gDeltaTime] else c4
  let c6 := if glfwGetKey GLFW_KEY_Q = GLFW_PRESS
    then c5 ++ [InputCall.ProcessKeyboard Camera_Movement.UP gDeltaTime] else c5
  let c7 := if glfwGetKey GLFW_KEY_E = GLFW_PRESS
    then c6 ++ [InputCall.ProcessKeyboard Camera_Movement.DOWN gDeltaTime] else c6
  c7

/-- The camera movements among a list of calls, in order. -/
def cameraMoves : List InputCall → List (Camera_Movement × ℚ)
  | [] => []
  | InputCall.ProcessKeyboard d t :: rest => (d, t) :: cameraMoves rest
  | InputCall.glfwSetWindowShouldClose _ :: rest => cameraMoves rest

/-- The key table the specification gives for camera translation. -/
def keyBindings : List (Int × Camera_Movement) :=
  [(GLFW_KEY_W, Camera_Movement.FORWARD), (GLFW_KEY_S, Camera_Movement.BACKWARD),
   (GLFW_KEY_A, Camera_Movement.LEFT), (GLFW_KEY_D, Camera_Movement.RIGHT),
   (GLFW_KEY_Q, Camera_Movement.UP), (GLFW_KEY_E, Camera_Movement.DOWN)]

/-! ## Vectors and the `glm` functions the program calls -/

/-- `glm::vec3`. -/
structure Vec3 (α : Type) where
  x : α
  y : α
  z : α
  deriving DecidableEq, Repr

/-- `glm::vec2`. -/
structure Vec2 (α : Type) where
  x : α
  y : α
  deriving DecidableEq, Repr

namespace Vec3

variable {α : Type}

/-- Componentwise `a + b`. -/
def add [Add α] (a b : Vec3 α) : Vec3 α := ⟨a.x + b.x, a.y + b.y, a.z + b.z⟩

/-- Componentwise `a - b`. -/
def sub [Sub α] (a b : Vec3 α) : Vec3 α := ⟨a.x - b.x, a.y - b.y, a.z - b.z⟩

/-- Componentwise `-a`. -/
def neg [Neg α] (a : Vec3 α) : Vec3 α := ⟨-a.x, -a.y, -a.z⟩

/-- The product `k * a` of a scalar and a vector. -/
def scale [Mul α] (k : α) (a : Vec3 α) : Vec3 α := ⟨k * a.x, k * a.y, k * a.z⟩

/-- `glm::dot(a, b)`. -/
def dot [Add α] [Mul α] (a b : Vec3 α) : α := a.x * b.x + a.y * b.y + a.z * b.z

/-- `glm::normalize(v)`, that is `v * inversesqrt(dot(v, v))`, for a given
square root. -/
def normalize [Field α] (sqrt : α → α) (v : Vec3 α) : Vec3 α :=
  scale (1 / sqrt (dot v v)) v

/-- `reflect(I, N)`, that is `I - N * dot(N, I) * 2`. -/
def reflect [Field α] (I N : Vec3 α) : Vec3 α :=
  sub I (scale (dot N I * 2) N)

/-- A vector of rationals read as a vector of reals. -/
def toReal (v : Vec3 ℚ) : Vec3 ℝ := ⟨(v.x : ℝ), (v.y : ℝ), (v.z : ℝ)⟩

end Vec3

/-- `glm::radians(degrees)` for a given value of pi. -/
def radians {α : Type} [Field α] (pi : α) (degrees : α) : α := degrees * (pi / 180)

/-! ## The fragment shader's lighting function (`main.cpp`) -/

/-- `phongLight(mlightColor, mlightPosition)` of the fragment shader, with the
shader's inputs `vertexNormal`, `vertexFragmentPos` and the uniform
`viewPosition` as arguments, for a given square root and power function. -/
def phongLight {α : Type} [LinearOrderedField α] (sqrt : α → α) (pow : α → α → α)
    (vertexNormal vertexFragmentPos viewPosition : Vec3 α)
    (mlightColor mlightPosition : Vec3 α) : Vec3 α :=
  let ambientStrength : α := 1 / 10
  let ambient := Vec3.scale ambientStrength mlightColor
  let norm := Vec3.normalize sqrt vertexNormal
  let lightDirection := Vec3.normalize sqrt (mlightPosition.sub vertexFragmentPos)
  let impact := max (Vec3.dot norm lightDirection) 0
  let diffuse := Vec3.scale impact mlightColor
  let specularIntensity : α := 8 / 10
  let highlightSize : α := 16
  let viewDir := Vec3.normalize sqrt (viewPosition.sub vertexFragmentPos)
  let reflectDir := Vec3.reflect (Vec3.neg lightDirection) norm
  let specularComponent := pow (max (Vec3.dot viewDir reflectDir) 0) highlightSize
  let specular := Vec3.scale (specularIntensity * specularComponent) mlightColor
  (ambient.add diffuse).add specular

/-- The globals `KeyLightColor` and `KeyLightPos` of `main.cpp`. -/
def KeyLightColor : Vec3 ℚ := ⟨1.0, 1.0, 0.6⟩
def KeyLightPos : Vec3 ℚ := ⟨1.6, 5.45, 3.2⟩

/-! ## The torus generator (`Meshes::UCreateTorusMesh`) -/

def _mainSegments : Nat := 30
def _tubeSegments : Nat := 30
def _mainRadius : ℚ := 1.0
def _tubeRadius : ℚ := 0.1

/-- The `surfacePosition` of the first loop. -/
def surfacePosition {α : Type} [Field α] (mainRadius tubeRadius : α)
    (sinMainSegment cosMainSegment sinTubeSegment cosTubeSegment : α) : Vec3 α :=
  ⟨(mainRadius + tubeRadius * cosTubeSegment) * cosMainSegment,
   (mainRadius + tubeRadius * cosTubeSegment) * sinMainSegment,
   tubeRadius * sinTubeSegment⟩

/-- The inner loop over `j` of the first loop: `n` iterations still to run, with
`currentTubeSegmentAngle` the angle on entry; the points pushed to
`segment_points`. -/
def tubeLoop {α : Type} [Field α] (sin cos : α → α) (mainRadius tubeRadius : α)
    (sinMainSegment cosMainSegment tubeSegmentAngleStep : α) :
    Nat → α → List (Vec3 α)
  | 0, _ => []
  | n + 1, currentTubeSegmentAngle =>
    surfacePosition mainRadius tubeRadius sinMainSegment cosMainSegment
        (sin currentTubeSegmentAngle) (cos currentTubeSegmentAngle) ::
      tubeLoop sin cos mainRadius tubeRadius sinMainSegment cosMainSegment
        tubeSegmentAngleStep n (currentTubeSegmentAngle + tubeSegmentAngleStep)

/-- The outer loop over `i` of the first loop: `n` iterations still to run, with
`currentMainSegmentAngle` the angle on entry; the rows pushed to
`segments_list`. -/
def mainLoop {α : Type} [Field α] (sin cos : α → α) (tubeSegments : Nat)
    (mainRadius tubeRadius : α) (mainSegmentAngleStep tubeSegmentAngleStep : α) :
    Nat → α → List (List (Vec3 α))
  | 0, _ => []
  | n + 1, currentMainSegmentAngle =>
    tubeLoop sin cos mainRadius tubeRadius (sin currentMainSegmentAngle)
        (cos currentMainSegmentAngle) tubeSegmentAngleStep tubeSegments 0 ::
      mainLoop sin cos tubeSegments mainRadius tubeRadius mainSegmentAngleStep
        tubeSegmentAngleStep n (currentMainSegmentAngle + mainSegmentAngleStep)

/-- The `segments_list` the first loop of `UCreateTorusMesh` builds, for given
segment counts and radii and given `sin`, `cos` and pi. -/
def segments_list {α : Type} [Field α] (sin cos : α → α) (pi : α)
    (mainSegments tubeSegments : Nat) (mainRadius tubeRadius : α) :
    List (List (Vec3 α)) :=
  let mainSegmentAngleStep := radians pi (360 / (mainSegments : α))
  let tubeSegmentAngleStep := radians pi (360 / (tubeSegments : α))
  mainLoop sin cos tubeSegments mainRadius tubeRadius mainSegmentAngleStep
    tubeSegmentAngleStep mainSegments 0

/-- The grid point `P(i, j)` of the torus's parametric equations. -/
def torusPoint {α : Type} [Field α] (sin cos : α → α) (pi : α)
    (mainSegments tubeSegments : Nat) (mainRadius tubeRadius : α) (i j : Nat) : Vec3 α :=
  let m := (i : α) * 2 * pi / (mainSegments : α)
  let t := (j : α) * 2 * pi / (tubeSegments : α)
  ⟨(mainRadius + tubeRadius * cos t) * cos m,
   (mainRadius + tubeRadius * cos t) * sin m,
   tubeRadius * sin t⟩

/-- The outward unit normal of the torus at the grid point `P(i, j)`, from its
parametric equations. -/
def torusNormal {α : Type} [Field α] (sin cos : α → α) (pi : α)
    (mainSegments tubeSegments : Nat) (i j : Nat) : Vec3 α :=
  let m := (i : α) * 2 * pi / (mainSegments : α)
  let t := (j : α) * 2 * pi / (tubeSegments : α)
  ⟨cos t * cos m, cos t * sin m, sin t⟩

/-- The two vectors the connect loop of `UCreateTorusMesh` fills. -/
structure TorusBuffers (α : Type) where
  vertex_list : List (Vec3 α)
  texture_coords : List (Vec2 α)

/-- `segments_list[i][j]`, when both subscripts are within bounds. -/
def segAt {α : Type} (segs : List (List (Vec3 α))) (i j : Nat) : Option (Vec3 α) :=
  (segs.get? i).bind (fun row => row.get? j)

/-- `vertex_list.push_back(p)` for a subscripted `p`: no result when the
subscript was out of bounds. -/
def pushVertex {α : Type} (b : TorusBuffers α) (p : Option (Vec3 α)) :
    Option (TorusBuffers α) :=
  p.map (fun q => { b with vertex_list := b.vertex_list ++ [q] })

/-- `texture_coords.push_back(glm::vec2(s, t))`. -/
def pushTexture {α : Type} (b : TorusBuffers α) (s t : α) : TorusBuffers α :=
  { b with texture_coords := b.texture_coords ++ [⟨s, t⟩] }

/-- The body of the connect loop for the cell `(i, j)`, up to the update of
`v`. -/
def connectCell {α : Type} [Field α] (segs : List (List (Vec3 α)))
    (mainSegments tubeSegments : Nat) (horizontalStep verticalStep u v : α)
    (i j : Nat) (b : TorusBuffers α) : Option (TorusBuffers α) :=
  if i + 1 < mainSegments ∧ j + 1 < tubeSegments then do
    let b ← pushVertex b (segAt segs i j)
    let b := pushTexture b u v
    let b ← pushVertex b (segAt segs i (j + 1))
    let b := pushTexture b u (v + verticalStep)
    let b ← pushVertex b (segAt segs (i + 1) (j + 1))
    let b := pushTexture b (u + horizontalStep) (v + verticalStep)
    let b ← pushVertex b (segAt segs i j)
    let b := pushTexture b u v
    let b ← pushVertex b (segAt segs (i + 1) j)
    let b := pushTexture b (u + horizontalStep) v
    let b ← pushVertex b (segAt segs (i + 1) (j + 1))
    let b := pushTexture b (u + horizontalStep) (v - verticalStep)
    let b ← pushVertex b (segAt segs i j)
    let b := pushTexture b u v
    pure b
  else if i + 1 = mainSegments ∧ j + 1 = tubeSegments then do
    let b ← pushVertex b (segAt segs i j)
    let b := pushTexture b u v
    let b ← pushVertex b (segAt segs i 0)
    let b := pushTexture b u 0
    let b ← pushVertex b (segAt segs 0 0)
    let b := pushTexture b 0 0
    let b ← pushVertex b (segAt segs i j)
    let b := pushTexture b u v
    let b ← pushVertex b (segAt segs 0 j)
    let b := pushTexture b 0 v
    let b ← pushVertex b (segAt segs 0 0)
    let b := pushTexture b 0 0
    let b ← pushVertex b (segAt segs i j)
    let b := pushTexture b u v
    pure b
  else if i + 1 = mainSegments then do
    let b ← pushVertex b (segAt segs i j)
    let b := pushTexture b u v
    let b ← pushVertex b (segAt segs i (j + 1))
    let b := pushTexture b u (v + verticalStep)
    let b ← pushVertex b (segAt segs 0 (j + 1))
    let b := pushTexture b 0 (v + verticalStep)
    let b ← pushVertex b (segAt segs i j)
    let b := pushTexture b u v
    let b ← pushVertex b (segAt segs 0 j)
    let b := pushTexture b 0 v
    let b ← pushVertex b (segAt segs 0 (j + 1))
    let b := pushTexture b 0 (v + verticalStep)
    let b ← pushVertex b (segAt segs i j)
    let b := pushTexture b u v
    pure b
  else if j + 1 = tubeSegments then do
    let b ← pushVertex b (segAt segs i j)
    let b := pushTexture b u v
    let b ← pushVertex b (segAt segs i 0)
    let b := pushTexture b u 0
    let b ← pushVertex b (segAt segs (i + 1) 0)
    let b := pushTexture b (u + horizontalStep) 0
    let b ← pushVertex b (segAt segs i j)
    let b := pushTexture b u v
    let b ← pushVertex b (segAt segs (i + 1) j)
    let b := pushTexture b (u + horizontalStep) v
    let b ← pushVertex b (segAt segs (i + 1) 0)
    let b := pushTexture b (u + horizontalStep) 0
    let b ← pushVertex b (segAt segs i j)
    let b := pushTexture b u v
    pure b
  else pure b

/-- The inner loop over `j` of the connect loop: `n` iterations still to run,
entered with the given `j` and `v`. -/
def connectTubeLoop {α : Type} [Field α] (segs : List (List (Vec3 α)))
    (mainSegments tubeSegments : Nat) (horizontalStep verticalStep u : α) (i : Nat) :
    Nat → Nat → α → TorusBuffers α → Option (TorusBuffers α)
  | 0, _, _, b => some b
  | n + 1, j, v, b =>
    (connectCell segs mainSegments tubeSegments horizontalStep verticalStep u v i j b).bind
      (fun b1 =>
        connectTubeLoop segs mainSegments tubeSegments horizontalStep verticalStep u i
          n (j + 1) (v + verticalStep) b1)

/-- The outer loop over `i` of the connect loop: `n` iterations still to run,
entered with the given `i` and `u` (and `v = 0`). -/
def connectMainLoop {α : Type} [Field α] (segs : List (List (Vec3 α)))
    (mainSegments tubeSegments : Nat) (horizontalStep verticalStep : α) :
    Nat → Nat → α → TorusBuffers α → Option (TorusBuffers α)
  | 0, _, _, b => some b
  | n + 1, i, u, b =>
    (connectTubeLoop segs mainSegments tubeSegments horizontalStep verticalStep u i
        tubeSegments 0 0 b).bind
      (fun b1 =>
        connectMainLoop segs mainSegments tubeSegments horizontalStep verticalStep
          n (i + 1) (u + horizontalStep) b1)

/-- The connect loop of `UCreateTorusMesh` on a given `segments_list`: the
`vertex_list` and `texture_coords` it leaves, or nothing when a subscript on
`segments_list` was out of bounds. -/
def connectSegments {α : Type} [Field α] (segs : List (List (Vec3 α)))
    (mainSegments tubeSegments : Nat) : Option (TorusBuffers α) :=
  let horizontalStep : α := 1 / (mainSegments : α)
  let verticalStep : α := 1 / (tubeSegments : α)
  connectMainLoop segs mainSegments tubeSegments horizontalStep verticalStep
    mainSegments 0 0 ⟨[], []⟩

/-- The seven positions of the cell `(i, j)` under the single wrap-around rule
of the specification, for grid points `P`: with `i' = (i + 1) mod M` and
`j' = (j + 1) mod T`. -/
def wrapCell {α : Type} (P : Nat → Nat → Vec3 α) (mainSegments tubeSegments : Nat)
    (i j : Nat) : List (Vec3 α) :=
  let i' := (i + 1) % mainSegments
  let j' := (j + 1) % tubeSegments
  [P i j, P i j', P i' j', P i j, P i' j, P i' j', P i j]

/-- The vertex list the wrap-around rule gives: the cells in the order of the
two loops. -/
def wrapVertexList {α : Type} (P : Nat → Nat → Vec3 α) (mainSegments tubeSegments : Nat) :
    List (Vec3 α) :=
  (List.range mainSegments).flatMap
    (fun i => (List.range tubeSegments).flatMap (fun j => wrapCell P mainSegments tubeSegments i j))

/-- The eight floats the combine loop of `UCreateTorusMesh` pushes for one
vertex. -/
def torusVertexOut {α : Type} [Field α] (sqrt : α → α) (vertex : Vec3 α)
    (text_coord : Vec2 α) : List α :=
  let normal := Vec3.normalize sqrt vertex
  [vertex.x, vertex.y, vertex.z, normal.x, normal.y, normal.z, text_coord.x, text_coord.y]

/-- The combine loop of `UCreateTorusMesh`: `combined_values`, or nothing when
`texture_coords[i]` was out of bounds. -/
def torusCombine {α : Type} [Field α] (sqrt : α → α) :
    List (Vec3 α) → List (Vec2 α) → Option (List α)
  | [], _ => some []
  | _ :: _, [] => none
  | vertex :: vs, text_coord :: ts =>
    (torusCombine sqrt vs ts).map (fun rest => torusVertexOut sqrt vertex text_coord ++ rest)

/-- `UCreateTorusMesh`: the `combined_values` uploaded to the vertex buffer, for
given segment counts and radii. -/
def UCreateTorusMesh_combined {α : Type} [Field α] (sqrt sin cos : α → α) (pi : α)
    (mainSegments tubeSegments : Nat) (mainRadius tubeRadius : α) : Option (List α) :=
  (connectSegments
      (segments_list sin cos pi mainSegments tubeSegments mainRadius tubeRadius)
      mainSegments tubeSegments).bind
    (fun b => torusCombine sqrt b.vertex_list b.texture_coords)

/-! ## The sphere's combine loop (`Meshes::UCreateSphereMesh`) -/

/-- The eight floats the combine loop of `UCreateSphereMesh` pushes for one
vertex, for a given square root, `atan2` and `M_PI`. -/
def sphereVertexOut {α : Type} [Field α] (sqrt : α → α) (atan2 : α → α → α) (M_PI : α)
    (vert : Vec3 α) : List α :=
  let center : Vec3 α := ⟨0, 0, 0⟩
  let normal := Vec3.normalize sqrt (vert.sub center)
  let u := atan2 normal.x normal.z / (2 * M_PI) + 1 / 2
  let v := normal.y * (1 / 2) + 1 / 2
  [vert.x, vert.y, vert.z, normal.x, normal.y, normal.z, u, v]

/-- The combine loop of `UCreateSphereMesh` over the array `verts`, three floats
a step. -/
def sphereCombine {α : Type} [Field α] (sqrt : α → α) (atan2 : α → α → α) (M_PI : α) :
    List α → List α
  | a :: b :: c :: rest =>
    sphereVertexOut sqrt atan2 M_PI ⟨a, b, c⟩ ++ sphereCombine sqrt atan2 M_PI rest
  | _ => []

/-- Vertex `k` of a `verts` array of three floats a vertex. -/
def sphereVertex (verts : List ℚ) (k : Nat) : Vec3 ℚ :=
  ⟨verts.getD (3 * k) 0, verts.getD (3 * k + 1) 0, verts.getD (3 * k + 2) 0⟩

/-! ## Mesh tables (`meshes.cpp`) -/

/-- One row of eight floats of a `verts` array. -/
def v8 (a b c d e f g h : ℚ) : List ℚ := [a, b, c, d, e, f, g, h]

/-- One row of three floats of a `verts` array. -/
def v3 (a b c : ℚ) : List ℚ := [a, b, c]

/-- One row of three indices of an `indices` array. -/
def tri (a b c : Nat) : List Nat := [a, b, c]

/-- The array `verts` of `UCreatePlaneMesh`: position, normal, texture coordinate per row. -/
def planeVerts : List ℚ := List.flatten [
  v8 (-1.0) 0.0 1.0 0.0 1.0 0.0 0.0 0.0,
  v8 1.0 0.0 1.0 0.0 1.0 0.0 1.0 0.0,
  v8 1.0 0.0 (-1.0) 0.0 1.0 0.0 1.0 1.0,
  v8 (-1.0) 0.0 (-1.0) 0.0 1.0 0.0 0.0 1.0
]

/-- The array `indices` of `UCreatePlaneMesh`. -/
def planeIndices : List Nat := List.flatten [
  tri 0 1 2,
  tri 0 3 2
]

/-- The array `verts` of `UCreateBoxMesh`: position, normal, texture coordinate per row. -/
def boxVerts : List ℚ := List.flatten [
  -- Back Face Negative Z Normal Texture Coords.
  v8 0.5 0.5 (-0.5) 0.0 0.0 (-1.0) 0.0 1.0,
  v8 0.5 (-0.5) (-0.5) 0.0 0.0 (-1.0) 0.0 0.0,
  v8 (-0.5) (-0.5) (-0.5) 0.0 0.0 (-1.0) 1.0 0.0,
  v8 (-0.5) 0.5 (-0.5) 0.0 0.0 (-1.0) 1.0 1.0,
  -- Bottom Face Negative Y Normal
  v8 (-0.5) (-0.5) 0.5 0.0 (-1.0) 0.0 0.0 1.0,
  v8 (-0.5) (-0.5) (-0.5) 0.0 (-1.0) 0.0 0.0 0.0,
  v8 0.5 (-0.5) (-0.5) 0.0 (-1.0) 0.0 1.0 0.0,
  v8 0.5 (-0.5) 0.5 0.0 (-1.0) 0.0 1.0 1.0,
  -- Left Face Negative X Normal
  v8 (-0.5) 0.5 (-0.5) 1.0 0.0 0.0 0.0 1.0,
  v8 (-0.5) (-0.5) (-0.5) 1.0 0.0 0.0 0.0 0.0,
  v8 (-0.5) (-0.5) 0.5 1.0 0.0 0.0 1.0 0.0,
  v8 (-0.5) 0.5 0.5 1.0 0.0 0.0 1.0 1.0,
  -- Right Face Positive X Normal
  v8 0.5 0.5 0.5 1.0 0.0 0.0 0.0 1.0,
  v8 0.5 (-0.5) 0.5 1.0 0.0 0.0 0.0 0.0,
  v8 0.5 (-0.5) (-0.5) 1.0 0.0 0.0 1.0 0.0,
  v8 0.5 0.5 (-0.5) 1.0 0.0 0.0 1.0 1.0,
  -- Top Face Positive Y Normal
  v8 (-0.5) 0.5 (-0.5) 0.0 1.0 0.0 0.0 1.0,
  v8 (-0.5) 0.5 0.5 0.0 1.0 0.0 0.0 0.0,
  v8 0.5 0.5 0.5 0.0 1.0 0.0 1.0 0.0,
  v8 0.5 0.5 (-0.5) 0.0 1.0 0.0 1.0 1.0,
  -- Front Face Positive Z Normal
  v8 (-0.5) 0.5 0.5 0.0 0.0 1.0 0.0 1.0,
  v8 (-0.5) (-0.5) 0.5 0.0 0.0 1.0 0.0 0.0,
  v8 0.5 (-0.5) 0.5 0.0 0.0 1.0 1.0 0.0,
  v8 0.5 0.5 0.5 0.0 0.0 1.0 1.0 1.0
]

/-- The array `indices` of `UCreateBoxMesh`. -/
def boxIndices : List Nat := List.flatten [
  tri 0 1 2,
  tri 0 3 2,
  tri 4 5 6,
  tri 4 7 6,
  tri 8 9 10,
  tri 8 11 10,
  tri 12 13 14,
  tri 12 15 14,
  tri 16 17 18,
  tri 16 19 18,
  tri 20 21 22,
  tri 20 23 22
]

/-- The array `verts` of `UCreateCylinderMesh`: position, normal, texture coordinate per row. -/
def cylinderVerts : List ℚ := List.flatten [
  -- cylinder bottom normals texture coords
  v8 1.0 0.0 0.0 0.0 (-1.0) 0.0 0.5 1.0,
  v8 0.98 0.0 (-0.17) 0.0 (-1.0) 0.0 0.41 0.983,
  v8 0.94 0.0 (-0.34) 0.0 (-1.0) 0.0 0.33 0.96,
  v8 0.87 0.0 (-0.5) 0.0 (-1.0) 0.0 0.25 0.92,
  v8 0.77 0.0 (-0.64) 0.0 (-1.0) 0.0 0.17 0.87,
  v8 0.64 0.0 (-0.77) 0.0 (-1.0) 0.0 0.13 0.83,
  v8 0.5 0.0 (-0.87) 0.0 (-1.0) 0.0 0.08 0.77,
  v8 0.34 0.0 (-0.94) 0.0 (-1.0) 0.0 0.04 0.68,
  v8 0.17 0.0 (-0.98) 0.0 (-1.0) 0.0 0.017 0.6,
  v8 0.0 0.0 (-1.0) 0.0 (-1.0) 0.0 0.0 0.5,
  v8 (-0.17) 0.0 (-0.98) 0.0 (-1.0) 0.0 0.017 0.41,
  v8 (-0.34) 0.0 (-0.94) 0.0 (-1.0) 0.0 0.04 0.33,
  v8 (-0.5) 0.0 (-0.87) 0.0 (-1.0) 0.0 0.08 0.25,
  v8 (-0.64) 0.0 (-0.77) 0.0 (-1.0) 0.0 0.13 0.17,
  v8 (-0.77) 0.0 (-0.64) 0.0 (-1.0) 0.0 0.17 0.13,
  v8 (-0.87) 0.0 (-0.5) 0.0 (-1.0) 0.0 0.25 0.08,
  v8 (-0.94) 0.0 (-0.34) 0.0 (-1.0) 0.0 0.33 0.04,
  v8 (-0.98) 0.0 (-0.17) 0.0 (-1.0) 0.0 0.41 0.017,
  v8 (-1.0) 0.0 0.0 0.0 (-1.0) 0.0 0.5 0.0,
  v8 (-0.98) 0.0 0.17 0.0 (-1.0) 0.0 0.6 0.017,
  v8 (-0.94) 0.0 0.34 0.0 (-1.0) 0.0 0.68 0.04,
  v8 (-0.87) 0.0 0.5 0.0 (-1.0) 0.0 0.77 0.08,
  v8 (-0.77) 0.0 0.64 0.0 (-1.0) 0.0 0.83 0.13,
  v8 (-0.64) 0.0 0.77 0.0 (-1.0) 0.0 0.87 0.17,
  v8 (-0.5) 0.0 0.87 0.0 (-1.0) 0.0 0.92 0.25,
  v8 (-0.34) 0.0 0.94 0.0 (-1.0) 0.0 0.96 0.33,
  v8 (-0.17) 0.0 0.98 0.0 (-1.0) 0.0 0.983 0.41,
  v8 0.0 0.0 1.0 0.0 (-1.0) 0.0 1.0 0.5,
  v8 0.17 0.0 0.98 0.0 (-1.0) 0.0 0.983 0.6,
  v8 0.34 0.0 0.94 0.0 (-1.0) 0.0 0.96 0.68,
  v8 0.5 0.0 0.87 0.0 (-1.0) 0.0 0.92 0.77,
  v8 0.64 0.0 0.77 0.0 (-1.0) 0.0 0.87 0.83,
  v8 0.77 0.0 0.64 0.0 (-1.0) 0.0 0.83 0.87,
  v8 0.87 0.0 0.5 0.0 (-1.0) 0.0 0.77 0.92,
  v8 0.94 0.0 0.34 0.0 (-1.0) 0.0 0.68 0.96,
  v8 0.98 0.0 0.17 0.0 (-1.0) 0.0 0.6 0.983,
  -- cylinder top normals texture coords
  v8 1.0 1.0 0.0 0.0 1.0 0.0 0.5 1.0,
  v8 0.98 1.0 (-0.17) 0.0 1.0 0.0 0.41 0.983,
  v8 0.94 1.0 (-0.34) 0.0 1.0 0.0 0.33 0.96,
  v8 0.87 1.0 (-0.5) 0.0 1.0 0.0 0.25 0.92,
  v8 0.77 1.0 (-0.64) 0.0 1.0 0.0 0.17 0.87,
  v8 0.64 1.0 (-0.77) 0.0 1.0 0.0 0.13 0.83,
  v8 0.5 1.0 (-0.87) 0.0 1.0 0.0 0.08 0.77,
  v8 0.34 1.0 (-0.94) 0.0 1.0 0.0 0.04 0.68,
  v8 0.17 1.0 (-0.98) 0.0 1.0 0.0 0.017 0.6,
  v8 0.0 1.0 (-1.0) 0.0 1.0 0.0 0.0 0.5,
  v8 (-0.17) 1.0 (-0.98) 0.0 1.0 0.0 0.017 0.41,
  v8 (-0.34) 1.0 (-0.94) 0.0 1.0 0.0 0.04 0.33,
  v8 (-0.5) 1.0 (-0.87) 0.0 1.0 0.0 0.08 0.25,
  v8 (-0.64) 1.0 (-0.77) 0.0 1.0 0.0 0.13 0.17,
  v8 (-0.77) 1.0 (-0.64) 0.0 1.0 0.0 0.17 0.13,
  v8 (-0.87) 1.0 (-0.5) 0.0 1.0 0.0 0.25 0.08,
  v8 (-0.94) 1.0 (-0.34) 0.0 1.0 0.0 0.33 0.04,
  v8 (-0.98) 1.0 (-0.17) 0.0 1.0 0.0 0.41 0.017,
  v8 (-1.0) 1.0 0.0 0.0 1.0 0.0 0.5 0.0,
  v8 (-0.98) 1.0 0.17 0.0 1.0 0.0 0.6 0.017,
  v8 (-0.94) 1.0 0.34 0.0 1.0 0.0 0.68 0.04,
  v8 (-0.87) 1.0 0.5 0.0 1.0 0.0 0.77 0.08,
  v8 (-0.77) 1.0 0.64 0.0 1.0 0.0 0.83 0.13,
  v8 (-0.64) 1.0 0.77 0.0 1.0 0.0 0.87 0.17,
  v8 (-0.5) 1.0 0.87 0.0 1.0 0.0 0.92 0.25,
  v8 (-0.34) 1.0 0.94 0.0 1.0 0.0 0.96 0.33,
  v8 (-0.17) 1.0 0.98 0.0 1.0 0.0 0.983 0.41,
  v8 0.0 1.0 1.0 0.0 1.0 0.0 1.0 0.5,
  v8 0.17 1.0 0.98 0.0 1.0 0.0 0.983 0.6,
  v8 0.34 1.0 0.94 0.0 1.0 0.0 0.96 0.68,
  v8 0.5 1.0 0.87 0.0 1.0 0.0 0.92 0.77,
  v8 0.64 1.0 0.77 0.0 1.0 0.0 0.87 0.83,
  v8 0.77 1.0 0.64 0.0 1.0 0.0 0.83 0.87,
  v8 0.87 1.0 0.5 0.0 1.0 0.0 0.77 0.92,
  v8 0.94 1.0 0.34 0.0 1.0 0.0 0.68 0.96,
  v8 0.98 1.0 0.17 0.0 1.0 0.0 0.6 0.983,
  -- cylinder body normals texture coords
  v8 1.0 1.0 0.0 1.0 0.0 0.0 0.0 1.0,
  v8 1.0 0.0 0.0 1.0 0.0 0.0 0.0 0.0,
  v8 0.98 0.0 (-0.17) 1.0 0.0 0.0 0.0277 0.0,
  v8 1.0 1.0 0.0 0.92 0.0 (-0.08) 0.0 1.0,
  v8 0.98 1.0 (-0.17) 0.92 0.0 (-0.08) 0.0277 1.0,
  v8 0.98 0.0 (-0.17) 0.92 0.0 (-0.08) 0.0277 0.0,
  v8 0.94 0.0 (-0.34) 0.83 0.0 (-0.17) 0.0554 0.0,
  v8 0.98 1.0 (-0.17) 0.83 0.0 (-0.17) 0.0277 1.0,
  v8 0.94 1.0 (-0.34) 0.83 0.0 (-0.17) 0.0554 1.0,
  v8 0.94 0.0 (-0.34) 0.75 0.0 (-0.25) 0.0554 0.0,
  v8 0.87 0.0 (-0.5) 0.75 0.0 (-0.25) 0.0831 0.0,
  v8 0.94 1.0 (-0.34) 0.75 0.0 (-0.25) 0.0554 1.0,
  v8 0.87 1.0 (-0.5) 0.67 0.0 (-0.33) 0.0831 1.0,
  v8 0.87 0.0 (-0.5) 0.67 0.0 (-0.33) 0.0831 0.0,
  v8 0.77 0.0 (-0.64) 0.67 0.0 (-0.33) 0.1108 0.0,
  v8 0.87 1.0 (-0.5) 0.58 0.0 (-0.42) 0.0831 1.0,
  v8 0.77 1.0 (-0.64) 0.58 0.0 (-0.42) 0.1108 1.0,
  v8 0.77 0.0 (-0.64) 0.58 0.0 (-0.42) 0.1108 0.0,
  v8 0.64 0.0 (-0.77) 0.5 0.0 (-0.5) 0.1385 0.0,
  v8 0.77 1.0 (-0.64) 0.5 0.0 (-0.5) 0.1108 1.0,
  v8 0.64 1.0 (-0.77) 0.5 0.0 (-0.5) 0.1385 1.0,
  v8 0.64 0.0 (-0.77) 0.42 0.0 (-0.58) 0.1385 0.0,
  v8 0.5 0.0 (-0.87) 0.42 0.0 (-0.58) 0.1662 0.0,
  v8 0.64 1.0 (-0.77) 0.42 0.0 (-0.58) 0.1385 1.0,
  v8 0.5 1.0 (-0.87) 0.33 0.0 (-0.67) 0.1662 1.0,
  v8 0.5 0.0 (-0.87) 0.33 0.0 (-0.67) 0.1662 0.0,
  v8 0.34 0.0 (-0.94) 0.33 0.0 (-0.67) 0.1939 0.0,
  v8 0.5 1.0 (-0.87) 0.25 0.0 (-0.75) 0.1662 1.0,
  v8 0.34 1.0 (-0.94) 0.25 0.0 (-0.75) 0.1939 1.0,
  v8 0.34 0.0 (-0.94) 0.25 0.0 (-0.75) 0.1939 0.0,
  v8 0.17 0.0 (-0.98) 0.17 0.0 (-0.83) 0.2216 0.0,
  v8 0.34 1.0 (-0.94) 0.17 0.0 (-0.83) 0.1939 1.0,
  v8 0.17 1.0 (-0.98) 0.17 0.0 (-0.83) 0.2216 1.0,
  v8 0.17 0.0 (-0.98) 0.08 0.0 (-0.92) 0.2216 0.0,
  v8 0.0 0.0 (-1.0) 0.08 0.0 (-0.92) 0.2493 0.0,
  v8 0.17 1.0 (-0.98) 0.08 0.0 (-0.92) 0.2216 1.0,
  v8 0.0 1.0 (-1.0) 0.0 0.0 (-1.0) 0.2493 1.0,
  v8 0.0 0.0 (-1.0) 0.0 0.0 (-1.0) 0.2493 0.0,
  v8 (-0.17) 0.0 (-0.98) 0.0 0.0 (-1.0) 0.277 0.0,
  v8 0.0 1.0 (-1.0) 0.08 0.0 (-1.08) 0.2493 1.0,
  v8 (-0.17) 1.0 (-0.98) (-0.08) 0.0 (-0.92) 0.277 1.0,
  v8 (-0.17) 0.0 (-0.98) (-0.08) 0.0 (-0.92) 0.277 0.0,
  v8 (-0.34) 0.0 (-0.94) (-0.08) 0.0 (-0.92) 0.3047 0.0,
  v8 (-0.17) 1.0 (-0.98) (-0.08) 0.0 (-0.92) 0.277 1.0,
  v8 (-0.34) 1.0 (-0.94) (-0.17) 0.0 (-0.83) 0.3047 1.0,
  v8 (-0.34) 0.0 (-0.94) (-0.17) 0.0 (-0.83) 0.3047 0.0,
  v8 (-0.5) 0.0 (-0.87) (-0.17) 0.0 (-0.83) 0.3324 0.0,
  v8 (-0.34) 1.0 (-0.94) (-0.25) 0.0 (-0.75) 0.3047 1.0,
  v8 (-0.5) 1.0 (-0.87) (-0.25) 0.0 (-0.75) 0.3324 1.0,
  v8 (-0.5) 0.0 (-0.87) (-0.25) 0.0 (-0.75) 0.3324 0.0,
  v8 (-0.64) 0.0 (-0.77) (-0.33) 0.0 (-0.67) 0.3601 0.0,
  v8 (-0.5) 1.0 (-0.87) (-0.33) 0.0 (-0.67) 0.3324 1.0,
  v8 (-0.64) 1.0 (-0.77) (-0.33) 0.0 (-0.67) 0.3601 1.0,
  v8 (-0.64) 0.0 (-0.77) (-0.42) 0.0 (-0.58) 0.3601 0.0,
  v8 (-0.77) 0.0 (-0.64) (-0.42) 0.0 (-0.58) 0.3878 0.0,
  v8 (-0.64) 1.0 (-0.77) (-0.42) 0.0 (-0.58) 0.3601 1.0,
  v8 (-0.77) 1.0 (-0.64) (-0.5) 0.0 (-0.5) 0.3878 1.0,
  v8 (-0.77) 0.0 (-0.64) (-0.5) 0.0 (-0.5) 0.3878 0.0,
  v8 (-0.87) 0.0 (-0.5) (-0.5) 0.0 (-0.5) 0.4155 0.0,
  v8 (-0.77) 1.0 (-0.64) (-0.58) 0.0 (-0.42) 0.3878 1.0,
  v8 (-0.87) 1.0 (-0.5) (-0.58) 0.0 (-0.42) 0.4155 1.0,
  v8 (-0.87) 0.0 (-0.5) (-0.58) 0.0 (-0.42) 0.4155 0.0,
  v8 (-0.94) 0.0 (-0.34) (-0.67) 0.0 (-0.33) 0.4432 0.0,
  v8 (-0.87) 1.0 (-0.5) (-0.67) 0.0 (-0.33) 0.4155 1.0,
  v8 (-0.94) 1.0 (-0.34) (-0.67) 0.0 (-0.33) 0.4432 1.0,
  v8 (-0.94) 0.0 (-0.34) (-0.75) 0.0 (-0.25) 0.4432 0.0,
  v8 (-0.98) 0.0 (-0.17) (-0.75) 0.0 (-0.25) 0.4709 0.0,
  v8 (-0.94) 1.0 (-0.34) (-0.75) 0.0 (-0.25) 0.4432 1.0,
  v8 (-0.98) 1.0 (-0.17) (-0.83) 0.0 (-0.17) 0.4709 1.0,
  v8 (-0.98) 0.0 (-0.17) (-0.83) 0.0 (-0.17) 0.4709 0.0,
  v8 (-1.0) 0.0 0.0 (-0.83) 0.0 (-0.17) 0.4986 0.0,
  v8 (-0.98) 1.0 (-0.17) (-0.92) 0.0 (-0.08) 0.4709 1.0,
  v8 (-1.0) 1.0 0.0 (-0.92) 0.0 (-0.08) 0.4986 1.0,
  v8 (-1.0) 0.0 0.0 (-0.92) 0.0 (-0.08) 0.4986 0.0,
  v8 (-0.98) 0.0 0.17 (-1.0) 0.0 0.0 0.5263 0.0,
  v8 (-1.0) 1.0 0.0 (-1.0) 0.0 0.0 0.4986 1.0,
  v8 (-0.98) 1.0 0.17 (-1.0) 0.0 0.0 0.5263 1.0,
  v8 (-0.98) 0.0 0.17 (-0.92) 0.0 0.08 0.5263 0.0,
  v8 (-0.94) 0.0 0.34 (-0.92) 0.0 0.08 0.554 0.0,
  v8 (-0.98) 1.0 0.17 (-0.92) 0.0 0.08 0.5263 1.0,
  v8 (-0.94) 1.0 0.34 (-0.83) 0.0 0.17 0.554 1.0,
  v8 (-0.94) 0.0 0.34 (-0.83) 0.0 0.17 0.554 0.0,
  v8 (-0.87) 0.0 0.5 (-0.83) 0.0 0.17 0.5817 0.0,
  v8 (-0.94) 1.0 0.34 (-0.75) 0.0 0.25 0.554 1.0,
  v8 (-0.87) 1.0 0.5 (-0.75) 0.0 0.25 0.5817 1.0,
  v8 (-0.87) 0.0 0.5 (-0.75) 0.0 0.25 0.5817 0.0,
  v8 (-0.77) 0.0 0.64 (-0.67) 0.0 0.33 0.6094 0.0,
  v8 (-0.87) 1.0 0.5 (-0.67) 0.0 0.33 0.5817 1.0,
  v8 (-0.77) 1.0 0.64 (-0.67) 0.0 0.33 0.6094 1.0,
  v8 (-0.77) 0.0 0.64 (-0.58) 0.0 0.42 0.6094 0.0,
  v8 (-0.64) 0.0 0.77 (-0.58) 0.0 0.42 0.6371 0.0,
  v8 (-0.77) 1.0 0.64 (-0.58) 0.0 0.42 0.6094 1.0,
  v8 (-0.64) 1.0 0.77 (-0.5) 0.0 0.5 0.6371 1.0,
  v8 (-0.64) 0.0 0.77 (-0.5) 0.0 0.5 0.6371 0.0,
  v8 (-0.5) 0.0 0.87 (-0.5) 0.0 0.5 0.6648 0.0,
  v8 (-0.64) 1.0 0.77 (-0.42) 0.0 0.58 0.6371 1.0,
  v8 (-0.5) 1.0 0.87 (-0.42) 0.0 0.58 0.6648 1.0,
  v8 (-0.5) 0.0 0.87 (-0.42) 0.0 0.58 0.6648 0.0,
  v8 (-0.34) 0.0 0.94 (-0.33) 0.0 0.67 0.6925 0.0,
  v8 (-0.5) 1.0 0.87 (-0.33) 0.0 0.67 0.6648 1.0,
  v8 (-0.34) 1.0 0.94 (-0.33) 0.0 0.67 0.6925 1.0,
  v8 (-0.34) 0.0 0.94 (-0.25) 0.0 0.75 0.6925 0.0,
  v8 (-0.17) 0.0 0.98 (-0.25) 0.0 0.75 0.7202 0.0,
  v8 (-0.34) 1.0 0.94 (-0.25) 0.0 0.75 0.6925 1.0,
  v8 (-0.17) 1.0 0.98 (-0.17) 0.0 0.83 0.7202 1.0,
  v8 (-0.17) 0.0 0.98 (-0.17) 0.0 0.83 0.7202 0.0,
  v8 0.0 0.0 1.0 (-0.17) 0.0 0.83 0.7479 0.0,
  v8 (-0.17) 1.0 0.98 (-0.08) 0.0 0.92 0.7202 1.0,
  v8 0.0 1.0 1.0 (-0.08) 0.0 0.92 0.7479 1.0,
  v8 0.0 0.0 1.0 (-0.08) 0.0 0.92 0.7479 0.0,
  v8 0.17 0.0 0.98 (-0.0) 0.0 1.0 0.7756 0.0,
  v8 0.0 1.0 1.0 (-0.0) 0.0 1.0 0.7479 1.0,
  v8 0.17 1.0 0.98 (-0.0) 0.0 1.0 0.7756 1.0,
  v8 0.17 0.0 0.98 0.08 0.0 0.92 0.7756 0.0,
  v8 0.34 0.0 0.94 0.08 0.0 0.92 0.8033 0.0,
  v8 0.17 1.0 0.98 0.08 0.0 0.92 0.7756 1.0,
  v8 0.34 1.0 0.94 0.17 0.0 0.83 0.8033 1.0,
  v8 0.34 0.0 0.94 0.17 0.0 0.83 0.8033 0.0,
  v8 0.5 0.0 0.87 0.17 0.0 0.83 0.831 0.0,
  v8 0.34 1.0 0.94 0.25 0.0 0.75 0.8033 1.0,
  v8 0.5 1.0 0.87 0.25 0.0 0.75 0.831 1.0,
  v8 0.5 0.0 0.87 0.25 0.0 0.75 0.831 0.0,
  v8 0.64 0.0 0.77 0.33 0.0 0.67 0.8587 0.0,
  v8 0.5 1.0 0.87 0.33 0.0 0.67 0.831 1.0,
  v8 0.64 1.0 0.77 0.33 0.0 0.67 0.8587 1.0,
  v8 0.64 0.0 0.77 0.42 0.0 0.58 0.8587 0.0,
  v8 0.77 0.0 0.64 0.42 0.0 0.58 0.8864 0.0,
  v8 0.64 1.0 0.77 0.42 0.0 0.58 0.8587 1.0,
  v8 0.77 1.0 0.64 0.5 0.0 0.5 0.8864 1.0,
  v8 0.77 0.0 0.64 0.5 0.0 0.5 0.8864 0.0,
  v8 0.87 0.0 0.5 0.5 0.0 0.5 0.9141 0.0,
  v8 0.77 1.0 0.64 0.58 0.0 0.42 0.8864 1.0,
  v8 0.87 1.0 0.5 0.58 0.0 0.42 0.9141 1.0,
  v8 0.87 0.0 0.5 0.58 0.0 0.42 0.9141 0.0,
  v8 0.94 0.0 0.34 0.67 0.0 0.33 0.9418 0.0,
  v8 0.87 1.0 0.5 0.67 0.0 0.33 0.9141 1.0,
  v8 0.94 1.0 0.34 0.67 0.0 0.33 0.9418 1.0,
  v8 0.94 0.0 0.34 0.75 0.0 0.25 0.9418 0.0,
  v8 0.98 0.0 0.17 0.75 0.0 0.25 0.9695 0.0,
  v8 0.94 1.0 0.34 0.75 0.0 0.25 0.9418 0.0,
  v8 0.98 1.0 0.17 0.83 0.0 0.17 0.9695 1.0,
  v8 0.98 0.0 0.17 0.83 0.0 0.17 0.9695 0.0,
  v8 1.0 0.0 0.0 0.83 0.0 0.17 1.0 0.0,
  v8 0.98 1.0 0.17 0.92 0.0 0.08 0.9695 1.0,
  v8 1.0 1.0 0.0 0.92 0.0 0.08 1.0 1.0,
  v8 1.0 0.0 0.0 0.92 0.0 0.08 1.0 0.0
]

/-- The array `verts` of `UCreateSphereMesh`: one position per row. -/
def sphereVerts : List ℚ := List.flatten [
  -- top center point
  v3 0.0 1.0 0.0,
  -- ring 1
  v3 0.0 0.9808 0.1951,
  v3 0.0747 0.9808 0.1802,
  v3 0.1379 0.9808 0.1379,
  v3 0.1802 0.9808 0.0747,
  v3 0.1951 0.9808 0.0,
  v3 0.1802 0.9808 (-0.0747),
  v3 0.1379 0.9808 (-0.1379),
  v3 0.0747 0.9808 (-0.1802),
  v3 0.0 0.9808 (-0.1951),
  v3 (-0.0747) 0.9808 (-0.1802),
  v3 (-0.1379) 0.9808 (-0.1379),
  v3 (-0.1802) 0.9808 (-0.0747),
  v3 (-0.1951) 0.9808 0.0,
  v3 (-0.1802) 0.9808 0.0747,
  v3 (-0.1379) 0.9808 0.1379,
  v3 (-0.0747) 0.9808 0.1802,
  -- ring 2
  v3 0.0 0.9239 0.3827,
  v3 0.1464 0.9239 0.3536,
  v3 0.2706 0.9239 0.2706,
  v3 0.3536 0.9239 0.1464,
  v3 0.3827 0.9239 0.0,
  v3 0.3536 0.9239 (-0.1464),
  v3 0.2706 0.9239 (-0.2706),
  v3 0.1464 0.9239 (-0.3536),
  v3 0.0 0.9239 (-0.3827),
  v3 (-0.1464) 0.9239 (-0.3536),
  v3 (-0.2706) 0.9239 (-0.2706),
  v3 (-0.3536) 0.9239 (-0.1464),
  v3 (-0.3827) 0.9239 0.0,
  v3 (-0.3536) 0.9239 0.1464,
  v3 (-0.2706) 0.9239 0.2706,
  v3 (-0.1464) 0.9239 0.3536,
  -- ring 3
  v3 0.0 0.8315 0.5556,
  v3 0.2126 0.8315 0.5133,
  v3 0.3928 0.8315 0.3928,
  v3 0.5133 0.8315 0.2126,
  v3 0.5556 0.8315 0.0,
  v3 0.5133 0.8315 (-0.2126),
  v3 0.3928 0.8315 (-0.3928),
  v3 0.2126 0.8315 (-0.5133),
  v3 0.0 0.8315 (-0.5556),
  v3 (-0.2126) 0.8315 (-0.5133),
  v3 (-0.3928) 0.8315 (-0.3928),
  v3 (-0.5133) 0.8315 (-0.2126),
  v3 (-0.5556) 0.8315 0.0,
  v3 (-0.5133) 0.8315 0.2126,
  v3 (-0.3928) 0.8315 0.3928,
  v3 (-0.2126) 0.8315 0.5133,
  -- ring 4
  v3 0.0 0.7071 0.7071,
  v3 0.2706 0.7071 0.6533,
  v3 0.5 0.7071 0.5,
  v3 0.6533 0.7071 0.2706,
  v3 0.7071 0.7071 0.0,
  v3 0.6533 0.7071 (-0.2706),
  v3 0.5 0.7071 (-0.5),
  v3 0.2706 0.7071 (-0.6533),
  v3 0.0 0.7071 (-0.7071),
  v3 (-0.2706) 0.7071 (-0.6533),
  v3 (-0.5) 0.7071 (-0.5),
  v3 (-0.6533) 0.7071 (-0.2706),
  v3 (-0.7071) 0.7071 0.0,
  v3 (-0.6533) 0.7071 0.2706,
  v3 (-0.5) 0.7071 0.5,
  v3 (-0.2706) 0.7071 0.6533,
  -- ring 5
  v3 0.0 0.5556 0.8315,
  v3 0.3182 0.5556 0.7682,
  v3 0.5879 0.5556 0.5879,
  v3 0.7682 0.5556 0.3182,
  v3 0.8315 0.5556 0.0,
  v3 0.7682 0.5556 (-0.3182),
  v3 0.5879 0.5556 (-0.5879),
  v3 0.3182 0.5556 (-0.7682),
  v3 0.0 0.5556 (-0.8315),
  v3 (-0.3182) 0.5556 (-0.7682),
  v3 (-0.5879) 0.5556 (-0.5879),
  v3 (-0.7682) 0.5556 (-0.3182),
  v3 (-0.8315) 0.5556 0.0,
  v3 (-0.7682) 0.5556 0.3182,
  v3 (-0.5879) 0.5556 0.5879,
  v3 (-0.3182) 0.5556 0.7682,
  -- ring 6
  v3 0.0 0.3827 0.9239,
  v3 0.3536 0.3827 0.8536,
  v3 0.6533 0.3827 0.6533,
  v3 0.8536 0.3827 0.3536,
  v3 0.9239 0.3827 0.0,
  v3 0.8536 0.3827 (-0.3536),
  v3 0.6533 0.3827 (-0.6533),
  v3 0.3536 0.3827 (-0.8536),
  v3 0.0 0.3827 (-0.9239),
  v3 (-0.3536) 0.3827 (-0.8536),
  v3 (-0.6533) 0.3827 (-0.6533),
  v3 (-0.8536) 0.3827 (-0.3536),
  v3 (-0.9239) 0.3827 0.0,
  v3 (-0.8536) 0.3827 0.3536,
  v3 (-0.6533) 0.3827 0.6533,
  v3 (-0.3536) 0.3827 0.8536,
  -- ring 7
  v3 0.0 0.1951 0.9808,
  v3 0.3753 0.1915 0.9061,
  v3 0.6935 0.1915 0.6935,
  v3 0.9061 0.1915 0.3753,
  v3 0.9808 0.1915 0.0,
  v3 0.9061 0.1915 (-0.3753),
  v3 0.6935 0.1915 (-0.6935),
  v3 0.3753 0.1915 (-0.9061),
  v3 0.0 0.1915 (-0.9808),
  v3 (-0.3753) 0.1915 (-0.9061),
  v3 (-0.6935) 0.1915 (-0.6935),
  v3 (-0.9061) 0.1915 (-0.3753),
  v3 (-0.9808) 0.1915 0.0,
  v3 (-0.9061) 0.1915 0.3753,
  v3 (-0.6935) 0.1915 0.6935,
  v3 (-0.3753) 0.1915 0.9061,
  -- ring 8
  v3 0.0 0.0 1.0,
  v3 0.3827 0.0 0.9239,
  v3 0.7071 0.0 0.7071,
  v3 0.9239 0.0 0.3827,
  v3 1.0 0.0 0.0,
  v3 0.9239 0.0 (-0.3827),
  v3 0.7071 0.0 (-0.7071),
  v3 0.3827 0.0 (-0.9239),
  v3 0.0 0.0 (-1.0),
  v3 (-0.3827) 0.0 (-0.9239),
  v3 (-0.7071) 0.0 (-0.7071),
  v3 (-0.9239) 0.0 (-0.3827),
  v3 (-1.0) 0.0 0.0,
  v3 (-0.9239) 0.0 0.3827,
  v3 (-0.7071) 0.0 0.7071,
  v3 (-0.3827) 0.0 0.9239,
  -- ring 9
  v3 0.0 (-0.1915) 0.9808,
  v3 0.3753 (-0.1915) 0.9061,
  v3 0.6935 (-0.1915) 0.6935,
  v3 0.9061 (-0.1915) 0.3753,
  v3 0.9808 (-0.1915) 0.0,
  v3 0.9061 (-0.1915) (-0.3753),
  v3 0.6935 (-0.1915) (-0.6935),
  v3 0.3753 (-0.1915) (-0.9061),
  v3 0.0 (-0.1915) (-0.9808),
  v3 (-0.3753) (-0.1915) (-0.9061),
  v3 (-0.6935) (-0.1915) (-0.6935),
  v3 (-0.9061) (-0.1915) (-0.3753),
  v3 (-0.9808) (-0.1915) 0.0,
  v3 (-0.9061) (-0.1915) 0.3753,
  v3 (-0.6935) (-0.1915) 0.6935,
  v3 (-0.3753) (-0.1915) 0.9061,
  -- ring 10
  v3 0.0 (-0.3827) 0.9239,
  v3 0.3536 (-0.3827) 0.8536,
  v3 0.6533 (-0.3827) 0.6533,
  v3 0.8536 (-0.3827) 0.3536,
  v3 0.9239 (-0.3827) 0.0,
  v3 0.8536 (-0.3827) (-0.3536),
  v3 0.6533 (-0.3827) (-0.6533),
  v3 0.3536 (-0.3827) (-0.8536),
  v3 0.0 (-0.3827) (-0.9239),
  v3 (-0.3536) (-0.3827) (-0.8536),
  v3 (-0.6533) (-0.3827) (-0.6533),
  v3 (-0.8536) (-0.3827) (-0.3536),
  v3 (-0.9239) (-0.3827) 0.0,
  v3 (-0.8536) (-0.3827) 0.3536,
  v3 (-0.6533) (-0.3827) 0.6533,
  v3 (-0.3536) (-0.3827) 0.8536,
  -- ring 11
  v3 0.0 (-0.5556) 0.8315,
  v3 0.3182 (-0.5556) 0.7682,
  v3 0.5879 (-0.5556) 0.5879,
  v3 0.7682 (-0.5556) 0.3182,
  v3 0.8315 (-0.5556) 0.0,
  v3 0.7682 (-0.5556) (-0.3182),
  v3 0.5879 (-0.5556) (-0.5879),
  v3 0.3182 (-0.5556) (-0.7682),
  v3 0.0 (-0.5556) (-0.8315),
  v3 (-0.3182) (-0.5556) (-0.7682),
  v3 (-0.5879) 0.5556 (-0.5879),
  v3 (-0.7682) (-0.5556) (-0.3182),
  v3 (-0.8315) (-0.5556) 0.0,
  v3 (-0.7682) (-0.5556) 0.3182,
  v3 (-0.5879) (-0.5556) 0.5879,
  v3 (-0.3182) (-0.5556) 0.7682,
  -- ring 12
  v3 0.0 (-0.7071) 0.7071,
  v3 0.2706 (-0.7071) 0.6533,
  v3 0.5 (-0.7071) 0.5,
  v3 0.6533 (-0.7071) 0.2706,
  v3 0.7071 (-0.7071) 0.0,
  v3 0.6533 (-0.7071) (-0.2706),
  v3 0.5 (-0.7071) (-0.5),
  v3 0.2706 (-0.7071) (-0.6533),
  v3 0.0 (-0.7071) (-0.7071),
  v3 (-0.2706) (-0.7071) (-0.6533),
  v3 (-0.5) (-0.7071) (-0.5),
  v3 (-0.6533) (-0.7071) (-0.2706),
  v3 (-0.7071) (-0.7071) 0.0,
  v3 (-0.6533) (-0.7071) 0.2706,
  v3 (-0.5) (-0.7071) 0.5,
  v3 (-0.2706) (-0.7071) 0.6533,
  -- ring 13
  v3 0.0 (-0.8315) 0.5556,
  v3 0.2126 (-0.8315) 0.5133,
  v3 0.3928 (-0.8315) 0.3928,
  v3 0.5133 (-0.8315) 0.2126,
  v3 0.5556 (-0.8315) 0.0,
  v3 0.5133 (-0.8315) (-0.2126),
  v3 0.3928 (-0.8315) (-0.3928),
  v3 0.2126 (-0.8315) (-0.5133),
  v3 0.0 (-0.8315) (-0.5556),
  v3 (-0.2126) (-0.8315) (-0.5133),
  v3 (-0.3928) (-0.8315) (-0.3928),
  v3 (-0.5133) (-0.8315) (-0.2126),
  v3 (-0.5556) (-0.8315) 0.0,
  v3 (-0.5133) (-0.8315) 0.2126,
  v3 (-0.3928) (-0.8315) 0.3928,
  v3 (-0.2126) (-0.8315) 0.5133,
  -- ring 14
  v3 0.0 (-0.9239) 0.3827,
  v3 0.1464 (-0.9239) 0.3536,
  v3 0.2706 (-0.9239) 0.2706,
  v3 0.3536 (-0.9239) 0.1464,
  v3 0.3827 (-0.9239) 0.0,
  v3 0.3536 (-0.9239) (-0.1464),
  v3 0.2706 (-0.9239) (-0.2706),
  v3 0.1464 (-0.9239) (-0.3536),
  v3 0.0 (-0.9239) (-0.3827),
  v3 (-0.1464) (-0.9239) (-0.3536),
  v3 (-0.2706) (-0.9239) (-0.2706),
  v3 (-0.3536) (-0.9239) (-0.1464),
  v3 (-0.3827) (-0.9239) 0.0,
  v3 (-0.3536) (-0.9239) 0.1464,
  v3 (-0.2706) (-0.9239) 0.2706,
  v3 (-0.1464) (-0.9239) 0.3536,
  -- ring 15
  v3 0.0 (-0.9808) 0.1951,
  v3 0.0747 (-0.9808) 0.1802,
  v3 0.1379 (-0.9808) 0.1379,
  v3 0.1802 (-0.9808) 0.0747,
  v3 0.1951 (-0.9808) 0.0,
  v3 0.1802 (-0.9808) (-0.0747),
  v3 0.1379 (-0.9808) (-0.1379),
  v3 0.0747 (-0.9808) (-0.1802),
  v3 0.0 (-0.9808) (-0.1951),
  v3 (-0.0747) (-0.9808) (-0.1802),
  v3 (-0.1379) (-0.9808) (-0.1379),
  v3 (-0.1802) (-0.9808) (-0.0747),
  v3 (-0.1951) (-0.9808) 0.0,
  v3 (-0.1802) (-0.9808) 0.0747,
  v3 (-0.1379) (-0.9808) 0.1379,
  v3 (-0.0747) (-0.9808) 0.1802,
  -- bottom center point
  v3 0.0 (-1.0) 0.0
]

/-- The array `indices` of `UCreateSphereMesh`. -/
def sphereIndices : List Nat := List.flatten [
  -- ring 1 - top
  tri 0 1 2,
  tri 0 2 3,
  tri 0 3 4,
  tri 0 4 5,
  tri 0 5 6,
  tri 0 6 7,
  tri 0 7 8,
  tri 0 8 9,
  tri 0 9 10,
  tri 0 10 11,
  tri 0 11 12,
  tri 0 12 13,
  tri 0 13 14,
  tri 0 14 15,
  tri 0 15 16,
  tri 0 16 1,
  -- ring 1 to ring 2
  tri 1 17 18,
  tri 1 2 18,
  tri 2 18 19,
  tri 2 3 19,
  tri 3 19 20,
  tri 3 4 20,
  tri 4 20 21,
  tri 4 5 21,
  tri 5 21 22,
  tri 5 6 22,
  tri 6 22 23,
  tri 6 7 23,
  tri 7 23 24,
  tri 7 8 24,
  tri 8 24 25,
  tri 8 9 25,
  tri 9 25 26,
  tri 9 10 26,
  tri 10 26 27,
  tri 10 11 27,
  tri 11 27 28,
  tri 11 12 28,
  tri 12 28 29,
  tri 12 13 29,
  tri 13 29 30,
  tri 13 14 30,
  tri 14 30 31,
  tri 14 15 31,
  tri 15 31 32,
  tri 15 16 32,
  tri 16 32 17,
  tri 16 1 17,
  -- ring 2 to ring 3
  tri 17 33 34,
  tri 17 18 34,
  tri 18 34 35,
  tri 18 19 35,
  tri 19 35 36,
  tri 19 20 36,
  tri 20 36 37,
  tri 20 21 37,
  tri 21 37 38,
  tri 21 22 38,
  tri 22 38 39,
  tri 22 23 39,
  tri 23 39 40,
  tri 23 24 40,
  tri 24 40 41,
  tri 24 25 41,
  tri 25 41 42,
  tri 25 26 42,
  tri 26 42 43,
  tri 26 27 43,
  tri 27 43 44,
  tri 27 28 44,
  tri 28 44 45,
  tri 28 29 45,
  tri 29 45 46,
  tri 29 30 46,
  tri 30 46 47,
  tri 30 31 47,
  tri 31 47 48,
  tri 31 32 48,
  tri 32 48 33,
  tri 32 17 33,
  -- ring 3 to ring 4
  tri 33 49 50,
  tri 33 34 50,
  tri 34 50 51,
  tri 34 35 51,
  tri 35 51 52,
  tri 35 36 52,
  tri 36 52 53,
  tri 36 37 53,
  tri 37 53 54,
  tri 37 38 54,
  tri 38 54 55,
  tri 38 39 55,
  tri 39 55 56,
  tri 39 40 56,
  tri 40 56 57,
  tri 40 41 57,
  tri 41 57 58,
  tri 41 42 58,
  tri 42 58 59,
  tri 42 43 59,
  tri 43 59 60,
  tri 43 44 60,
  tri 44 60 61,
  tri 44 45 61,
  tri 45 61 62,
  tri 45 46 62,
  tri 46 62 63,
  tri 46 47 63,
  tri 47 63 64,
  tri 47 48 64,
  tri 48 64 49,
  tri 48 33 49,
  -- ring 4 to ring 5
  tri 49 65 66,
  tri 49 50 66,
  tri 50 66 67,
  tri 50 51 67,
  tri 51 67 68,
  tri 51 52 68,
  tri 52 68 69,
  tri 52 53 69,
  tri 53 69 70,
  tri 53 54 70,
  tri 54 70 71,
  tri 54 55 71,
  tri 55 71 72,
  tri 55 56 72,
  tri 56 72 73,
  tri 56 57 73,
  tri 57 73 74,
  tri 57 58 74,
  tri 58 74 75,
  tri 58 59 75,
  tri 59 75 76,
  tri 59 60 76,
  tri 60 76 77,
  tri 60 61 77,
  tri 61 77 78,
  tri 61 62 78,
  tri 62 78 79,
  tri 62 63 79,
  tri 63 79 80,
  tri 63 64 80,
  tri 64 80 65,
  tri 64 49 65,
  -- ring 5 to ring 6
  tri 65 81 82,
  tri 65 66 82,
  tri 66 82 83,
  tri 66 67 83,
  tri 67 83 84,
  tri 67 68 84,
  tri 68 84 85,
  tri 68 69 85,
  tri 69 85 86,
  tri 69 70 86,
  tri 70 86 87,
  tri 70 71 87,
  tri 71 87 88,
  tri 71 72 88,
  tri 72 88 89,
  tri 72 73 89,
  tri 73 89 90,
  tri 73 74 90,
  tri 74 90 91,
  tri 74 75 91,
  tri 75 91 92,
  tri 75 76 92,
  tri 76 92 93,
  tri 76 77 93,
  tri 77 93 94,
  tri 77 78 94,
  tri 78 94 95,
  tri 78 79 95,
  tri 79 95 96,
  tri 79 80 96,
  tri 80 96 81,
  tri 80 65 81,
  -- ring 6 to ring 7
  tri 81 97 98,
  tri 81 82 98,
  tri 82 98 99,
  tri 82 83 99,
  tri 83 99 100,
  tri 83 84 100,
  tri 84 100 101,
  tri 84 85 101,
  tri 85 101 102,
  tri 85 86 102,
  tri 86 102 103,
  tri 86 87 103,
  tri 87 103 104,
  tri 87 88 104,
  tri 88 104 105,
  tri 88 89 105,
  tri 89 105 106,
  tri 89 90 106,
  tri 90 106 107,
  tri 90 91 107,
  tri 91 107 108,
  tri 91 92 108,
  tri 92 108 109,
  tri 92 93 109,
  tri 93 109 110,
  tri 93 94 110,
  tri 94 110 111,
  tri 94 95 111,
  tri 95 111 112,
  tri 95 96 112,
  tri 96 112 97,
  tri 96 81 97,
  -- ring 7 to ring 8
  tri 97 113 114,
  tri 97 98 114,
  tri 98 114 115,
  tri 98 99 115,
  tri 99 115 116,
  tri 99 100 116,
  tri 100 116 117,
  tri 100 101 117,
  tri 101 117 118,
  tri 101 102 118,
  tri 102 118 119,
  tri 102 103 119,
  tri 103 119 120,
  tri 103 104 120,
  tri 104 120 121,
  tri 104 105 121,
  tri 105 121 122,
  tri 105 106 122,
  tri 106 122 123,
  tri 106 107 123,
  tri 107 123 124,
  tri 107 108 124,
  tri 108 124 125,
  tri 108 109 125,
  tri 109 125 126,
  tri 109 110 126,
  tri 110 126 127,
  tri 110 111 127,
  tri 111 127 128,
  tri 111 112 128,
  tri 112 128 113,
  tri 112 97 113,
  -- ring 8 to ring 9
  tri 113 129 130,
  tri 113 114 130,
  tri 114 130 131,
  tri 114 115 131,
  tri 115 131 132,
  tri 115 116 132,
  tri 116 132 133,
  tri 116 117 133,
  tri 117 133 134,
  tri 117 118 134,
  tri 118 134 135,
  tri 118 119 135,
  tri 119 135 136,
  tri 119 120 136,
  tri 120 136 137,
  tri 120 121 137,
  tri 121 137 138,
  tri 121 122 138,
  tri 122 138 139,
  tri 122 123 139,
  tri 123 139 140,
  tri 123 124 140,
  tri 124 140 141,
  tri 124 125 141,
  tri 125 141 142,
  tri 125 126 142,
  tri 126 142 143,
  tri 126 127 143,
  tri 127 143 144,
  tri 127 128 144,
  tri 128 144 129,
  tri 128 113 129,
  -- ring 9 to ring 10
  tri 129 145 146,
  tri 129 130 146,
  tri 130 146 147,
  tri 130 131 147,
  tri 131 147 148,
  tri 131 132 148,
  tri 132 148 149,
  tri 132 133 149,
  tri 133 149 150,
  tri 133 134 150,
  tri 134 150 151,
  tri 134 135 151,
  tri 135 151 152,
  tri 135 136 152,
  tri 136 152 153,
  tri 136 137 153,
  tri 137 153 154,
  tri 137 138 154,
  tri 138 154 155,
  tri 138 139 155,
  tri 139 155 156,
  tri 139 140 156,
  tri 140 156 157,
  tri 140 141 157,
  tri 141 157 158,
  tri 141 142 158,
  tri 142 158 159,
  tri 142 143 159,
  tri 143 159 160,
  tri 143 144 160,
  tri 144 160 145,
  tri 144 129 145,
  -- ring 10 to ring 11
  tri 145 161 162,
  tri 145 146 162,
  tri 146 162 163,
  tri 146 147 163,
  tri 147 163 164,
  tri 147 148 164,
  tri 148 164 165,
  tri 148 149 165,
  tri 149 165 166,
  tri 149 150 166,
  tri 150 166 167,
  tri 150 151 167,
  tri 151 167 168,
  tri 151 152 168,
  tri 152 168 169,
  tri 152 153 169,
  tri 153 169 170,
  tri 153 154 170,
  tri 154 170 171,
  tri 154 155 171,
  tri 155 171 172,
  tri 155 156 172,
  tri 156 172 173,
  tri 156 157 173,
  tri 157 173 174,
  tri 157 158 174,
  tri 158 174 175,
  tri 158 159 175,
  tri 159 175 176,
  tri 159 160 176,
  tri 160 176 161,
  tri 160 145 161,
  -- ring 11 to ring 12
  tri 161 177 178,
  tri 161 162 178,
  tri 162 178 179,
  tri 162 163 179,
  tri 163 179 180,
  tri 163 164 180,
  tri 164 180 181,
  tri 164 165 181,
  tri 165 181 182,
  tri 165 166 182,
  tri 166 182 183,
  tri 166 167 183,
  tri 167 183 184,
  tri 167 168 184,
  tri 168 184 185,
  tri 168 169 185,
  tri 169 185 186,
  tri 169 170 186,
  tri 170 186 187,
  tri 170 171 187,
  tri 171 187 188,
  tri 171 172 188,
  tri 172 188 189,
  tri 172 173 189,
  tri 173 189 190,
  tri 173 174 190,
  tri 174 190 191,
  tri 174 175 191,
  tri 175 191 192,
  tri 175 176 192,
  tri 176 192 177,
  tri 176 161 177,
  -- ring 12 to ring 13
  tri 177 193 194,
  tri 177 178 194,
  tri 178 194 195,
  tri 178 179 195,
  tri 179 195 196,
  tri 179 180 196,
  tri 180 196 197,
  tri 180 181 197,
  tri 181 197 198,
  tri 181 182 198,
  tri 182 198 199,
  tri 182 183 199,
  tri 183 199 200,
  tri 183 184 200,
  tri 184 200 201,
  tri 184 185 201,
  tri 185 201 202,
  tri 185 186 202,
  tri 186 202 203,
  tri 186 187 203,
  tri 187 203 204,
  tri 187 188 204,
  tri 188 204 205,
  tri 188 189 205,
  tri 189 205 206,
  tri 189 190 206,
  tri 190 206 207,
  tri 190 191 207,
  tri 191 207 208,
  tri 191 192 208,
  tri 192 208 193,
  tri 192 177 193,
  -- ring 13 to ring 14
  tri 193 209 210,
  tri 193 194 210,
  tri 194 210 211,
  tri 194 195 211,
  tri 195 211 212,
  tri 195 196 212,
  tri 196 212 213,
  tri 196 197 213,
  tri 197 213 214,
  tri 197 198 214,
  tri 198 214 215,
  tri 198 199 215,
  tri 199 215 216,
  tri 199 200 216,
  tri 200 216 217,
  tri 200 201 217,
  tri 201 217 218,
  tri 201 202 218,
  tri 202 218 219,
  tri 202 203 219,
  tri 203 219 220,
  tri 203 204 220,
  tri 204 220 221,
  tri 204 205 221,
  tri 205 221 222,
  tri 205 206 222,
  tri 206 222 223,
  tri 206 207 223,
  tri 207 223 224,
  tri 207 208 224,
  tri 208 224 209,
  tri 208 193 209,
  -- ring 14 to ring 15
  tri 209 225 226,
  tri 209 210 226,
  tri 210 226 227,
  tri 210 211 227,
  tri 211 227 228,
  tri 211 212 228,
  tri 212 228 229,
  tri 212 213 229,
  tri 213 229 230,
  tri 213 214 230,
  tri 214 230 231,
  tri 214 215 231,
  tri 215 231 232,
  tri 215 216 232,
  tri 216 232 233,
  tri 216 217 233,
  tri 217 233 234,
  tri 217 218 234,
  tri 218 234 235,
  tri 218 219 235,
  tri 219 235 236,
  tri 219 220 236,
  tri 220 236 237,
  tri 220 221 237,
  tri 221 237 238,
  tri 221 222 238,
  tri 222 238 239,
  tri 222 223 239,
  tri 223 239 240,
  tri 223 224 240,
  tri 224 240 225,
  tri 224 209 225,
  -- ring 15 - bottom
  tri 225 226 241,
  tri 226 227 241,
  tri 227 228 241,
  tri 228 229 241,
  tri 229 239 241,
  tri 230 231 241,
  tri 231 232 241,
  tri 232 233 241,
  tri 233 234 241,
  tri 234 235 241,
  tri 235 236 241,
  tri 236 237 241,
  tri 237 238 241,
  tri 238 239 241,
  tri 239 240 241,
  tri 240 225 241
]

/-- The counts a `GLMesh` stores (the handles `vao` and `vbos` are left out). -/
structure GLMesh where
  nVertices : Nat
  nIndices : Nat
  deriving DecidableEq, Repr

/-- `sizeof(GLfloat)` and `sizeof(GLuint)`. -/
def sizeofElem : Nat := 4

def floatsPerVertex : Nat := 3
def floatsPerNormal : Nat := 3
def floatsPerUV : Nat := 2

/-- `sizeof(verts)` of an array with the given elements. -/
def sizeofArray {α : Type} (a : List α) : Nat := sizeofElem * a.length

/-- The counts `UCreatePlaneMesh` stores. -/
def UCreatePlaneMesh : GLMesh :=
  { nVertices := sizeofArray planeVerts /
      (sizeofElem * (floatsPerVertex + floatsPerNormal + floatsPerUV)),
    nIndices := sizeofArray planeIndices / sizeofElem }

/-- The counts `UCreateBoxMesh` stores. -/
def UCreateBoxMesh : GLMesh :=
  { nVertices := sizeofArray boxVerts /
      (sizeofElem * (floatsPerVertex + floatsPerNormal + floatsPerUV)),
    nIndices := sizeofArray boxIndices / sizeofElem }

/-- The counts `UCreateCylinderMesh` stores. -/
def UCreateCylinderMesh : GLMesh :=
  { nVertices := sizeofArray cylinderVerts /
      (sizeofElem * (floatsPerVertex + floatsPerNormal + floatsPerUV)),
    nIndices := 0 }

/-- The counts `UCreateSphereMesh` stores. -/
def UCreateSphereMesh : GLMesh :=
  { nVertices := sizeofArray sphereVerts / (sizeofElem * floatsPerVertex),
    nIndices := sizeofArray sphereIndices / sizeofElem }

/-- Float `off` of vertex `k` in an interleaved buffer of stride
`floatsPerVertex + floatsPerNormal + floatsPerUV`, as the attribute pointers
address it. -/
def attrib (buf : List ℚ) (k off : Nat) : Option ℚ :=
  buf.get? ((floatsPerVertex + floatsPerNormal + floatsPerUV) * k + off)

/-- The position of vertex `k` (attribute 0: three floats at offset 0). -/
def positionOf (buf : List ℚ) (k : Nat) : Option (ℚ × ℚ × ℚ) :=
  match attrib buf k 0, attrib buf k 1, attrib buf k 2 with
  | some x, some y, some z => some (x, y, z)
  | _, _, _ => none

/-- The normal of vertex `k` (attribute 1: three floats at offset
`floatsPerVertex`). -/
def normalOf (buf : List ℚ) (k : Nat) : Option (ℚ × ℚ × ℚ) :=
  match attrib buf k floatsPerVertex, attrib buf k (floatsPerVertex + 1),
    attrib buf k (floatsPerVertex + 2) with
  | some x, some y, some z => some (x, y, z)
  | _, _, _ => none

/-- The array `verts` of `UCreateMesh` in `main.cpp`: position, normal, texture coordinate per row. -/
def gMeshVerts : List ℚ := List.flatten [
  v8 (-0.5) (-0.5) 0.5 1.0 0.0 (-1.0) 0.0 0.0,
  v8 (-0.5) (-0.5) (-0.5) 0.0 0.0 (-1.0) 1.0 0.0,
  v8 0.0 0.5 0.0 1.0 1.0 (-1.0) 0.0 1.0,
  v8 0.5 (-0.5) (-0.5) 0.0 0.0 1.0 0.0 0.0,
  v8 0.5 (-0.5) 0.5 1.0 0.0 1.0 1.0 0.0,
  v8 0.0 0.5 0.0 0.5 0.5 1.0 0.0 1.0,
  v8 (-0.5) (-0.5) (-0.5) 0.0 0.0 0.0 0.0 0.0,
  v8 0.5 (-0.5) (-0.5) 1.0 0.0 0.0 1.0 0.0,
  v8 0.0 0.5 0.0 0.5 0.5 0.0 0.0 1.0,
  v8 (-0.5) (-0.5) 0.5 0.0 0.0 0.0 0.0 0.0,
  v8 0.5 (-0.5) 0.5 1.0 0.0 0.0 1.0 0.0,
  v8 0.0 0.5 0.0 0.5 0.5 0.0 0.0 1.0,
  v8 (-0.5) (-0.5) (-0.5) 0.0 0.0 0.0 0.0 0.0,
  v8 0.5 (-0.5) (-0.5) 1.0 0.0 0.0 0.0 1.0,
  v8 0.5 (-0.5) 0.5 1.0 1.0 0.0 1.0 0.0,
  v8 (-0.5) (-0.5) (-0.5) 0.0 0.0 0.0 1.0 0.0,
  v8 (-0.5) (-0.5) 0.5 0.0 1.0 0.0 0.0 1.0,
  v8 0.5 (-0.5) 0.5 1.0 1.0 0.0 1.0 1.0
]

/-- The `nvertices` that `UCreateMesh` of `main.cpp` stores in `gMesh`. -/
def UCreateMesh_nvertices : Nat :=
  sizeofArray gMeshVerts / (sizeofElem * (floatsPerVertex + floatsPerNormal + floatsPerUV))

/-! ## The frame renderer (`URender`, `main.cpp`) -/

/-- The `GLMesh` members of the class `Meshes`. -/
inductive MeshName
  | gBoxMesh | gConeMesh | gCylinderMesh | gTaperedCylinderMesh | gPlaneMesh
  | gPrismMesh | gSphereMesh | gPyramid3Mesh | gPyramid4Mesh | gTorusMesh
  deriving DecidableEq, Repr

/-- The members `Meshes::CreateMeshes` initialises, in the order of its calls. -/
def CreateMeshes : List MeshName :=
  [MeshName.gPlaneMesh, MeshName.gPrismMesh, MeshName.gBoxMesh, MeshName.gConeMesh,
   MeshName.gCylinderMesh, MeshName.gTaperedCylinderMesh, MeshName.gPyramid3Mesh,
   MeshName.gPyramid4Mesh, MeshName.gSphereMesh, MeshName.gTorusMesh]

/-- The kinds of primitive the specification lists. -/
inductive PrimitiveKind
  | box | cone | cylinder | pyramid | sphere | torus | plane | prism
  deriving DecidableEq, Repr

/-- The kind of primitive each member of `Meshes` holds. -/
def MeshName.kind : MeshName → PrimitiveKind
  | MeshName.gBoxMesh => PrimitiveKind.box
  | MeshName.gConeMesh => PrimitiveKind.cone
  | MeshName.gCylinderMesh => PrimitiveKind.cylinder
  | MeshName.gTaperedCylinderMesh => PrimitiveKind.cylinder
  | MeshName.gPlaneMesh => PrimitiveKind.plane
  | MeshName.gPrismMesh => PrimitiveKind.prism
  | MeshName.gSphereMesh => PrimitiveKind.sphere
  | MeshName.gPyramid3Mesh => PrimitiveKind.pyramid
  | MeshName.gPyramid4Mesh => PrimitiveKind.pyramid
  | MeshName.gTorusMesh => PrimitiveKind.torus

/-- A vertex array handle, named by where the program reads it from:
`Objects.<member>.vao`, `gMesh.vao` of `main.cpp`, or the literal `0`. -/
inductive Vao
  | Objects (m : MeshName)
  | gMesh
  | zero
  deriving DecidableEq, Repr

inductive DrawMode
  | GL_TRIANGLES | GL_TRIANGLE_FAN | GL_TRIANGLE_STRIP
  deriving DecidableEq, Repr

inductive Texture
  | TextureId | TextureId2 | TextureId3
  deriving DecidableEq, Repr

inductive Uniform
  | lightColor | lightPos | viewPosition | color | Vloc | MMloc
  deriving DecidableEq, Repr

/-- The calls `URender` issues. -/
inductive GLCall
  | glClearColor
  | glEnable
  | glDepthFunc
  | glClear
  | glUseProgram
  | glGetUniformLocation (u : Uniform)
  | glUniform3f (u : Uniform)
  | glUniformMatrix4fv (u : Uniform)
  | glBindTexture (t : Texture)
  | glBindVertexArray (v : Vao)
  | glDrawElements (mode : DrawMode) (count : Nat)
  | glDrawArrays (mode : DrawMode) (first count : Nat)
  | glfwSwapBuffers
  deriving DecidableEq, Repr

/-- `URender()`: the calls of one frame, in order, given `Objects.gBoxMesh` and
`gMesh.nvertices`. -/
def URender (gBoxMesh : GLMesh) (gMesh_nvertices : Nat) : List GLCall :=
  [ GLCall.glClearColor,
    GLCall.glEnable,
    GLCall.glDepthFunc,
    GLCall.glClear,
    GLCall.glUseProgram,
    GLCall.glGetUniformLocation Uniform.lightColor,
    GLCall.glGetUniformLocation Uniform.lightPos,
    GLCall.glGetUniformLocation Uniform.viewPosition,
    GLCall.glUniform3f Uniform.lightColor,
    GLCall.glUniform3f Uniform.lightPos,
    GLCall.glUniform3f Uniform.viewPosition,
    GLCall.glGetUniformLocation Uniform.color,
    GLCall.glBindTexture Texture.TextureId,
    GLCall.glUniformMatrix4fv Uniform.Vloc,
    GLCall.glBindVertexArray (Vao.Objects MeshName.gBoxMesh),
    -- Desk
    GLCall.glUniformMatrix4fv Uniform.MMloc,
    GLCall.glUniform3f Uniform.color,
    GLCall.glDrawElements DrawMode.GL_TRIANGLES gBoxMesh.nIndices,
    -- Monitor
    GLCall.glBindTexture Texture.TextureId2,
    GLCall.glUniformMatrix4fv Uniform.MMloc,
    GLCall.glUniform3f Uniform.color,
    GLCall.glDrawElements DrawMode.GL_TRIANGLES gBoxMesh.nIndices,
    GLCall.glBindVertexArray Vao.gMesh,
    GLCall.glBindTexture Texture.TextureId3,
    -- Cylinders
    GLCall.glBindVertexArray (Vao.Objects MeshName.gCylinderMesh),
    GLCall.glUniformMatrix4fv Uniform.MMloc,
    GLCall.glUniform3f Uniform.color,
    GLCall.glDrawArrays DrawMode.GL_TRIANGLE_FAN 0 36,
    GLCall.glDrawArrays DrawMode.GL_TRIANGLE_FAN 36 36,
    GLCall.glDrawArrays DrawMode.GL_TRIANGLE_STRIP 72 146,
    GLCall.glBindVertexArray Vao.gMesh,
    GLCall.glDrawArrays DrawMode.GL_TRIANGLES 0 gMesh_nvertices,
    GLCall.glBindVertexArray Vao.zero,
    GLCall.glfwSwapBuffers ]

/-- The draw calls of a run of calls, each with the vertex array bound when it
is issued; `bound` is the vertex array bound on entry. -/
def drawCalls : Vao → List GLCall → List (Vao × GLCall)
  | _, [] => []
  | _, GLCall.glBindVertexArray v :: rest => drawCalls v rest
  | bound, GLCall.glDrawElements mode count :: rest =>
    (bound, GLCall.glDrawElements mode count) :: drawCalls bound rest
  | bound, GLCall.glDrawArrays mode first count :: rest =>
    (bound, GLCall.glDrawArrays mode first count) :: drawCalls bound rest
  | bound, _ :: rest => drawCalls bound rest

/-- The vertex arrays a run of calls binds. -/
def boundVaos : List GLCall → List Vao
  | [] => []
  | GLCall.glBindVertexArray v :: rest => v :: boundVaos rest
  | _ :: rest => boundVaos rest

/-- One frame binds the vertex array of member `m` and issues a draw call while
it is bound. -/
def rendersMesh (frame : List GLCall) (m : MeshName) : Prop :=
  Vao.Objects m ∈ boundVaos frame ∧
    ∃ d ∈ drawCalls Vao.zero frame, d.1 = Vao.Objects m

instance (frame : List GLCall) (m : MeshName) : Decidable (rendersMesh frame m) := by
  unfold rendersMesh
  infer_instance


/-- The drawing commands the header comment of `UCreateCylinderMesh` gives as
correct: `(mode, first, count)` of each `glDrawArrays`. -/
def cylinderDocumentedDraws : List (DrawMode × Nat × Nat) :=
  [(DrawMode.GL_TRIANGLE_FAN, 0, 36),      -- bottom
   (DrawMode.GL_TRIANGLE_FAN, 36, 36),     -- top
   (DrawMode.GL_TRIANGLE_STRIP, 72, 146)]  -- sides

/-- The `glDrawArrays` calls issued while the vertex array `v` is bound, as
`(mode, first, count)`. -/
def arrayDraws (v : Vao) : List (Vao × GLCall) → List (DrawMode × Nat × Nat)
  | [] => []
  | (w, GLCall.glDrawArrays mode first count) :: rest =>
    if w = v then (mode, first, count) :: arrayDraws v rest else arrayDraws v rest
  | _ :: rest => arrayDraws v rest

/-- Vertex `k` lies in the range `(first, count)`. -/
def inRange (r : Nat × Nat) (k : Nat) : Prop := r.1 ≤ k ∧ k < r.1 + r.2

instance (r : Nat × Nat) (k : Nat) : Decidable (inRange r k) := by
  unfold inRange
  infer_instance

/-! ## The remaining mesh tables and counts (`meshes.cpp`) -/

/-- The array `verts` of `UCreatePyramid3Mesh`: position, normal, texture coordinate per row. -/
def pyramid3Verts : List ℚ := List.flatten [
  -- Vertex Positions Normals Texture coords
  -- left side
  v8 0.0 0.5 0.0 (-0.894427180) 0.0 (-0.447213590) 0.5 1.0,
  v8 0.0 (-0.5) (-0.5) (-0.894427180) 0.0 (-0.447213590) 0.0 0.0,
  v8 (-0.5) (-0.5) 0.5 (-0.894427180) 0.0 (-0.447213590) 1.0 0.0,
  v8 0.0 0.5 0.0 (-0.894427180) 0.0 (-0.447213590) 0.5 1.0,
  -- right side
  v8 0.0 0.5 0.0 0.894427180 0.0 (-0.447213590) 0.5 1.0,
  v8 0.5 (-0.5) 0.5 0.894427180 0.0 (-0.447213590) 0.0 0.0,
  v8 0.0 (-0.5) (-0.5) 0.894427180 0.0 (-0.447213590) 1.0 0.0,
  v8 0.0 0.5 0.0 0.894427180 0.0 (-0.447213590) 0.5 1.0,
  -- front side
  v8 0.0 0.5 0.0 0.0 0.0 1.0 0.5 1.0,
  v8 (-0.5) (-0.5) 0.5 0.0 0.0 1.0 0.0 0.0,
  v8 0.5 (-0.5) 0.5 0.0 0.0 1.0 1.0 0.0,
  v8 0.0 0.5 0.0 0.0 0.0 1.0 0.5 1.0,
  -- bottom side
  v8 (-0.5) (-0.5) 0.5 0.0 (-1.0) 0.0 0.0 1.0,
  v8 0.5 (-0.5) 0.5 0.0 (-1.0) 0.0 1.0 1.0,
  v8 0.0 (-0.5) (-0.5) 0.0 (-1.0) 0.0 0.5 0.0,
  v8 (-0.5) (-0.5) 0.5 0.0 (-1.0) 0.0 0.0 1.0
]

/-- The array `verts` of `UCreatePyramid4Mesh`: position, normal, texture coordinate per row. -/
def pyramid4Verts : List ℚ := List.flatten [
  -- Vertex Positions Normals Texture coords
  -- bottom side
  v8 (-0.5) (-0.5) 0.5 0.0 (-1.0) 0.0 0.0 1.0,
  v8 (-0.5) (-0.5) (-0.5) 0.0 (-1.0) 0.0 0.0 0.0,
  v8 0.5 (-0.5) (-0.5) 0.0 (-1.0) 0.0 1.0 0.0,
  v8 (-0.5) (-0.5) 0.5 0.0 (-1.0) 0.0 0.0 1.0,
  v8 (-0.5) (-0.5) 0.5 0.0 (-1.0) 0.0 0.0 1.0,
  v8 0.5 (-0.5) 0.5 0.0 (-1.0) 0.0 1.0 1.0,
  v8 0.5 (-0.5) (-0.5) 0.0 (-1.0) 0.0 1.0 0.0,
  v8 (-0.5) (-0.5) 0.5 0.0 (-1.0) 0.0 0.0 1.0,
  -- back side
  v8 0.0 0.5 0.0 0.0 0.0 (-1.0) 0.5 1.0,
  v8 0.5 (-0.5) (-0.5) 0.0 0.0 (-1.0) 0.0 0.0,
  v8 (-0.5) (-0.5) (-0.5) 0.0 0.0 (-1.0) 1.0 0.0,
  v8 0.0 0.5 0.0 0.0 0.0 (-1.0) 0.5 1.0,
  -- left side
  v8 0.0 0.5 0.0 (-1.0) 0.0 0.0 0.5 1.0,
  v8 (-0.5) (-0.5) (-0.5) (-1.0) 0.0 0.0 0.0 0.0,
  v8 (-0.5) (-0.5) 0.5 (-1.0) 0.0 0.0 1.0 0.0,
  v8 0.0 0.5 0.0 (-1.0) 0.0 0.0 0.5 1.0,
  -- right side
  v8 0.0 0.5 0.0 1.0 0.0 0.0 0.5 1.0,
  v8 0.5 (-0.5) 0.5 1.0 0.0 0.0 0.0 0.0,
  v8 0.5 (-0.5) (-0.5) 1.0 0.0 0.0 1.0 0.0,
  v8 0.0 0.5 0.0 1.0 0.0 0.0 0.5 1.0,
  -- front side
  v8 0.0 0.5 0.0 0.0 0.0 1.0 0.5 1.0,
  v8 (-0.5) (-0.5) 0.5 0.0 0.0 1.0 0.0 0.0,
  v8 0.5 (-0.5) 0.5 0.0 0.0 1.0 1.0 0.0,
  v8 0.0 0.5 0.0 0.0 0.0 1.0 0.5 1.0
]

/-- The array `verts` of `UCreatePrismMesh`: position, normal, texture coordinate per row. -/
def prismVerts : List ℚ := List.flatten [
  -- Positions Normals
  -- Back Face Negative Z Normal
  v8 0.5 0.5 (-0.5) 0.0 0.0 (-1.0) 0.0 1.0,
  v8 0.5 (-0.5) (-0.5) 0.0 0.0 (-1.0) 0.0 0.0,
  v8 (-0.5) (-0.5) (-0.5) 0.0 0.0 (-1.0) 1.0 0.0,
  v8 0.5 0.5 (-0.5) 0.0 0.0 (-1.0) 0.0 1.0,
  v8 0.5 0.5 (-0.5) 0.0 0.0 (-1.0) 0.0 1.0,
  v8 (-0.5) 0.5 (-0.5) 0.0 0.0 (-1.0) 1.0 1.0,
  v8 (-0.5) (-0.5) (-0.5) 0.0 0.0 (-1.0) 1.0 0.0,
  v8 0.5 0.5 (-0.5) 0.0 0.0 (-1.0) 0.0 1.0,
  -- Bottom Face Negative Y Normal
  v8 0.5 (-0.5) (-0.5) 0.0 (-1.0) 0.0 0.0 0.0,
  v8 (-0.5) (-0.5) (-0.5) 0.0 (-1.0) 0.0 1.0 0.0,
  v8 0.0 (-0.5) 0.5 0.0 (-1.0) 0.0 0.5 1.0,
  v8 (-0.5) (-0.5) (-0.5) 0.0 (-1.0) 0.0 0.0 0.0,
  -- Left Face/slanted Normals
  v8 (-0.5) (-0.5) (-0.5) 0.894427180 0.0 (-0.447213590) 0.0 0.0,
  v8 (-0.5) 0.5 (-0.5) 0.894427180 0.0 (-0.447213590) 0.0 1.0,
  v8 0.0 0.5 0.5 0.894427180 0.0 (-0.447213590) 1.0 1.0,
  v8 (-0.5) (-0.5) (-0.5) 0.894427180 0.0 (-0.447213590) 0.0 0.0,
  v8 (-0.5) (-0.5) (-0.5) 0.894427180 0.0 (-0.447213590) 0.0 0.0,
  v8 0.0 (-0.5) 0.5 0.894427180 0.0 (-0.447213590) 1.0 0.0,
  v8 0.0 0.5 0.5 0.894427180 0.0 (-0.447213590) 1.0 1.0,
  v8 (-0.5) (-0.5) (-0.5) 0.894427180 0.0 (-0.447213590) 0.0 0.0,
  -- Right Face/slanted Normals
  v8 0.0 0.5 0.5 (-0.894427180) 0.0 (-0.447213590) 0.0 1.0,
  v8 0.5 0.5 (-0.5) (-0.894427180) 0.0 (-0.447213590) 1.0 1.0,
  v8 0.5 (-0.5) (-0.5) (-0.894427180) 0.0 (-0.447213590) 1.0 0.0,
  v8 0.0 0.5 0.5 (-0.894427180) 0.0 (-0.447213590) 0.0 1.0,
  v8 0.0 0.5 0.5 (-0.894427180) 0.0 (-0.447213590) 0.0 1.0,
  v8 0.0 (-0.5) 0.5 (-0.894427180) 0.0 (-0.447213590) 0.0 0.0,
  v8 0.5 (-0.5) (-0.5) (-0.894427180) 0.0 (-0.447213590) 1.0 0.0,
  v8 0.0 0.5 0.5 (-0.894427180) 0.0 (-0.447213590) 0.0 1.0,
  -- Top Face Positive Y Normal Texture Coords.
  v8 0.5 0.5 (-0.5) 0.0 1.0 0.0 0.0 0.0,
  v8 0.0 0.5 0.5 0.0 1.0 0.0 0.5 1.0,
  v8 (-0.5) 0.5 (-0.5) 0.0 1.0 0.0 1.0 0.0,
  v8 0.5 0.5 (-0.5) 0.0 1.0 0.0 0.0 0.0
]

/-- The array `verts` of `UCreateConeMesh`: position, normal, texture coordinate per row. -/
def coneVerts : List ℚ := List.flatten [
  -- cone bottom normals texture coords
  v8 1.0 0.0 0.0 0.0 (-1.0) 0.0 0.5 1.0,
  v8 0.98 0.0 (-0.17) 0.0 (-1.0) 0.0 0.41 0.983,
  v8 0.94 0.0 (-0.34) 0.0 (-1.0) 0.0 0.33 0.96,
  v8 0.87 0.0 (-0.5) 0.0 (-1.0) 0.0 0.25 0.92,
  v8 0.77 0.0 (-0.64) 0.0 (-1.0) 0.0 0.17 0.87,
  v8 0.64 0.0 (-0.77) 0.0 (-1.0) 0.0 0.13 0.83,
  v8 0.5 0.0 (-0.87) 0.0 (-1.0) 0.0 0.08 0.77,
  v8 0.34 0.0 (-0.94) 0.0 (-1.0) 0.0 0.04 0.68,
  v8 0.17 0.0 (-0.98) 0.0 (-1.0) 0.0 0.017 0.6,
  v8 0.0 0.0 (-1.0) 0.0 (-1.0) 0.0 0.0 0.5,
  v8 (-0.17) 0.0 (-0.98) 0.0 (-1.0) 0.0 0.017 0.41,
  v8 (-0.34) 0.0 (-0.94) 0.0 (-1.0) 0.0 0.04 0.33,
  v8 (-0.5) 0.0 (-0.87) 0.0 (-1.0) 0.0 0.08 0.25,
  v8 (-0.64) 0.0 (-0.77) 0.0 (-1.0) 0.0 0.13 0.17,
  v8 (-0.77) 0.0 (-0.64) 0.0 (-1.0) 0.0 0.17 0.13,
  v8 (-0.87) 0.0 (-0.5) 0.0 (-1.0) 0.0 0.25 0.08,
  v8 (-0.94) 0.0 (-0.34) 0.0 (-1.0) 0.0 0.33 0.04,
  v8 (-0.98) 0.0 (-0.17) 0.0 (-1.0) 0.0 0.41 0.017,
  v8 (-1.0) 0.0 0.0 0.0 (-1.0) 0.0 0.5 0.0,
  v8 (-0.98) 0.0 0.17 0.0 (-1.0) 0.0 0.6 0.017,
  v8 (-0.94) 0.0 0.34 0.0 (-1.0) 0.0 0.68 0.04,
  v8 (-0.87) 0.0 0.5 0.0 (-1.0) 0.0 0.77 0.08,
  v8 (-0.77) 0.0 0.64 0.0 (-1.0) 0.0 0.83 0.13,
  v8 (-0.64) 0.0 0.77 0.0 (-1.0) 0.0 0.87 0.17,
  v8 (-0.5) 0.0 0.87 0.0 (-1.0) 0.0 0.92 0.25,
  v8 (-0.34) 0.0 0.94 0.0 (-1.0) 0.0 0.96 0.33,
  v8 (-0.17) 0.0 0.98 0.0 (-1.0) 0.0 0.983 0.41,
  v8 0.0 0.0 1.0 0.0 (-1.0) 0.0 1.0 0.5,
  v8 0.17 0.0 0.98 0.0 (-1.0) 0.0 0.983 0.6,
  v8 0.34 0.0 0.94 0.0 (-1.0) 0.0 0.96 0.68,
  v8 0.5 0.0 0.87 0.0 (-1.0) 0.0 0.92 0.77,
  v8 0.64 0.0 0.77 0.0 (-1.0) 0.0 0.87 0.83,
  v8 0.77 0.0 0.64 0.0 (-1.0) 0.0 0.83 0.87,
  v8 0.87 0.0 0.5 0.0 (-1.0) 0.0 0.77 0.92,
  v8 0.94 0.0 0.34 0.0 (-1.0) 0.0 0.68 0.96,
  v8 0.98 0.0 0.17 0.0 (-1.0) 0.0 0.6 0.983,
  -- cone sides normals texture coords
  v8 1.0 0.0 0.0 0.993150651 0.0 0.116841137 0.0 0.0,
  v8 0.0 1.0 0.0 0.993150651 0.0 0.116841137 0.5 1.0,
  v8 0.98 0.0 (-0.17) 0.993150651 0.0 0.116841137 0.0277 0.0,
  v8 0.98 0.0 (-0.17) 0.973417103 0.0 0.229039446 0.0277 0.0,
  v8 0.0 1.0 0.0 0.973417103 0.0 0.229039446 0.5 1.0,
  v8 0.94 0.0 (-0.34) 0.973417103 0.0 0.229039446 0.0554 0.0,
  v8 0.94 0.0 (-0.34) 0.916157305 0.0 0.400818795 0.0554 0.0,
  v8 0.0 1.0 0.0 0.916157305 0.0 0.400818795 0.5 1.0,
  v8 0.87 0.0 (-0.5) 0.916157305 0.0 0.400818795 0.0831 0.0,
  v8 0.87 0.0 (-0.5) 0.813733339 0.0 0.581238329 0.0831 0.0,
  v8 0.0 1.0 0.0 0.813733339 0.0 0.581238329 0.5 1.0,
  v8 0.77 0.0 (-0.64) 0.813733339 0.0 0.581238329 0.1108 0.0,
  v8 0.77 0.0 (-0.64) 0.707106769 0.0 0.707106769 0.1108 0.0,
  v8 0.0 1.0 0.0 0.707106769 0.0 0.707106769 0.5 1.0,
  v8 0.64 0.0 (-0.77) 0.707106769 0.0 0.707106769 0.1385 0.0,
  v8 0.64 0.0 (-0.77) 0.581238329 0.0 0.813733339 0.1385 0.0,
  v8 0.0 1.0 0.0 0.581238329 0.0 0.813733339 0.5 1.0,
  v8 0.5 0.0 (-0.87) 0.581238329 0.0 0.813733339 0.1662 0.0,
  v8 0.5 0.0 (-0.87) 0.400818795 0.0 0.916157305 0.1662 0.0,
  v8 0.0 1.0 0.0 0.400818795 0.0 0.916157305 0.5 1.0,
  v8 0.34 0.0 (-0.94) 0.400818795 0.0 0.916157305 0.1939 0.0,
  v8 0.34 0.0 (-0.94) 0.229039446 0.0 0.973417103 0.1939 0.0,
  v8 0.0 1.0 0.0 0.229039446 0.0 0.973417103 0.5 1.0,
  v8 0.17 0.0 (-0.98) 0.229039446 0.0 0.973417103 0.2216 0.0,
  v8 0.17 0.0 (-0.98) 0.116841137 0.0 0.993150651 0.2216 0.0,
  v8 0.0 1.0 0.0 0.116841137 0.0 0.993150651 0.5 1.0,
  v8 0.0 0.0 (-1.0) 0.116841137 0.0 0.993150651 0.2493 0.0,
  v8 0.0 0.0 (-1.0) (-0.116841137) 0.0 0.993150651 0.2493 0.0,
  v8 0.0 1.0 0.0 (-0.116841137) 0.0 0.993150651 0.5 1.0,
  v8 (-0.17) 0.0 (-0.98) (-0.116841137) 0.0 0.993150651 0.277 0.0,
  v8 (-0.17) 0.0 (-0.98) (-0.229039446) 0.0 0.973417103 0.277 0.0,
  v8 0.0 1.0 0.0 (-0.229039446) 0.0 0.973417103 0.5 1.0,
  v8 (-0.34) 0.0 (-0.94) (-0.229039446) 0.0 0.973417103 0.3047 0.0,
  v8 (-0.34) 0.0 (-0.94) (-0.400818795) 0.0 0.916157305 0.3047 0.0,
  v8 0.0 1.0 0.0 (-0.400818795) 0.0 0.916157305 0.5 1.0,
  v8 (-0.5) 0.0 (-0.87) (-0.400818795) 0.0 0.916157305 0.3324 0.0,
  v8 (-0.5) 0.0 (-0.87) (-0.581238329) 0.0 0.813733339 0.3324 0.0,
  v8 0.0 1.0 0.0 (-0.581238329) 0.0 0.813733339 0.5 1.0,
  v8 (-0.64) 0.0 (-0.77) (-0.581238329) 0.0 0.813733339 0.3601 0.0,
  v8 (-0.64) 0.0 (-0.77) (-0.707106769) 0.0 0.707106769 0.3601 0.0,
  v8 0.0 1.0 0.0 (-0.707106769) 0.0 0.707106769 0.5 1.0,
  v8 (-0.77) 0.0 (-0.64) (-0.707106769) 0.0 0.707106769 0.3878 0.0,
  v8 (-0.77) 0.0 (-0.64) (-0.813733339) 0.0 0.581238329 0.3878 0.0,
  v8 0.0 1.0 0.0 (-0.813733339) 0.0 0.581238329 0.5 1.0,
  v8 (-0.87) 0.0 (-0.5) (-0.813733339) 0.0 0.581238329 0.4155 0.0,
  v8 (-0.87) 0.0 (-0.5) (-0.916157305) 0.0 0.400818795 0.4155 0.0,
  v8 0.0 1.0 0.0 (-0.916157305) 0.0 0.400818795 0.5 1.0,
  v8 (-0.94) 0.0 (-0.34) (-0.916157305) 0.0 0.400818795 0.4432 0.0,
  v8 (-0.94) 0.0 (-0.34) (-0.973417103) 0.0 0.229039446 0.4432 0.0,
  v8 0.0 1.0 0.0 (-0.973417103) 0.0 0.229039446 0.5 1.0,
  v8 (-0.98) 0.0 (-0.17) (-0.973417103) 0.0 0.229039446 0.4709 0.0,
  v8 (-0.98) 0.0 (-0.17) (-0.993150651) 0.0 0.116841137 0.4709 0.0,
  v8 0.0 1.0 0.0 (-0.993150651) 0.0 0.116841137 0.5 1.0,
  v8 (-1.0) 0.0 0.0 (-0.993150651) 0.0 0.116841137 0.4986 0.0,
  v8 (-1.0) 0.0 0.0 (-0.993150651) 0.0 (-0.116841137) 0.4986 0.0,
  v8 0.0 1.0 0.0 (-0.993150651) 0.0 (-0.116841137) 0.5 1.0,
  v8 (-0.98) 0.0 0.17 (-0.993150651) 0.0 (-0.116841137) 0.5263 0.0,
  v8 (-0.98) 0.0 0.17 (-0.973417103) 0.0 (-0.229039446) 0.5263 0.0,
  v8 0.0 1.0 0.0 (-0.973417103) 0.0 (-0.229039446) 0.5 1.0,
  v8 (-0.94) 0.0 0.34 (-0.973417103) 0.0 (-0.229039446) 0.554 0.0,
  v8 (-0.94) 0.0 0.34 (-0.916157305) 0.0 (-0.400818795) 0.554 0.0,
  v8 0.0 1.0 0.0 (-0.916157305) 0.0 (-0.400818795) 0.5 1.0,
  v8 (-0.87) 0.0 0.5 (-0.916157305) 0.0 (-0.400818795) 0.5817 0.0,
  v8 (-0.87) 0.0 0.5 (-0.813733339) 0.0 (-0.581238329) 0.5817 0.0,
  v8 0.0 1.0 0.0 (-0.813733339) 0.0 (-0.581238329) 0.5 1.0,
  v8 (-0.77) 0.0 0.64 (-0.813733339) 0.0 (-0.581238329) 0.6094 0.0,
  v8 (-0.77) 0.0 0.64 (-0.707106769) 0.0 (-0.707106769) 0.6094 0.0,
  v8 0.0 1.0 0.0 (-0.707106769) 0.0 (-0.707106769) 0.5 1.0,
  v8 (-0.64) 0.0 0.77 (-0.707106769) 0.0 (-0.707106769) 0.6371 0.0,
  v8 (-0.64) 0.0 0.77 (-0.581238329) 0.0 (-0.813733339) 0.6371 0.0,
  v8 0.0 1.0 0.0 (-0.581238329) 0.0 (-0.813733339) 0.5 1.0,
  v8 (-0.5) 0.0 0.87 (-0.581238329) 0.0 (-0.813733339) 0.6648 0.0,
  v8 (-0.5) 0.0 0.87 (-0.400818795) 0.0 (-0.916157305) 0.6648 0.0,
  v8 0.0 1.0 0.0 (-0.400818795) 0.0 (-0.916157305) 0.5 1.0,
  v8 (-0.34) 0.0 0.94 (-0.400818795) 0.0 (-0.916157305) 0.6925 0.0,
  v8 (-0.34) 0.0 0.94 (-0.229039446) 0.0 (-0.973417103) 0.6925 0.0,
  v8 0.0 1.0 0.0 (-0.229039446) 0.0 (-0.973417103) 0.5 1.0,
  v8 (-0.17) 0.0 0.98 (-0.229039446) 0.0 (-0.973417103) 0.7202 0.0,
  v8 (-0.17) 0.0 0.98 (-0.116841137) 0.0 (-0.993150651) 0.7202 0.0,
  v8 0.0 1.0 0.0 (-0.116841137) 0.0 (-0.993150651) 0.5 1.0,
  v8 0.0 0.0 1.0 (-0.116841137) 0.0 (-0.993150651) 0.7479 0.0,
  v8 0.0 0.0 1.0 0.116841137 0.0 (-0.993150651) 0.7479 0.0,
  v8 0.0 1.0 0.0 0.116841137 0.0 (-0.993150651) 0.5 1.0,
  v8 0.17 0.0 0.98 0.116841137 0.0 (-0.993150651) 0.7756 0.0,
  v8 0.17 0.0 0.98 0.229039446 0.0 (-0.973417103) 0.7756 0.0,
  v8 0.0 1.0 0.0 0.229039446 0.0 (-0.973417103) 0.5 1.0,
  v8 0.34 0.0 0.94 0.229039446 0.0 (-0.973417103) 0.8033 0.0,
  v8 0.34 0.0 0.94 0.400818795 0.0 (-0.916157305) 0.8033 0.0,
  v8 0.0 1.0 0.0 0.400818795 0.0 (-0.916157305) 0.5 1.0,
  v8 0.5 0.0 0.87 0.400818795 0.0 (-0.916157305) 0.831 0.0,
  v8 0.5 0.0 0.87 0.581238329 0.0 (-0.813733339) 0.831 0.0,
  v8 0.0 1.0 0.0 0.581238329 0.0 (-0.813733339) 0.5 1.0,
  v8 0.64 0.0 0.77 0.581238329 0.0 (-0.813733339) 0.8587 0.0,
  v8 0.64 0.0 0.77 0.707106769 0.0 (-0.707106769) 0.8587 0.0,
  v8 0.0 1.0 0.0 0.707106769 0.0 (-0.707106769) 0.5 1.0,
  v8 0.77 0.0 0.64 0.707106769 0.0 (-0.707106769) 0.8864 0.0,
  v8 0.77 0.0 0.64 0.813733339 0.0 (-0.581238329) 0.8864 0.0,
  v8 0.0 1.0 0.0 0.813733339 0.0 (-0.581238329) 0.5 1.0,
  v8 0.87 0.0 0.5 0.813733339 0.0 (-0.581238329) 0.9141 0.0,
  v8 0.87 0.0 0.5 0.916157305 0.0 (-0.400818795) 0.9141 0.0,
  v8 0.0 1.0 0.0 0.916157305 0.0 (-0.400818795) 0.5 1.0,
  v8 0.94 0.0 0.34 0.916157305 0.0 (-0.400818795) 0.9418 0.0,
  v8 0.94 0.0 0.34 0.973417103 0.0 (-0.229039446) 0.9418 0.0,
  v8 0.0 1.0 0.0 0.973417103 0.0 (-0.229039446) 0.5 1.0,
  v8 0.98 0.0 0.17 0.973417103 0.0 (-0.229039446) 0.9695 0.0,
  v8 0.98 0.0 0.17 0.993150651 0.0 (-0.116841137) 0.9695 0.0,
  v8 0.0 1.0 0.0 0.993150651 0.0 (-0.116841137) 0.5 1.0,
  v8 1.0 0.0 0.0 0.993150651 0.0 (-0.116841137) 0.0 0.0
]

/-- The array `verts` of `UCreateTaperedCylinderMesh`: position, normal, texture coordinate per row. -/
def taperedCylinderVerts : List ℚ := List.flatten [
  -- cylinder bottom normals texture coords
  v8 1.0 0.0 0.0 0.0 (-1.0) 0.0 0.5 1.0,
  v8 0.98 0.0 (-0.17) 0.0 (-1.0) 0.0 0.41 0.983,
  v8 0.94 0.0 (-0.34) 0.0 (-1.0) 0.0 0.33 0.96,
  v8 0.87 0.0 (-0.5) 0.0 (-1.0) 0.0 0.25 0.92,
  v8 0.77 0.0 (-0.64) 0.0 (-1.0) 0.0 0.17 0.87,
  v8 0.64 0.0 (-0.77) 0.0 (-1.0) 0.0 0.13 0.83,
  v8 0.5 0.0 (-0.87) 0.0 (-1.0) 0.0 0.08 0.77,
  v8 0.34 0.0 (-0.94) 0.0 (-1.0) 0.0 0.04 0.68,
  v8 0.17 0.0 (-0.98) 0.0 (-1.0) 0.0 0.017 0.6,
  v8 0.0 0.0 (-1.0) 0.0 (-1.0) 0.0 0.0 0.5,
  v8 (-0.17) 0.0 (-0.98) 0.0 (-1.0) 0.0 0.017 0.41,
  v8 (-0.34) 0.0 (-0.94) 0.0 (-1.0) 0.0 0.04 0.33,
  v8 (-0.5) 0.0 (-0.87) 0.0 (-1.0) 0.0 0.08 0.25,
  v8 (-0.64) 0.0 (-0.77) 0.0 (-1.0) 0.0 0.13 0.17,
  v8 (-0.77) 0.0 (-0.64) 0.0 (-1.0) 0.0 0.17 0.13,
  v8 (-0.87) 0.0 (-0.5) 0.0 (-1.0) 0.0 0.25 0.08,
  v8 (-0.94) 0.0 (-0.34) 0.0 (-1.0) 0.0 0.33 0.04,
  v8 (-0.98) 0.0 (-0.17) 0.0 (-1.0) 0.0 0.41 0.017,
  v8 (-1.0) 0.0 0.0 0.0 (-1.0) 0.0 0.5 0.0,
  v8 (-0.98) 0.0 0.17 0.0 (-1.0) 0.0 0.6 0.017,
  v8 (-0.94) 0.0 0.34 0.0 (-1.0) 0.0 0.68 0.04,
  v8 (-0.87) 0.0 0.5 0.0 (-1.0) 0.0 0.77 0.08,
  v8 (-0.77) 0.0 0.64 0.0 (-1.0) 0.0 0.83 0.13,
  v8 (-0.64) 0.0 0.77 0.0 (-1.0) 0.0 0.87 0.17,
  v8 (-0.5) 0.0 0.87 0.0 (-1.0) 0.0 0.92 0.25,
  v8 (-0.34) 0.0 0.94 0.0 (-1.0) 0.0 0.96 0.33,
  v8 (-0.17) 0.0 0.98 0.0 (-1.0) 0.0 0.983 0.41,
  v8 0.0 0.0 1.0 0.0 (-1.0) 0.0 1.0 0.5,
  v8 0.17 0.0 0.98 0.0 (-1.0) 0.0 0.983 0.6,
  v8 0.34 0.0 0.94 0.0 (-1.0) 0.0 0.96 0.68,
  v8 0.5 0.0 0.87 0.0 (-1.0) 0.0 0.92 0.77,
  v8 0.64 0.0 0.77 0.0 (-1.0) 0.0 0.87 0.83,
  v8 0.77 0.0 0.64 0.0 (-1.0) 0.0 0.83 0.87,
  v8 0.87 0.0 0.5 0.0 (-1.0) 0.0 0.77 0.92,
  v8 0.94 0.0 0.34 0.0 (-1.0) 0.0 0.68 0.96,
  v8 0.98 0.0 0.17 0.0 (-1.0) 0.0 0.6 0.983,
  -- cylinder top normals texture coords
  v8 0.5 1.0 0.0 0.0 1.0 0.0 0.5 1.0,
  v8 0.49 1.0 (-0.085) 0.0 1.0 0.0 0.41 0.983,
  v8 0.47 1.0 (-0.17) 0.0 1.0 0.0 0.33 0.96,
  v8 0.435 1.0 (-0.25) 0.0 1.0 0.0 0.25 0.92,
  v8 0.385 1.0 (-0.32) 0.0 1.0 0.0 0.17 0.87,
  v8 0.32 1.0 (-0.385) 0.0 1.0 0.0 0.13 0.83,
  v8 0.25 1.0 (-0.435) 0.0 1.0 0.0 0.08 0.77,
  v8 0.17 1.0 (-0.47) 0.0 1.0 0.0 0.04 0.68,
  v8 0.085 1.0 (-0.49) 0.0 1.0 0.0 0.017 0.6,
  v8 0.0 1.0 (-0.5) 0.0 1.0 0.0 0.0 0.5,
  v8 (-0.085) 1.0 (-0.49) 0.0 1.0 0.0 0.017 0.41,
  v8 (-0.17) 1.0 (-0.47) 0.0 1.0 0.0 0.04 0.33,
  v8 (-0.25) 1.0 (-0.435) 0.0 1.0 0.0 0.08 0.25,
  v8 (-0.32) 1.0 (-0.385) 0.0 1.0 0.0 0.13 0.17,
  v8 (-0.385) 1.0 (-0.32) 0.0 1.0 0.0 0.17 0.13,
  v8 (-0.435) 1.0 (-0.25) 0.0 1.0 0.0 0.25 0.08,
  v8 (-0.47) 1.0 (-0.17) 0.0 1.0 0.0 0.33 0.04,
  v8 (-0.49) 1.0 (-0.085) 0.0 1.0 0.0 0.41 0.017,
  v8 (-0.5) 1.0 0.0 0.0 1.0 0.0 0.5 0.0,
  v8 (-0.49) 1.0 0.085 0.0 1.0 0.0 0.6 0.017,
  v8 (-0.47) 1.0 0.17 0.0 1.0 0.0 0.68 0.04,
  v8 (-0.435) 1.0 0.25 0.0 1.0 0.0 0.77 0.08,
  v8 (-0.385) 1.0 0.32 0.0 1.0 0.0 0.83 0.13,
  v8 (-0.32) 1.0 0.385 0.0 1.0 0.0 0.87 0.17,
  v8 (-0.25) 1.0 0.435 0.0 1.0 0.0 0.92 0.25,
  v8 (-0.17) 1.0 0.47 0.0 1.0 0.0 0.96 0.33,
  v8 (-0.085) 1.0 0.49 0.0 1.0 0.0 0.983 0.41,
  v8 0.0 1.0 0.5 0.0 1.0 0.0 1.0 0.5,
  v8 0.085 1.0 0.49 0.0 1.0 0.0 0.983 0.6,
  v8 0.17 1.0 0.47 0.0 1.0 0.0 0.96 0.68,
  v8 0.25 1.0 0.435 0.0 1.0 0.0 0.92 0.77,
  v8 0.32 1.0 0.385 0.0 1.0 0.0 0.87 0.83,
  v8 0.385 1.0 0.32 0.0 1.0 0.0 0.83 0.87,
  v8 0.435 1.0 0.25 0.0 1.0 0.0 0.77 0.92,
  v8 0.47 1.0 0.17 0.0 1.0 0.0 0.68 0.96,
  v8 0.49 1.0 0.085 0.0 1.0 0.0 0.6 0.983,
  -- cylinder body normals texture coords
  v8 0.5 1.0 0.0 1.0 0.0 0.0 0.25 1.0,
  v8 1.0 0.0 0.0 1.0 0.0 0.0 0.0 0.0,
  v8 0.98 0.0 (-0.17) 1.0 0.0 0.0 0.0277 0.0,
  v8 0.5 1.0 0.0 0.92 0.0 (-0.08) 0.25 1.0,
  v8 0.49 1.0 (-0.085) 0.92 0.0 (-0.08) 0.2635 1.0,
  v8 0.98 0.0 (-0.17) 0.92 0.0 (-0.08) 0.0277 0.0,
  v8 0.94 0.0 (-0.34) 0.83 0.0 (-0.17) 0.0554 0.0,
  v8 0.49 1.0 (-0.085) 0.83 0.0 (-0.17) 0.2635 1.0,
  v8 0.47 1.0 (-0.17) 0.83 0.0 (-0.17) 0.277 1.0,
  v8 0.94 0.0 (-0.34) 0.75 0.0 (-0.25) 0.0554 0.0,
  v8 0.87 0.0 (-0.5) 0.75 0.0 (-0.25) 0.0831 0.0,
  v8 0.47 1.0 (-0.17) 0.75 0.0 (-0.25) 0.277 1.0,
  v8 0.435 1.0 (-0.25) 0.67 0.0 (-0.33) 0.2905 1.0,
  v8 0.87 0.0 (-0.5) 0.67 0.0 (-0.33) 0.0831 0.0,
  v8 0.77 0.0 (-0.64) 0.67 0.0 (-0.33) 0.1108 0.0,
  v8 0.435 1.0 (-0.25) 0.58 0.0 (-0.42) 0.2905 1.0,
  v8 0.385 1.0 (-0.32) 0.58 0.0 (-0.42) 0.304 1.0,
  v8 0.77 0.0 (-0.64) 0.58 0.0 (-0.42) 0.1108 0.0,
  v8 0.64 0.0 (-0.77) 0.5 0.0 (-0.5) 0.1385 0.0,
  v8 0.385 1.0 (-0.32) 0.5 0.0 (-0.5) 0.304 1.0,
  v8 0.32 1.0 (-0.385) 0.5 0.0 (-0.5) 0.3175 1.0,
  v8 0.64 0.0 (-0.77) 0.42 0.0 (-0.58) 0.1385 0.0,
  v8 0.5 0.0 (-0.87) 0.42 0.0 (-0.58) 0.1662 0.0,
  v8 0.32 1.0 (-0.385) 0.42 0.0 (-0.58) 0.3175 1.0,
  v8 0.25 1.0 (-0.435) 0.33 0.0 (-0.67) 0.331 1.0,
  v8 0.5 0.0 (-0.87) 0.33 0.0 (-0.67) 0.1662 0.0,
  v8 0.34 0.0 (-0.94) 0.33 0.0 (-0.67) 0.1939 0.0,
  v8 0.25 1.0 (-0.435) 0.25 0.0 (-0.75) 0.331 1.0,
  v8 0.17 1.0 (-0.47) 0.25 0.0 (-0.75) 0.3445 1.0,
  v8 0.34 0.0 (-0.94) 0.25 0.0 (-0.75) 0.1939 0.0,
  v8 0.17 0.0 (-0.98) 0.17 0.0 (-0.83) 0.2216 0.0,
  v8 0.17 1.0 (-0.47) 0.17 0.0 (-0.83) 0.3445 1.0,
  v8 0.085 1.0 (-0.49) 0.17 0.0 (-0.83) 0.358 1.0,
  v8 0.17 0.0 (-0.98) 0.08 0.0 (-0.92) 0.2216 0.0,
  v8 0.0 0.0 (-1.0) 0.08 0.0 (-0.92) 0.2493 0.0,
  v8 0.085 1.0 (-0.49) 0.08 0.0 (-0.92) 0.358 1.0,
  v8 0.0 1.0 (-0.5) 0.0 0.0 (-1.0) 0.3715 1.0,
  v8 0.0 0.0 (-1.0) 0.0 0.0 (-1.0) 0.2493 0.0,
  v8 (-0.17) 0.0 (-0.98) 0.0 0.0 (-1.0) 0.277 0.0,
  v8 0.0 1.0 (-0.5) 0.08 0.0 (-1.08) 0.3715 1.0,
  v8 (-0.085) 1.0 (-0.49) (-0.08) 0.0 (-0.92) 0.385 1.0,
  v8 (-0.17) 0.0 (-0.98) (-0.08) 0.0 (-0.92) 0.277 0.0,
  v8 (-0.34) 0.0 (-0.94) (-0.08) 0.0 (-0.92) 0.3047 0.0,
  v8 (-0.085) 1.0 (-0.49) (-0.08) 0.0 (-0.92) 0.385 1.0,
  v8 (-0.17) 1.0 (-0.47) (-0.17) 0.0 (-0.83) 0.3985 1.0,
  v8 (-0.34) 0.0 (-0.94) (-0.17) 0.0 (-0.83) 0.3047 0.0,
  v8 (-0.5) 0.0 (-0.87) (-0.17) 0.0 (-0.83) 0.3324 0.0,
  v8 (-0.17) 1.0 (-0.47) (-0.25) 0.0 (-0.75) 0.3985 1.0,
  v8 (-0.25) 1.0 (-0.435) (-0.25) 0.0 (-0.75) 0.412 1.0,
  v8 (-0.5) 0.0 (-0.87) (-0.25) 0.0 (-0.75) 0.3324 0.0,
  v8 (-0.64) 0.0 (-0.77) (-0.33) 0.0 (-0.67) 0.3601 0.0,
  v8 (-0.25) 1.0 (-0.435) (-0.33) 0.0 (-0.67) 0.412 1.0,
  v8 (-0.32) 1.0 (-0.385) (-0.33) 0.0 (-0.67) 0.4255 1.0,
  v8 (-0.64) 0.0 (-0.77) (-0.42) 0.0 (-0.58) 0.3601 0.0,
  v8 (-0.77) 0.0 (-0.64) (-0.42) 0.0 (-0.58) 0.3878 0.0,
  v8 (-0.32) 1.0 (-0.385) (-0.42) 0.0 (-0.58) 0.4255 1.0,
  v8 (-0.385) 1.0 (-0.32) (-0.5) 0.0 (-0.5) 0.439 1.0,
  v8 (-0.77) 0.0 (-0.64) (-0.5) 0.0 (-0.5) 0.3878 0.0,
  v8 (-0.87) 0.0 (-0.5) (-0.5) 0.0 (-0.5) 0.4155 0.0,
  v8 (-0.385) 1.0 (-0.32) (-0.58) 0.0 (-0.42) 0.439 1.0,
  v8 (-0.435) 1.0 (-0.25) (-0.58) 0.0 (-0.42) 0.4525 1.0,
  v8 (-0.87) 0.0 (-0.5) (-0.58) 0.0 (-0.42) 0.4155 0.0,
  v8 (-0.94) 0.0 (-0.34) (-0.67) 0.0 (-0.33) 0.4432 0.0,
  v8 (-0.435) 1.0 (-0.25) (-0.67) 0.0 (-0.33) 0.4525 1.0,
  v8 (-0.47) 1.0 (-0.17) (-0.67) 0.0 (-0.33) 0.466 1.0,
  v8 (-0.94) 0.0 (-0.34) (-0.75) 0.0 (-0.25) 0.4432 0.0,
  v8 (-0.98) 0.0 (-0.17) (-0.75) 0.0 (-0.25) 0.4709 0.0,
  v8 (-0.47) 1.0 (-0.17) (-0.75) 0.0 (-0.25) 0.466 1.0,
  v8 (-0.49) 1.0 (-0.085) (-0.83) 0.0 (-0.17) 0.4795 1.0,
  v8 (-0.98) 0.0 (-0.17) (-0.83) 0.0 (-0.17) 0.4709 0.0,
  v8 (-1.0) 0.0 0.0 (-0.83) 0.0 (-0.17) 0.4986 0.0,
  v8 (-0.49) 1.0 (-0.085) (-0.92) 0.0 (-0.08) 0.4795 1.0,
  v8 (-0.5) 1.0 0.0 (-0.92) 0.0 (-0.08) 0.493 1.0,
  v8 (-1.0) 0.0 0.0 (-0.92) 0.0 (-0.08) 0.4986 0.0,
  v8 (-0.98) 0.0 0.17 (-1.0) 0.0 0.0 0.5263 0.0,
  v8 (-0.5) 1.0 0.0 (-1.0) 0.0 0.0 0.493 1.0,
  v8 (-0.49) 1.0 0.085 (-1.0) 0.0 0.0 0.5065 1.0,
  v8 (-0.98) 0.0 0.17 (-0.92) 0.0 0.08 0.5263 0.0,
  v8 (-0.94) 0.0 0.34 (-0.92) 0.0 0.08 0.554 0.0,
  v8 (-0.49) 1.0 0.085 (-0.92) 0.0 0.08 0.5065 1.0,
  v8 (-0.47) 1.0 0.17 (-0.83) 0.0 0.17 0.52 1.0,
  v8 (-0.94) 0.0 0.34 (-0.83) 0.0 0.17 0.554 0.0,
  v8 (-0.87) 0.0 0.5 (-0.83) 0.0 0.17 0.5817 0.0,
  v8 (-0.47) 1.0 0.17 (-0.75) 0.0 0.25 0.52 1.0,
  v8 (-0.435) 1.0 0.25 (-0.75) 0.0 0.25 0.5335 1.0,
  v8 (-0.87) 0.0 0.5 (-0.75) 0.0 0.25 0.5817 0.0,
  v8 (-0.77) 0.0 0.64 (-0.67) 0.0 0.33 0.6094 0.0,
  v8 (-0.435) 1.0 0.25 (-0.67) 0.0 0.33 0.5335 1.0,
  v8 (-0.385) 1.0 0.32 (-0.67) 0.0 0.33 0.547 1.0,
  v8 (-0.77) 0.0 0.64 (-0.58) 0.0 0.42 0.6094 0.0,
  v8 (-0.64) 0.0 0.77 (-0.58) 0.0 0.42 0.6371 0.0,
  v8 (-0.385) 1.0 0.32 (-0.58) 0.0 0.42 0.547 1.0,
  v8 (-0.32) 1.0 0.385 (-0.5) 0.0 0.5 0.5605 1.0,
  v8 (-0.64) 0.0 0.77 (-0.5) 0.0 0.5 0.6371 0.0,
  v8 (-0.5) 0.0 0.87 (-0.5) 0.0 0.5 0.6648 0.0,
  v8 (-0.32) 1.0 0.385 (-0.42) 0.0 0.58 0.5605 1.0,
  v8 (-0.25) 1.0 0.435 (-0.42) 0.0 0.58 0.574 1.0,
  v8 (-0.5) 0.0 0.87 (-0.42) 0.0 0.58 0.6648 0.0,
  v8 (-0.34) 0.0 0.94 (-0.33) 0.0 0.67 0.6925 0.0,
  v8 (-0.25) 1.0 0.435 (-0.33) 0.0 0.67 0.574 1.0,
  v8 (-0.17) 1.0 0.47 (-0.33) 0.0 0.67 0.5875 1.0,
  v8 (-0.34) 0.0 0.94 (-0.25) 0.0 0.75 0.6925 0.0,
  v8 (-0.17) 0.0 0.98 (-0.25) 0.0 0.75 0.7202 0.0,
  v8 (-0.17) 1.0 0.47 (-0.25) 0.0 0.75 0.5875 1.0,
  v8 (-0.085) 1.0 0.49 (-0.17) 0.0 0.83 0.601 1.0,
  v8 (-0.17) 0.0 0.98 (-0.17) 0.0 0.83 0.7202 0.0,
  v8 0.0 0.0 1.0 (-0.17) 0.0 0.83 0.7479 0.0,
  v8 (-0.085) 1.0 0.49 (-0.08) 0.0 0.92 0.601 1.0,
  v8 0.0 1.0 0.5 (-0.08) 0.0 0.92 0.6145 1.0,
  v8 0.0 0.0 1.0 (-0.08) 0.0 0.92 0.7479 0.0,
  v8 0.17 0.0 0.98 (-0.0) 0.0 1.0 0.7756 0.0,
  v8 0.0 1.0 0.5 (-0.0) 0.0 1.0 0.6145 1.0,
  v8 0.085 1.0 0.49 (-0.0) 0.0 1.0 0.628 1.0,
  v8 0.17 0.0 0.98 0.08 0.0 0.92 0.7756 0.0,
  v8 0.34 0.0 0.94 0.08 0.0 0.92 0.8033 0.0,
  v8 0.085 1.0 0.49 0.08 0.0 0.92 0.628 1.0,
  v8 0.17 1.0 0.47 0.17 0.0 0.83 0.6415 1.0,
  v8 0.34 0.0 0.94 0.17 0.0 0.83 0.8033 0.0,
  v8 0.5 0.0 0.87 0.17 0.0 0.83 0.831 0.0,
  v8 0.17 1.0 0.47 0.25 0.0 0.75 0.6415 1.0,
  v8 0.25 1.0 0.435 0.25 0.0 0.75 0.655 1.0,
  v8 0.5 0.0 0.87 0.25 0.0 0.75 0.831 0.0,
  v8 0.64 0.0 0.77 0.33 0.0 0.67 0.8587 0.0,
  v8 0.25 1.0 0.435 0.33 0.0 0.67 0.655 1.0,
  v8 0.32 1.0 0.385 0.33 0.0 0.67 0.6685 1.0,
  v8 0.64 0.0 0.77 0.42 0.0 0.58 0.8587 0.0,
  v8 0.77 0.0 0.64 0.42 0.0 0.58 0.8864 0.0,
  v8 0.32 1.0 0.385 0.42 0.0 0.58 0.6685 1.0,
  v8 0.385 1.0 0.32 0.5 0.0 0.5 0.682 1.0,
  v8 0.77 0.0 0.64 0.5 0.0 0.5 0.8864 0.0,
  v8 0.87 0.0 0.5 0.5 0.0 0.5 0.9141 0.0,
  v8 0.385 1.0 0.32 0.58 0.0 0.42 0.682 1.0,
  v8 0.435 1.0 0.25 0.58 0.0 0.42 0.6955 1.0,
  v8 0.87 0.0 0.5 0.58 0.0 0.42 0.9141 0.0,
  v8 0.94 0.0 0.34 0.67 0.0 0.33 0.9418 0.0,
  v8 0.435 1.0 0.25 0.67 0.0 0.33 0.6955 1.0,
  v8 0.47 1.0 0.17 0.67 0.0 0.33 0.709 1.0,
  v8 0.94 0.0 0.34 0.75 0.0 0.25 0.9418 0.0,
  v8 0.98 0.0 0.17 0.75 0.0 0.25 0.9695 0.0,
  v8 0.47 1.0 0.17 0.75 0.0 0.25 0.709 0.0,
  v8 0.49 1.0 0.085 0.83 0.0 0.17 0.7225 1.0,
  v8 0.98 0.0 0.17 0.83 0.0 0.17 0.9695 0.0,
  v8 1.0 0.0 0.0 0.83 0.0 0.17 1.0 0.0,
  v8 0.49 1.0 0.085 0.92 0.0 0.08 0.7225 1.0,
  v8 0.5 1.0 0.0 0.92 0.0 0.08 0.75 1.0,
  v8 1.0 0.0 0.0 0.92 0.0 0.08 1.0 0.0
]

/-- The constant `floatsPerColor` of the two pyramid creators. -/
def floatsPerColor : Nat := 3

/-- The number of floats a `glBufferData(GL_ARRAY_BUFFER, size, ...)` call of
`size` bytes uploads. -/
def uploadedFloats (size : Nat) : Nat := size / sizeofElem

/-- The counts `UCreatePyramid3Mesh` stores in `mesh`: `nVertices`; it does not
assign `nIndices`. -/
def UCreatePyramid3Mesh (mesh : GLMesh) : GLMesh :=
  { mesh with
    nVertices := sizeofArray pyramid3Verts /
      (sizeofElem * (floatsPerVertex + floatsPerColor + floatsPerUV)) }

/-- The counts `UCreatePyramid4Mesh` stores in `mesh`: `nVertices`; it does not
assign `nIndices`. -/
def UCreatePyramid4Mesh (mesh : GLMesh) : GLMesh :=
  { mesh with
    nVertices := sizeofArray pyramid4Verts /
      (sizeofElem * (floatsPerVertex + floatsPerColor + floatsPerUV)) }

/-- The counts `UCreatePrismMesh` stores in `mesh`: `nVertices`; it does not
assign `nIndices`. -/
def UCreatePrismMesh (mesh : GLMesh) : GLMesh :=
  { mesh with
    nVertices := sizeofArray prismVerts /
      (sizeofElem * (floatsPerVertex + floatsPerNormal + floatsPerUV)) }

/-- The counts `UCreateConeMesh` stores. -/
def UCreateConeMesh : GLMesh :=
  { nVertices := sizeofArray coneVerts /
      (sizeofElem * (floatsPerVertex + floatsPerNormal + floatsPerUV)),
    nIndices := 0 }

/-- The counts `UCreateTaperedCylinderMesh` stores. -/
def UCreateTaperedCylinderMesh : GLMesh :=
  { nVertices := sizeofArray taperedCylinderVerts /
      (sizeofElem * (floatsPerVertex + floatsPerNormal + floatsPerUV)),
    nIndices := 0 }

/-- The counts `UCreateTorusMesh` stores, for given segment counts and radii:
`nVertices = vertex_list.size()` and `nIndices = 0`; nothing when a subscript of
the connect loop was out of bounds. -/
def UCreateTorusMesh {α : Type} [Field α] (sin cos : α → α) (pi : α)
    (mainSegments tubeSegments : Nat) (mainRadius tubeRadius : α) : Option GLMesh :=
  (connectSegments
      (segments_list sin cos pi mainSegments tubeSegments mainRadius tubeRadius)
      mainSegments tubeSegments).map
    (fun b => { nVertices := b.vertex_list.length, nIndices := 0 })

/-- The `glVertexAttribPointer` calls every creator issues, as
`(index, size, stride, offset)` with stride and offset in bytes. -/
def attribPointers : List (Nat × Nat × Nat × Nat) :=
  let stride := sizeofElem * (floatsPerVertex + floatsPerNormal + floatsPerUV)
  [(0, floatsPerVertex, stride, 0),
   (1, floatsPerNormal, stride, sizeofElem * floatsPerVertex),
   (2, floatsPerUV, stride, sizeofElem * (floatsPerVertex + floatsPerNormal))]

/-- The members `Meshes::DestroyMeshes` passes to `UDestroyMesh`, in the order
of its calls. -/
def DestroyMeshes : List MeshName :=
  [MeshName.gBoxMesh, MeshName.gConeMesh, MeshName.gCylinderMesh, MeshName.gPlaneMesh,
   MeshName.gPyramid3Mesh, MeshName.gPyramid4Mesh, MeshName.gPrismMesh,
   MeshName.gSphereMesh, MeshName.gTorusMesh]

/-- The drawing commands the header comment of `UCreateTaperedCylinderMesh`
gives as correct: `(mode, first, count)` of each `glDrawArrays`. -/
def taperedCylinderDocumentedDraws : List (DrawMode × Nat × Nat) :=
  [(DrawMode.GL_TRIANGLE_FAN, 0, 36),      -- bottom
   (DrawMode.GL_TRIANGLE_FAN, 36, 72),     -- top
   (DrawMode.GL_TRIANGLE_STRIP, 72, 146)]  -- sides

/-! ## Start-up and texture loading (`main`, `UInitialize`, `UCreateTexture`) -/

/-- The image files `main` loads: `images.jpg`, `screen.jpg`, `handle.jpg`. -/
inductive TextureFile
  | images_jpg | screen_jpg | handle_jpg
  deriving DecidableEq, Repr

/-- The calls `UCreateTexture` issues. -/
inductive TextureCall
  | stbi_set_flip_vertically_on_load
  | stbi_load
  | glGenTextures
  | glBindTexture (texture : Nat)
  | glTexParameteri
  | glTexImage2D
  | glGenerateMipmap
  | stbi_image_free
  deriving DecidableEq, Repr

/-- Whether a call of `UCreateTexture` is an OpenGL call (the others are calls
of the image loader). -/
def TextureCall.isGL : TextureCall → Bool
  | TextureCall.stbi_set_flip_vertically_on_load => false
  | TextureCall.stbi_load => false
  | TextureCall.stbi_image_free => false
  | _ => true

/-- `UCreateTexture(filename, textureId)`: `image` tells whether `stbi_load`
returned an image, `generated` is the name `glGenTextures` writes. The result,
the calls issued in order, and `textureId` after the call. -/
def UCreateTexture (image : Bool) (generated : Nat) (textureId : Nat) :
    Bool × List TextureCall × Nat :=
  let calls := [TextureCall.stbi_set_flip_vertically_on_load, TextureCall.stbi_load]
  if image then
    (true,
     calls ++ [TextureCall.glGenTextures, TextureCall.glBindTexture generated,
       TextureCall.glTexParameteri, TextureCall.glTexParameteri,
       TextureCall.glTexParameteri, TextureCall.glTexParameteri,
       TextureCall.glTexImage2D, TextureCall.glGenerateMipmap,
       TextureCall.stbi_image_free, TextureCall.glBindTexture 0],
     generated)
  else
    -- Error loading the image
    (false, calls, textureId)

/-- `UInitialize`: `window` tells whether `glfwCreateWindow` returned a window,
`glew` whether `glewInit` returned `GLEW_OK`. -/
def UInitialize (window glew : Bool) : Bool :=
  if window = false then false
  else if glew = false then false
  else true

/-- What `main` meets when it runs. -/
structure MainEnv where
  window : Bool
  glew : Bool
  -- whether `stbi_load` returns an image for the file
  image : TextureFile → Bool
  -- the name `glGenTextures` writes when the file is loaded
  generated : TextureFile → Nat
  -- the answer of `glfwWindowShouldClose` at the `k`-th test of the loop
  glfwWindowShouldClose : Nat → Bool

/-- The steps of `main`. -/
inductive MainEvent
  | UInitialize
  | UCreateMesh
  | CreateMeshes
  | UCreateShaderProgram
  | UCreateTexture (file : TextureFile)
  | uniforms
  | frame
  | UDestroyMesh
  | UDestroyShaderProgram
  deriving DecidableEq, Repr

def EXIT_SUCCESS : Int := 0
def EXIT_FAILURE : Int := 1

/-- The render loop of `main`, entered at its `k`-th test, with `fuel` tests
allowed: the frames run, or nothing when the fuel runs out first. -/
def renderLoop (glfwWindowShouldClose : Nat → Bool) : Nat → Nat → Option (List MainEvent)
  | 0, _ => none
  | fuel + 1, k =>
    if glfwWindowShouldClose k then some []
    else (renderLoop glfwWindowShouldClose fuel (k + 1)).map (fun t => MainEvent.frame :: t)

/-- `main`: the exit status and the steps taken, or nothing when the render loop
is still running after `fuel` tests of its condition. -/
def main (env : MainEnv) (fuel : Nat) : Option (Int × List MainEvent) :=
  if UInitialize env.window env.glew = false then
    some (EXIT_FAILURE, [MainEvent.UInitialize])
  else
    let t0 := [MainEvent.UInitialize, MainEvent.UCreateMesh, MainEvent.CreateMeshes,
      MainEvent.UCreateShaderProgram]
    let t1 := t0 ++ [MainEvent.UCreateTexture TextureFile.images_jpg]
    if (UCreateTexture (env.image TextureFile.images_jpg)
        (env.generated TextureFile.images_jpg) 0).1 = false then
      some (EXIT_FAILURE, t1)
    else
      let t2 := t1 ++ [MainEvent.UCreateTexture TextureFile.screen_jpg]
      if (UCreateTexture (env.image TextureFile.screen_jpg)
          (env.generated TextureFile.screen_jpg) 0).1 = false then
        some (EXIT_FAILURE, t2)
      else
        let t3 := t2 ++ [MainEvent.UCreateTexture TextureFile.handle_jpg]
        if (UCreateTexture (env.image TextureFile.handle_jpg)
            (env.generated TextureFile.handle_jpg) 0).1 = false then
          some (EXIT_FAILURE, t3)
        else
          (renderLoop env.glfwWindowShouldClose fuel 0).map
            (fun frames =>
              (EXIT_SUCCESS,
                t3 ++ [MainEvent.uniforms] ++ frames ++
                  [MainEvent.UDestroyMesh, MainEvent.UDestroyShaderProgram]))

/-- The texture files a run of `main` tried to load, in order. -/
def textureLoads : List MainEvent → List TextureFile
  | [] => []
  | MainEvent.UCreateTexture f :: rest => f :: textureLoads rest
  | _ :: rest => textureLoads rest

/-- The files tried when a list of files is loaded in order up to and including
the first that fails. -/
def loadsUntilFailure (image : TextureFile → Bool) : List TextureFile → List TextureFile
  | [] => []
  | f :: rest => if image f then f :: loadsUntilFailure image rest else [f]

/-! ## The connect loop's case split and the triangles of the torus -/

/-- The branch of the connect loop's case split that runs for the cell
`(i, j)`, numbered 1 to 4 in the order of the source; 0 when none does. -/
def connectBranch (mainSegments tubeSegments i j : Nat) : Nat :=
  if i + 1 < mainSegments ∧ j + 1 < tubeSegments then 1
  else if i + 1 = mainSegments ∧ j + 1 = tubeSegments then 2
  else if i + 1 = mainSegments then 3
  else if j + 1 = tubeSegments then 4
  else 0

/-- The four corners of the grid cell `(i, j)`: `P(i, j)`, `P(i, j')`, `P(i', j)`,
`P(i', j')` with `i' = (i + 1) mod M` and `j' = (j + 1) mod T`. -/
def cellCorners {α : Type} (P : Nat → Nat → Vec3 α) (mainSegments tubeSegments : Nat)
    (i j : Nat) : List (Vec3 α) :=
  let i' := (i + 1) % mainSegments
  let j' := (j + 1) % tubeSegments
  [P i j, P i j', P i' j, P i' j']

/-! ## The sphere's triangulation, the box's faces and the sphere's rings, as
their comments describe them -/

/-- The vertices of ring `r` of the sphere (1 to 15): `16 (r - 1) + 1` to
`16 r`. -/
def ringVertices (r : Nat) : List Nat := List.range' (16 * (r - 1) + 1) 16

/-- The following vertex of the same ring, wrapping from the ring's last
vertex to its first. -/
def ringNext (a : Nat) : Nat := if a % 16 = 0 then a - 15 else a + 1

/-- The regular triangulation the section comments of the sphere's index
array describe: the top cap `(0, a, next a)` over ring 1, then for each ring
`r` from 1 to 14 and each `a` of it, with `b = a + 16`, the triangles
`(a, b, next b)` and `(a, next a, next b)`, then the bottom cap
`(a, next a, 241)` over ring 15. -/
def regularSphereIndices : List Nat :=
  (ringVertices 1).flatMap (fun a => [0, a, ringNext a]) ++
    (List.range' 1 14).flatMap (fun r =>
      (ringVertices r).flatMap (fun a =>
        [a, a + 16, ringNext (a + 16), a, ringNext a, ringNext (a + 16)])) ++
    (ringVertices 15).flatMap (fun a => [a, ringNext a, 241])

/-- The triangles `glDrawElements(GL_TRIANGLES, ...)` reads from an index
array, three indices each. -/
def triangles : List Nat → List (Nat × Nat × Nat)
  | a :: b :: c :: rest => (a, b, c) :: triangles rest
  | _ => []

/-- Whether the triangle has the edge between the distinct vertices `a` and
`b`. -/
def hasEdge (t : Nat × Nat × Nat) (a b : Nat) : Bool :=
  decide (a ≠ b) && (t.1 == a || t.2.1 == a || t.2.2 == a) &&
    (t.1 == b || t.2.1 == b || t.2.2 == b)

/-- The number of triangles that share the edge between `a` and `b`. -/
def edgeCount (ts : List (Nat × Nat × Nat)) (a b : Nat) : Nat :=
  (ts.filter (fun t => hasEdge t a b)).length

/-- The normal the face comments of the box's vertex table name for vertex
`k`, four vertices a face: back, bottom, left, right, top, front. -/
def boxDocumentedNormal (k : Nat) : ℚ × ℚ × ℚ :=
  match k / 4 with
  | 0 => (0, 0, -1)   -- Back Face, Negative Z Normal
  | 1 => (0, -1, 0)   -- Bottom Face, Negative Y Normal
  | 2 => (-1, 0, 0)   -- Left Face, Negative X Normal
  | 3 => (1, 0, 0)    -- Right Face, Positive X Normal
  | 4 => (0, 1, 0)    -- Top Face, Positive Y Normal
  | _ => (0, 0, 1)    -- Front Face, Positive Z Normal

/-- The product `normal . position` of vertex `k` of an interleaved buffer. -/
def normalDotPosition (buf : List ℚ) (k : Nat) : Option ℚ :=
  match positionOf buf k, normalOf buf k with
  | some p, some n => some (n.1 * p.1 + n.2.1 * p.2.1 + n.2.2 * p.2.2)
  | _, _ => none

/-- The y coordinates of the 16 vertices of the section `ring r` of the
sphere's vertex table. -/
def ringYs (r : Nat) : List ℚ := (ringVertices r).map (fun k => (sphereVertex sphereVerts k).y)

/-! ## Theorems: input handling -/

/-- C1: for every cursor event and prior state, the offsets handed to the
camera are `(x - px, py - y)` with `(px, py)` the event itself on the first
event and the stored last position otherwise; so the first event delivers
`(0, 0)`, the y offset is reversed, and afterwards `gLastX = x`, `gLastY = y`,
`gFirstMouse = false`. -/
theorem mouse_callback_offsets (s : MouseState) (x y : ℚ) :
    (UMousePositionCallback s x y).1 =
        { xoffset := x - (if s.gFirstMouse then x else s.gLastX),
          yoffset := (if s.gFirstMouse then y else s.gLastY) - y } ∧
      (∀ lx ly : ℚ, (UMousePositionCallback ⟨lx, ly, true⟩ x y).1 = ⟨0, 0⟩) ∧
      (UMousePositionCallback initialMouseState x y).1 = ⟨0, 0⟩ ∧
      (∀ lx ly : ℚ, (UMousePositionCallback ⟨lx, ly, false⟩ x y).1 = ⟨x - lx, ly - y⟩) ∧
      (UMousePositionCallback s x y).2 = ⟨x, y, false⟩ := by
  refine ⟨?_, ?_, ?_, ?_, ?_⟩
  · cases s with
    | mk lx ly f => cases f <;> simp [UMousePositionCallback]
  · intro lx ly
    simp [UMousePositionCallback]
  · simp [UMousePositionCallback, initialMouseState]
  · intro lx ly
    simp [UMousePositionCallback]
  · cases s with
    | mk lx ly f => cases f <;> simp [UMousePositionCallback]

/-- After an event has been processed the globals hold its position, so the
offsets of a later run telescope to the last position minus that one. -/
theorem processMouseEvents_sum (lx ly : ℚ) (es : List (ℚ × ℚ)) :
    ((processMouseEvents ⟨lx, ly, false⟩ es).1.map MouseOffsets.xoffset).sum =
        (((lx, ly) :: es).getLast (List.cons_ne_nil _ _)).1 - lx ∧
      ((processMouseEvents ⟨lx, ly, false⟩ es).1.map MouseOffsets.yoffset).sum =
        ly - (((lx, ly) :: es).getLast (List.cons_ne_nil _ _)).2 := by
  induction es generalizing lx ly with
  | nil => simp [processMouseEvents]
  | cons e rest ih =>
    obtain ⟨x, y⟩ := e
    have hx := (ih x y).1
    have hy := (ih x y).2
    have hstep : (UMousePositionCallback ⟨lx, ly, false⟩ x y) =
        (⟨x - lx, ly - y⟩, ⟨x, y, false⟩) := by
      simp [UMousePositionCallback]
    simp only [processMouseEvents, hstep, List.map_cons, List.sum_cons, hx, hy,
      List.getLast_cons (List.cons_ne_nil (x, y) rest)]
    constructor <;> ring

/-- C2: from the initial state (`gFirstMouse = true`), whatever `gLastX` and
`gLastY` hold, the x offsets passed to the camera over a non-empty run of
cursor events sum to `x_n - x_1` and the y offsets to `y_1 - y_n`. -/
theorem mouse_offsets_telescope (lx ly : ℚ) (e : ℚ × ℚ) (es : List (ℚ × ℚ)) :
    ((processMouseEvents ⟨lx, ly, true⟩ (e :: es)).1.map MouseOffsets.xoffset).sum =
        ((e :: es).getLast (List.cons_ne_nil _ _)).1 - e.1 ∧
      ((processMouseEvents ⟨lx, ly, true⟩ (e :: es)).1.map MouseOffsets.yoffset).sum =
        e.2 - ((e :: es).getLast (List.cons_ne_nil _ _)).2 ∧
      (processMouseEvents ⟨lx, ly, true⟩ (e :: es)).1.length = (e :: es).length := by
  obtain ⟨x, y⟩ := e
  have hstep : (UMousePositionCallback ⟨lx, ly, true⟩ x y) =
      (⟨0, 0⟩, ⟨x, y, false⟩) := by
    simp [UMousePositionCallback]
  have hx := (processMouseEvents_sum x y es).1
  have hy := (processMouseEvents_sum x y es).2
  have hlen : ∀ (s : MouseState) (l : List (ℚ × ℚ)),
      (processMouseEvents s l).1.length = l.length := by
    intro s l
    induction l generalizing s with
    | nil => simp [processMouseEvents]
    | cons a t ih => simp [processMouseEvents, ih]
  refine ⟨?_, ?_, hlen _ _⟩
  · simp only [processMouseEvents, hstep, List.map_cons, List.sum_cons, hx]
    ring
  · simp only [processMouseEvents, hstep, List.map_cons, List.sum_cons, hy]
    ring

/-- C3: for every key state, the `ProcessKeyboard` calls of `UProcessInput` are
exactly the entries of the table W/FORWARD, S/BACKWARD, A/LEFT, D/RIGHT, Q/UP,
E/DOWN whose key is pressed, in that order and each with `gDeltaTime`; key
states that agree on these six keys and Escape give the same calls; and the
window is asked to close exactly when Escape is pressed. -/
theorem process_input_key_map (glfwGetKey : Int → Int) (gDeltaTime : ℚ) :
    cameraMoves (UProcessInput glfwGetKey gDeltaTime) =
        (keyBindings.filter (fun b => glfwGetKey b.1 = GLFW_PRESS)).map
          (fun b => (b.2, gDeltaTime)) ∧
      (InputCall.glfwSetWindowShouldClose true ∈ UProcessInput glfwGetKey gDeltaTime ↔
        glfwGetKey GLFW_KEY_ESCAPE = GLFW_PRESS) ∧
      (∀ v, InputCall.glfwSetWindowShouldClose v ∈ UProcessInput glfwGetKey gDeltaTime →
        v = true) ∧
      (∀ other : Int → Int,
        (∀ k ∈ GLFW_KEY_ESCAPE :: keyBindings.map Prod.fst, other k = glfwGetKey k) →
        UProcessInput other gDeltaTime = UProcessInput glfwGetKey gDeltaTime) := by
  refine ⟨?_, ?_, ?_, ?_⟩
  · simp only [UProcessInput, keyBindings, List.filter]
    by_cases hesc : glfwGetKey GLFW_KEY_ESCAPE = GLFW_PRESS <;>
    by_cases hw : glfwGetKey GLFW_KEY_W = GLFW_PRESS <;>
    by_cases hs : glfwGetKey GLFW_KEY_S = GLFW_PRESS <;>
    by_cases ha : glfwGetKey GLFW_KEY_A = GLFW_PRESS <;>
    by_cases hd : glfwGetKey GLFW_KEY_D = GLFW_PRESS <;>
    by_cases hq : glfwGetKey GLFW_KEY_Q = GLFW_PRESS <;>
    by_cases he : glfwGetKey GLFW_KEY_E = GLFW_PRESS <;>
    simp [hesc, hw, hs, ha, hd, hq, he, cameraMoves]
  · simp only [UProcessInput]
    by_cases hesc : glfwGetKey GLFW_KEY_ESCAPE = GLFW_PRESS <;>
    by_cases hw : glfwGetKey GLFW_KEY_W = GLFW_PRESS <;>
    by_cases hs : glfwGetKey GLFW_KEY_S = GLFW_PRESS <;>
    by_cases ha : glfwGetKey GLFW_KEY_A = GLFW_PRESS <;>
    by_cases hd : glfwGetKey GLFW_KEY_D = GLFW_PRESS <;>
    by_cases hq : glfwGetKey GLFW_KEY_Q = GLFW_PRESS <;>
    by_cases he : glfwGetKey GLFW_KEY_E = GLFW_PRESS <;>
    simp [hesc, hw, hs, ha, hd, hq, he]
  · intro v
    simp only [UProcessInput]
    by_cases hesc : glfwGetKey GLFW_KEY_ESCAPE = GLFW_PRESS <;>
    by_cases hw : glfwGetKey GLFW_KEY_W = GLFW_PRESS <;>
    by_cases hs : glfwGetKey GLFW_KEY_S = GLFW_PRESS <;>
    by_cases ha : glfwGetKey GLFW_KEY_A = GLFW_PRESS <;>
    by_cases hd : glfwGetKey GLFW_KEY_D = GLFW_PRESS <;>
    by_cases hq : glfwGetKey GLFW_KEY_Q = GLFW_PRESS <;>
    by_cases he : glfwGetKey GLFW_KEY_E = GLFW_PRESS <;>
    simp [hesc, hw, hs, ha, hd, hq, he]
  · intro other h
    have h0 := h GLFW_KEY_ESCAPE (by simp [keyBindings])
    have h1 := h GLFW_KEY_W (by simp [keyBindings])
    have h2 := h GLFW_KEY_S (by simp [keyBindings])
    have h3 := h GLFW_KEY_A (by simp [keyBindings])
    have h4 := h GLFW_KEY_D (by simp [keyBindings])
    have h5 := h GLFW_KEY_Q (by simp [keyBindings])
    have h6 := h GLFW_KEY_E (by simp [keyBindings])
    simp only [UProcessInput, h0, h1, h2, h3, h4, h5, h6]

/-! ## Theorems: the torus grid -/

/-- Entry `j` of the row the inner loop builds is the surface position at the
angle `j` steps after the entry angle. -/
theorem tubeLoop_get? {α : Type} [Field α] (sin cos : α → α) (R r sM cM step : α) :
    ∀ (n : Nat) (cur : α) (j : Nat), j < n →
      (tubeLoop sin cos R r sM cM step n cur).get? j =
        some (surfacePosition R r sM cM (sin (cur + (j : α) * step))
          (cos (cur + (j : α) * step))) := by
  intro n
  induction n with
  | zero => intro cur j hj; omega
  | succ n ih =>
    intro cur j hj
    cases j with
    | zero => simp [tubeLoop]
    | succ j =>
      have h := ih (cur + step) j (by omega)
      simp only [tubeLoop, List.get?_cons_succ, h]
      have e : cur + step + (j : α) * step = cur + ((j + 1 : Nat) : α) * step := by
        push_cast; ring
      rw [e]

/-- Row `i` of the list the outer loop builds is the inner loop run at the angle
`i` steps after the entry angle. -/
theorem mainLoop_get? {α : Type} [Field α] (sin cos : α → α) (T : Nat) (R r mstep tstep : α) :
    ∀ (n : Nat) (cur : α) (i : Nat), i < n →
      (mainLoop sin cos T R r mstep tstep n cur).get? i =
        some (tubeLoop sin cos R r (sin (cur + (i : α) * mstep))
          (cos (cur + (i : α) * mstep)) tstep T 0) := by
  intro n
  induction n with
  | zero => intro cur i hi; omega
  | succ n ih =>
    intro cur i hi
    cases i with
    | zero => simp [mainLoop]
    | succ i =>
      have h := ih (cur + mstep) i (by omega)
      simp only [mainLoop, List.get?_cons_succ, h]
      have e : cur + mstep + (i : α) * mstep = cur + ((i + 1 : Nat) : α) * mstep := by
        push_cast; ring
      rw [e]

/-- The first loop of `UCreateTorusMesh` stores the grid point `P(i, j)` at
`segments_list[i][j]`. -/
theorem segAt_segments_list {α : Type} [Field α] [CharZero α] (sin cos : α → α) (pi : α)
    (M T : Nat) (R r : α) (i j : Nat) (hi : i < M) (hj : j < T) :
    segAt (segments_list sin cos pi M T R r) i j =
      some (torusPoint sin cos pi M T R r i j) := by
  have hM : (M : α) ≠ 0 := by
    have : M ≠ 0 := by omega
    exact_mod_cast this
  have hT : (T : α) ≠ 0 := by
    have : T ≠ 0 := by omega
    exact_mod_cast this
  have em : (0 : α) + (i : α) * radians pi (360 / (M : α)) = (i : α) * 2 * pi / (M : α) := by
    unfold radians; field_simp; ring
  have et : (0 : α) + (j : α) * radians pi (360 / (T : α)) = (j : α) * 2 * pi / (T : α) := by
    unfold radians; field_simp; ring
  simp only [segAt, segments_list, mainLoop_get? sin cos T R r _ _ M 0 i hi, Option.some_bind,
    tubeLoop_get? sin cos R r _ _ _ T 0 j hj, em, et, torusPoint, surfacePosition]

/-- C4: over the reals, for radii `R > r > 0` and every `i < M`, `j < T`, the point
the first loop of `UCreateTorusMesh` stores at `segments_list[i][j]` is
`P(i, j) = ((R + r cos t) cos m, (R + r cos t) sin m, r sin t)` with
`m = i * 2 * pi / M`, `t = j * 2 * pi / T`, and it satisfies
`(sqrt(x^2 + y^2) - R)^2 + z^2 = r^2`. -/
theorem torus_points_on_torus (M T : Nat) (R r : ℝ) (hr : 0 < r) (hR : r < R)
    (i j : Nat) (hi : i < M) (hj : j < T) :
    segAt (segments_list Real.sin Real.cos Real.pi M T R r) i j =
        some (torusPoint Real.sin Real.cos Real.pi M T R r i j) ∧
      (torusPoint Real.sin Real.cos Real.pi M T R r i j) =
        ⟨(R + r * Real.cos ((j : ℝ) * 2 * Real.pi / (T : ℝ))) *
            Real.cos ((i : ℝ) * 2 * Real.pi / (M : ℝ)),
         (R + r * Real.cos ((j : ℝ) * 2 * Real.pi / (T : ℝ))) *
            Real.sin ((i : ℝ) * 2 * Real.pi / (M : ℝ)),
         r * Real.sin ((j : ℝ) * 2 * Real.pi / (T : ℝ))⟩ ∧
      (Real.sqrt ((torusPoint Real.sin Real.cos Real.pi M T R r i j).x ^ 2 +
            (torusPoint Real.sin Real.cos Real.pi M T R r i j).y ^ 2) - R) ^ 2 +
          (torusPoint Real.sin Real.cos Real.pi M T R r i j).z ^ 2 = r ^ 2 := by
  refine ⟨segAt_segments_list Real.sin Real.cos Real.pi M T R r i j hi hj, rfl, ?_⟩
  simp only [torusPoint]
  set m := (i : ℝ) * 2 * Real.pi / (M : ℝ)
  set t := (j : ℝ) * 2 * Real.pi / (T : ℝ)
  have hc : -1 ≤ Real.cos t := Real.neg_one_le_cos t
  have hpos : 0 ≤ R + r * Real.cos t := by nlinarith
  have hsq : ((R + r * Real.cos t) * Real.cos m) ^ 2 + ((R + r * Real.cos t) * Real.sin m) ^ 2 =
      (R + r * Real.cos t) ^ 2 := by
    have := Real.sin_sq_add_cos_sq m
    nlinarith
  rw [hsq, Real.sqrt_sq hpos]
  have := Real.sin_sq_add_cos_sq t
  nlinarith

/-- C4 at the program's values `M = T = 30`, `R = 1`, `r = 0.1`, for the grid point
`(7, 15)`. -/
theorem torus_points_on_torus_program :
    segAt (segments_list Real.sin Real.cos Real.pi _mainSegments _tubeSegments
        (_mainRadius : ℝ) (_tubeRadius : ℝ)) 7 15 =
        some (torusPoint Real.sin Real.cos Real.pi _mainSegments _tubeSegments
          (_mainRadius : ℝ) (_tubeRadius : ℝ) 7 15) ∧
      (Real.sqrt ((torusPoint Real.sin Real.cos Real.pi _mainSegments _tubeSegments
            (_mainRadius : ℝ) (_tubeRadius : ℝ) 7 15).x ^ 2 +
            (torusPoint Real.sin Real.cos Real.pi _mainSegments _tubeSegments
            (_mainRadius : ℝ) (_tubeRadius : ℝ) 7 15).y ^ 2) - (_mainRadius : ℝ)) ^ 2 +
          (torusPoint Real.sin Real.cos Real.pi _mainSegments _tubeSegments
            (_mainRadius : ℝ) (_tubeRadius : ℝ) 7 15).z ^ 2 = ((_tubeRadius : ℚ) : ℝ) ^ 2 :=
  have h := torus_points_on_torus _mainSegments _tubeSegments (_mainRadius : ℝ) (_tubeRadius : ℝ)
    (by norm_num [_tubeRadius]) (by norm_num [_tubeRadius, _mainRadius]) 7 15
    (by decide) (by decide)
  ⟨h.1, h.2.2⟩

/-! ## Theorems: the torus connect and combine loops -/

/-- One cell of the connect loop, when the grid has a point at every
`(i, j)` with `i < M`, `j < T`: seven vertices by the wrap-around rule and seven
texture coordinates are appended. -/
theorem connectCell_spec {α : Type} [Field α] (segs : List (List (Vec3 α)))
    (P : Nat → Nat → Vec3 α) (M T : Nat)
    (hseg : ∀ i j, i < M → j < T → segAt segs i j = some (P i j))
    (hStep vStep u v : α) (i j : Nat) (hi : i < M) (hj : j < T) (b : TorusBuffers α) :
    ∃ ts : List (Vec2 α), ts.length = 7 ∧
      connectCell segs M T hStep vStep u v i j b =
        some ⟨b.vertex_list ++ wrapCell P M T i j, b.texture_coords ++ ts⟩ := by
  have h00 := hseg i j hi hj
  have hM : 0 < M := by omega
  have hT : 0 < T := by omega
  by_cases h1 : i + 1 < M <;> by_cases h2 : j + 1 < T
  · have e1 : (i + 1) % M = i + 1 := Nat.mod_eq_of_lt h1
    have e2 : (j + 1) % T = j + 1 := Nat.mod_eq_of_lt h2
    refine ⟨[⟨u, v⟩, ⟨u, v + vStep⟩, ⟨u + hStep, v + vStep⟩, ⟨u, v⟩, ⟨u + hStep, v⟩,
      ⟨u + hStep, v - vStep⟩, ⟨u, v⟩], rfl, ?_⟩
    simp [connectCell, h1, h2, h00, hseg i (j + 1) hi h2,
        hseg (i + 1) (j + 1) h1 h2, hseg (i + 1) j h1 hj, pushVertex, pushTexture,
        wrapCell, e1, e2]
  · have h2' : j + 1 = T := by omega
    have h1' : ¬ i + 1 = M := by omega
    have e1 : (i + 1) % M = i + 1 := Nat.mod_eq_of_lt h1
    have e2 : (j + 1) % T = 0 := by rw [h2']; exact Nat.mod_self T
    refine ⟨[⟨u, v⟩, ⟨u, 0⟩, ⟨u + hStep, 0⟩, ⟨u, v⟩, ⟨u + hStep, v⟩,
      ⟨u + hStep, 0⟩, ⟨u, v⟩], rfl, ?_⟩
    simp [connectCell, h1, h2, h1', h2', h00, hseg i 0 hi hT,
        hseg (i + 1) 0 h1 hT, hseg (i + 1) j h1 hj, pushVertex, pushTexture,
        wrapCell, e1, e2]
  · have h1' : i + 1 = M := by omega
    have h2' : ¬ j + 1 = T := by omega
    have e1 : (i + 1) % M = 0 := by rw [h1']; exact Nat.mod_self M
    have e2 : (j + 1) % T = j + 1 := Nat.mod_eq_of_lt h2
    refine ⟨[⟨u, v⟩, ⟨u, v + vStep⟩, ⟨0, v + vStep⟩, ⟨u, v⟩, ⟨0, v⟩,
      ⟨0, v + vStep⟩, ⟨u, v⟩], rfl, ?_⟩
    simp [connectCell, h1, h2, h1', h2', h00, hseg i (j + 1) hi h2,
        hseg 0 (j + 1) hM h2, hseg 0 j hM hj, pushVertex, pushTexture,
        wrapCell, e1, e2]
  · have h1' : i + 1 = M := by omega
    have h2' : j + 1 = T := by omega
    have e1 : (i + 1) % M = 0 := by rw [h1']; exact Nat.mod_self M
    have e2 : (j + 1) % T = 0 := by rw [h2']; exact Nat.mod_self T
    refine ⟨[⟨u, v⟩, ⟨u, 0⟩, ⟨0, 0⟩, ⟨u, v⟩, ⟨0, v⟩, ⟨0, 0⟩, ⟨u, v⟩], rfl, ?_⟩
    simp [connectCell, h1, h2, h1', h2', h00, hseg i 0 hi hT,
        hseg 0 0 hM hT, hseg 0 j hM hj, pushVertex, pushTexture,
        wrapCell, e1, e2]

/-- The inner connect loop from `j` to the end of the row `i`. -/
theorem connectTubeLoop_spec {α : Type} [Field α] (segs : List (List (Vec3 α)))
    (P : Nat → Nat → Vec3 α) (M T : Nat)
    (hseg : ∀ i j, i < M → j < T → segAt segs i j = some (P i j))
    (hStep vStep u : α) (i : Nat) (hi : i < M) :
    ∀ (n j : Nat) (v : α) (b : TorusBuffers α), j + n = T →
      ∃ ts : List (Vec2 α), ts.length = 7 * n ∧
        connectTubeLoop segs M T hStep vStep u i n j v b =
          some ⟨b.vertex_list ++ (List.range' j n).flatMap (fun jj => wrapCell P M T i jj),
            b.texture_coords ++ ts⟩ := by
  intro n
  induction n with
  | zero =>
    intro j v b _
    exact ⟨[], rfl, by simp [connectTubeLoop]⟩
  | succ n ih =>
    intro j v b hjn
    obtain ⟨ts1, hl1, hc⟩ := connectCell_spec segs P M T hseg hStep vStep u v i j hi
      (by omega) b
    obtain ⟨ts2, hl2, hr⟩ := ih (j + 1) (v + vStep)
      ⟨b.vertex_list ++ wrapCell P M T i j, b.texture_coords ++ ts1⟩ (by omega)
    refine ⟨ts1 ++ ts2, by simp [hl1, hl2]; ring, ?_⟩
    simp only [connectTubeLoop, hc, Option.some_bind, hr, List.range'_succ,
      List.flatMap_cons, List.append_assoc]

/-- The outer connect loop from `i` to the last row. -/
theorem connectMainLoop_spec {α : Type} [Field α] (segs : List (List (Vec3 α)))
    (P : Nat → Nat → Vec3 α) (M T : Nat)
    (hseg : ∀ i j, i < M → j < T → segAt segs i j = some (P i j))
    (hStep vStep : α) :
    ∀ (n i : Nat) (u : α) (b : TorusBuffers α), i + n = M →
      ∃ ts : List (Vec2 α), ts.length = 7 * T * n ∧
        connectMainLoop segs M T hStep vStep n i u b =
          some ⟨b.vertex_list ++ (List.range' i n).flatMap
              (fun ii => (List.range' 0 T).flatMap (fun jj => wrapCell P M T ii jj)),
            b.texture_coords ++ ts⟩ := by
  intro n
  induction n with
  | zero =>
    intro i u b _
    exact ⟨[], rfl, by simp [connectMainLoop]⟩
  | succ n ih =>
    intro i u b hin
    obtain ⟨ts1, hl1, hc⟩ := connectTubeLoop_spec segs P M T hseg hStep vStep u i (by omega)
      T 0 0 b (by omega)
    obtain ⟨ts2, hl2, hr⟩ := ih (i + 1) (u + hStep)
      ⟨b.vertex_list ++ (List.range' 0 T).flatMap (fun jj => wrapCell P M T i jj),
        b.texture_coords ++ ts1⟩ (by omega)
    refine ⟨ts1 ++ ts2, by simp [hl1, hl2]; ring, ?_⟩
    simp only [connectMainLoop, hc, Option.some_bind, hr, List.range'_succ,
      List.flatMap_cons, List.append_assoc]

/-- The connect loop on a full grid leaves the vertex list of the wrap-around
rule and as many texture coordinates. -/
theorem connectSegments_spec {α : Type} [Field α] (segs : List (List (Vec3 α)))
    (P : Nat → Nat → Vec3 α) (M T : Nat)
    (hseg : ∀ i j, i < M → j < T → segAt segs i j = some (P i j)) :
    ∃ ts : List (Vec2 α), ts.length = 7 * T * M ∧
      connectSegments segs M T = some ⟨wrapVertexList P M T, ts⟩ := by
  obtain ⟨ts, hl, h⟩ := connectMainLoop_spec segs P M T hseg (1 / (M : α)) (1 / (T : α))
    M 0 0 ⟨[], []⟩ (by omega)
  refine ⟨ts, hl, ?_⟩
  simp only [connectSegments, h, List.nil_append, wrapVertexList, List.range_eq_range']

/-- The length of a concatenation of blocks of one length. -/
theorem flatMap_length_const {ι β : Type} (f : ι → List β) (c : Nat)
    (hc : ∀ a, (f a).length = c) (l : List ι) : (l.flatMap f).length = c * l.length := by
  induction l with
  | nil => simp
  | cons a l ih => simp [List.flatMap_cons, hc, ih]; ring

/-- Entry `r` of block `k` in a concatenation of blocks of one length. -/
theorem flatMap_get?_block {ι β : Type} (f : ι → List β) (c : Nat)
    (hc : ∀ a, (f a).length = c) :
    ∀ (l : List ι) (k r : Nat) (a : ι), l.get? k = some a → r < c →
      (l.flatMap f).get? (c * k + r) = (f a).get? r := by
  intro l
  induction l with
  | nil => intro k r a h; simp at h
  | cons x l ih =>
    intro k r a h hr
    cases k with
    | zero =>
      simp only [List.get?_cons_zero, Option.some.injEq] at h
      subst h
      simp only [List.flatMap_cons, Nat.mul_zero, Nat.zero_add]
      rw [List.get?_eq_getElem?, List.get?_eq_getElem?,
        List.getElem?_append_left (by rw [hc]; exact hr)]
    | succ k =>
      simp only [List.get?_cons_succ] at h
      have := ih k r a h hr
      simp only [List.flatMap_cons]
      rw [List.get?_eq_getElem?, List.getElem?_append_right (by rw [hc]; nlinarith), hc]
      rw [show c * (k + 1) + r - c = c * k + r by
        rw [Nat.mul_succ]; omega, ← List.get?_eq_getElem?]
      exact this

/-- The first vertex of the cell `(i, j)` is `P(i, j)`, at index
`7 * (i * T + j)` of the vertex list, whose length is `7 * T * M`. -/
theorem wrapVertexList_get? {α : Type} (P : Nat → Nat → Vec3 α) (M T i j : Nat)
    (hi : i < M) (hj : j < T) :
    (wrapVertexList P M T).get? (7 * (i * T + j)) = some (P i j) ∧
      (wrapVertexList P M T).length = 7 * T * M := by
  have hcell : ∀ ii jj, (wrapCell P M T ii jj).length = 7 := fun _ _ => rfl
  have hrow : ∀ ii, ((List.range T).flatMap (fun jj => wrapCell P M T ii jj)).length = 7 * T := by
    intro ii
    rw [flatMap_length_const _ 7 (hcell ii), List.length_range]
  constructor
  · have e : 7 * (i * T + j) = 7 * T * i + (7 * j + 0) := by ring
    rw [e]
    unfold wrapVertexList
    rw [flatMap_get?_block _ (7 * T) hrow (List.range M) i (7 * j + 0) i
      (by rw [List.get?_eq_getElem?, List.getElem?_range hi]) (by omega)]
    rw [flatMap_get?_block _ 7 (hcell i) (List.range T) j 0 j
      (by rw [List.get?_eq_getElem?, List.getElem?_range hj]) (by omega)]
    rfl
  · unfold wrapVertexList
    rw [flatMap_length_const _ (7 * T) hrow, List.length_range]

/-- The combine loop on lists of equal length: eight floats a vertex, those of
`torusVertexOut`. -/
theorem torusCombine_spec {α : Type} [Field α] (sqrt : α → α) :
    ∀ (vl : List (Vec3 α)) (tl : List (Vec2 α)), vl.length = tl.length →
      ∃ out : List α, torusCombine sqrt vl tl = some out ∧ out.length = 8 * vl.length ∧
        ∀ (k : Nat) (p : Vec3 α) (t : Vec2 α), vl.get? k = some p → tl.get? k = some t →
          (out.drop (8 * k)).take 8 = torusVertexOut sqrt p t := by
  intro vl
  induction vl with
  | nil =>
    intro tl _
    exact ⟨[], by simp [torusCombine], rfl, by intro k p t h; simp at h⟩
  | cons p0 vl ih =>
    intro tl hlen
    match tl, hlen with
    | t0 :: tl, hlen =>
      obtain ⟨rest, hr, hl, hk⟩ := ih tl (by simpa using hlen)
      refine ⟨torusVertexOut sqrt p0 t0 ++ rest, by simp [torusCombine, hr], ?_, ?_⟩
      · simp [torusVertexOut, hl]
        ring
      · intro k p t hp ht
        have h8 : (torusVertexOut sqrt p0 t0).length = 8 := rfl
        cases k with
        | zero =>
          simp only [List.get?_cons_zero, Option.some.injEq] at hp ht
          subst hp
          subst ht
          rw [Nat.mul_zero, List.drop_zero, ← h8, List.take_left]
        | succ k =>
          simp only [List.get?_cons_succ] at hp ht
          rw [show 8 * (k + 1) = (torusVertexOut sqrt p0 t0).length + 8 * k by rw [h8]; ring,
            ← List.drop_drop, List.drop_left]
          exact hk k p t hp ht

/-- C5 at the inner rim of the program's torus: `UCreateTorusMesh` succeeds, and
vertex 105 of its buffer is the grid point `P(0, 15) = (0.9, 0, 0)` stored with
the normal `(1, 0, 0)`, while the outward unit normal of the torus at
`P(0, 15)` is `(-1, 0, 0)`. -/
theorem torus_normal_inner_rim :
    ∃ (out : List ℝ) (t : Vec2 ℝ),
      UCreateTorusMesh_combined Real.sqrt Real.sin Real.cos Real.pi _mainSegments
          _tubeSegments (_mainRadius : ℝ) (_tubeRadius : ℝ) = some out ∧
        out.length = 8 * (7 * _mainSegments * _tubeSegments) ∧
        torusPoint Real.sin Real.cos Real.pi _mainSegments _tubeSegments
          (_mainRadius : ℝ) (_tubeRadius : ℝ) 0 15 = ⟨9 / 10, 0, 0⟩ ∧
        (out.drop (8 * 105)).take 8 = [9 / 10, 0, 0, 1, 0, 0, t.x, t.y] ∧
        torusNormal Real.sin Real.cos Real.pi _mainSegments _tubeSegments 0 15 =
          ⟨-1, 0, 0⟩ := by
  have hseg := fun (i j : Nat) (hi : i < _mainSegments) (hj : j < _tubeSegments) =>
    segAt_segments_list Real.sin Real.cos Real.pi _mainSegments _tubeSegments
      (_mainRadius : ℝ) (_tubeRadius : ℝ) i j hi hj
  obtain ⟨ts, hts, hconn⟩ := connectSegments_spec _ _ _mainSegments _tubeSegments hseg
  obtain ⟨hget, hvlen⟩ := wrapVertexList_get?
    (torusPoint Real.sin Real.cos Real.pi _mainSegments _tubeSegments
      (_mainRadius : ℝ) (_tubeRadius : ℝ)) _mainSegments _tubeSegments 0 15
    (by decide) (by decide)
  obtain ⟨out, hout, holen, hblock⟩ := torusCombine_spec Real.sqrt _ ts (hvlen.trans hts.symm)
  have h105 : 105 < ts.length := by rw [hts]; decide
  have hP : torusPoint Real.sin Real.cos Real.pi _mainSegments _tubeSegments
      (_mainRadius : ℝ) (_tubeRadius : ℝ) 0 15 = ⟨9 / 10, 0, 0⟩ := by
    have ht : ((15 : ℕ) : ℝ) * 2 * Real.pi / ((_tubeSegments : ℕ) : ℝ) = Real.pi := by
      simp only [_tubeSegments]; push_cast; ring
    have hm : ((0 : ℕ) : ℝ) * 2 * Real.pi / ((_mainSegments : ℕ) : ℝ) = 0 := by
      simp
    simp only [torusPoint, ht, hm, Real.cos_pi, Real.sin_pi, Real.cos_zero, Real.sin_zero,
      _mainRadius, _tubeRadius]
    norm_num
  have hN : torusNormal Real.sin Real.cos Real.pi _mainSegments _tubeSegments 0 15 =
      ⟨-1, 0, 0⟩ := by
    have ht : ((15 : ℕ) : ℝ) * 2 * Real.pi / ((_tubeSegments : ℕ) : ℝ) = Real.pi := by
      simp only [_tubeSegments]; push_cast; ring
    have hm : ((0 : ℕ) : ℝ) * 2 * Real.pi / ((_mainSegments : ℕ) : ℝ) = 0 := by
      simp
    simp only [torusNormal, ht, hm, Real.cos_pi, Real.sin_pi, Real.cos_zero, Real.sin_zero]
    norm_num
  have hsqrt : Real.sqrt (81 / 100) = 9 / 10 := by
    rw [show (81 / 100 : ℝ) = (9 / 10) ^ 2 by norm_num]
    exact Real.sqrt_sq (by norm_num)
  refine ⟨out, ts.get ⟨105, h105⟩, ?_, ?_, hP, ?_, hN⟩
  · simp only [UCreateTorusMesh_combined, hconn, Option.some_bind, hout]
  · rw [holen, hvlen]
    ring
  · have hb := hblock 105 _ (ts.get ⟨105, h105⟩) hget (List.get?_eq_get h105)
    rw [hb, hP]
    simp only [torusVertexOut, Vec3.normalize, Vec3.scale, Vec3.dot]
    have e : (9 / 10 : ℝ) * (9 / 10) + 0 * 0 + 0 * 0 = 81 / 100 := by norm_num
    rw [e, hsqrt]
    norm_num

/-! ## Theorems: the lighting function -/

/-- A non-zero vector has a positive squared length. -/
theorem Vec3.dot_self_pos (w : Vec3 ℝ) (hw : w ≠ ⟨0, 0, 0⟩) : 0 < Vec3.dot w w := by
  obtain ⟨x, y, z⟩ := w
  simp only [Vec3.dot]
  have hne : x ≠ 0 ∨ y ≠ 0 ∨ z ≠ 0 := by
    by_contra hcon
    push_neg at hcon
    apply hw
    rw [hcon.1, hcon.2.1, hcon.2.2]
  rcases hne with h | h | h
  · nlinarith [mul_self_pos.mpr h, mul_self_nonneg y, mul_self_nonneg z]
  · nlinarith [mul_self_pos.mpr h, mul_self_nonneg x, mul_self_nonneg z]
  · nlinarith [mul_self_pos.mpr h, mul_self_nonneg x, mul_self_nonneg y]

/-- Normalising a non-zero vector gives a unit vector. -/
theorem Vec3.normalize_unit (w : Vec3 ℝ) (hw : w ≠ ⟨0, 0, 0⟩) :
    Vec3.dot (Vec3.normalize Real.sqrt w) (Vec3.normalize Real.sqrt w) = 1 := by
  have hpos : 0 < Vec3.dot w w := Vec3.dot_self_pos w hw
  have hs : 0 < Real.sqrt (Vec3.dot w w) := Real.sqrt_pos.mpr hpos
  have hss : Real.sqrt (Vec3.dot w w) * Real.sqrt (Vec3.dot w w) = Vec3.dot w w :=
    Real.mul_self_sqrt hpos.le
  have key : Vec3.dot (Vec3.normalize Real.sqrt w) (Vec3.normalize Real.sqrt w) =
      (1 / Real.sqrt (Vec3.dot w w)) * (1 / Real.sqrt (Vec3.dot w w)) * Vec3.dot w w := by
    simp only [Vec3.normalize, Vec3.scale, Vec3.dot]
    ring
  rw [key]
  calc 1 / Real.sqrt (Vec3.dot w w) * (1 / Real.sqrt (Vec3.dot w w)) * Vec3.dot w w
      = Vec3.dot w w / (Real.sqrt (Vec3.dot w w) * Real.sqrt (Vec3.dot w w)) := by
        field_simp
    _ = 1 := by rw [hss]; exact div_self hpos.ne'

/-- Cauchy-Schwarz for unit vectors. -/
theorem Vec3.dot_le_one_of_unit (a b : Vec3 ℝ) (ha : Vec3.dot a a = 1)
    (hb : Vec3.dot b b = 1) : Vec3.dot a b ≤ 1 := by
  simp only [Vec3.dot] at *
  nlinarith [sq_nonneg (a.x - b.x), sq_nonneg (a.y - b.y), sq_nonneg (a.z - b.z)]

/-- Reflecting a unit vector about a unit normal gives a unit vector. -/
theorem Vec3.reflect_neg_unit (l n : Vec3 ℝ) (hl : Vec3.dot l l = 1)
    (hn : Vec3.dot n n = 1) :
    Vec3.dot (Vec3.reflect (Vec3.neg l) n) (Vec3.reflect (Vec3.neg l) n) = 1 := by
  have key : Vec3.dot (Vec3.reflect (Vec3.neg l) n) (Vec3.reflect (Vec3.neg l) n) =
      Vec3.dot l l - 4 * (Vec3.dot n l) ^ 2 + 4 * (Vec3.dot n l) ^ 2 * Vec3.dot n n := by
    simp only [Vec3.dot, Vec3.reflect, Vec3.neg, Vec3.sub, Vec3.scale]
    ring
  rw [key, hl, hn]
  ring

/-- One colour component of the Phong sum lies between 0.1 and 1.9 times the
light's component when both weights lie in [0, 1]. -/
theorem phong_component_bounds (c d s : ℝ) (hc : 0 ≤ c) (hd0 : 0 ≤ d) (hd1 : d ≤ 1)
    (hs0 : 0 ≤ s) (hs1 : s ≤ 1) :
    1 / 10 * c ≤ 1 / 10 * c + d * c + 8 / 10 * s * c ∧
      1 / 10 * c + d * c + 8 / 10 * s * c ≤ 19 / 10 * c := by
  have h1 : 0 ≤ d * c := mul_nonneg hd0 hc
  have h2 : d * c ≤ c := by nlinarith
  have h3 : 0 ≤ s * c := mul_nonneg hs0 hc
  have h4 : s * c ≤ c := by nlinarith
  constructor <;> nlinarith

/-- C7: `phongLight` returns ambient + diffuse + specular with ambient
`0.1 L`, diffuse `max(n.l, 0) L` and specular `0.8 max(v.r, 0)^16 L`, where
`r = reflect(-l, n)`; over the reals, when `n`, `l`, `v` are unit vectors and `L`
has non-negative components, each component of the result lies between
`0.1 L_c` and `1.9 L_c`. -/
theorem phong_bounds (vertexNormal vertexFragmentPos viewPosition : Vec3 ℝ)
    (mlightColor mlightPosition : Vec3 ℝ)
    (hn : Vec3.dot (Vec3.normalize Real.sqrt vertexNormal)
      (Vec3.normalize Real.sqrt vertexNormal) = 1)
    (hl : Vec3.dot (Vec3.normalize Real.sqrt (mlightPosition.sub vertexFragmentPos))
      (Vec3.normalize Real.sqrt (mlightPosition.sub vertexFragmentPos)) = 1)
    (hv : Vec3.dot (Vec3.normalize Real.sqrt (viewPosition.sub vertexFragmentPos))
      (Vec3.normalize Real.sqrt (viewPosition.sub vertexFragmentPos)) = 1)
    (hL : 0 ≤ mlightColor.x ∧ 0 ≤ mlightColor.y ∧ 0 ≤ mlightColor.z) :
    let n := Vec3.normalize Real.sqrt vertexNormal
    let l := Vec3.normalize Real.sqrt (mlightPosition.sub vertexFragmentPos)
    let v := Vec3.normalize Real.sqrt (viewPosition.sub vertexFragmentPos)
    let r := Vec3.reflect (Vec3.neg l) n
    let phong := phongLight Real.sqrt (fun a b : ℝ => a ^ b) vertexNormal vertexFragmentPos
      viewPosition mlightColor mlightPosition
    phong = ((Vec3.scale (1 / 10) mlightColor).add
          (Vec3.scale (max (Vec3.dot n l) 0) mlightColor)).add
          (Vec3.scale (8 / 10 * (max (Vec3.dot v r) 0) ^ 16) mlightColor) ∧
      (1 / 10 * mlightColor.x ≤ phong.x ∧ phong.x ≤ 19 / 10 * mlightColor.x) ∧
      (1 / 10 * mlightColor.y ≤ phong.y ∧ phong.y ≤ 19 / 10 * mlightColor.y) ∧
      (1 / 10 * mlightColor.z ≤ phong.z ∧ phong.z ≤ 19 / 10 * mlightColor.z) := by
  intro n l v r phong
  have hr : Vec3.dot r r = 1 := Vec3.reflect_neg_unit l n hl hn
  have hd0 : 0 ≤ max (Vec3.dot n l) 0 := le_max_right _ _
  have hd1 : max (Vec3.dot n l) 0 ≤ 1 :=
    max_le (Vec3.dot_le_one_of_unit n l hn hl) zero_le_one
  have hs0 : 0 ≤ max (Vec3.dot v r) 0 := le_max_right _ _
  have hs1 : max (Vec3.dot v r) 0 ≤ 1 :=
    max_le (Vec3.dot_le_one_of_unit v r hv hr) zero_le_one
  have hp0 : 0 ≤ (max (Vec3.dot v r) 0) ^ 16 := pow_nonneg hs0 16
  have hp1 : (max (Vec3.dot v r) 0) ^ 16 ≤ 1 := pow_le_one₀ hs0 hs1
  have hpow : ∀ a : ℝ, a ^ (16 : ℝ) = a ^ (16 : ℕ) := by
    intro a
    rw [show (16 : ℝ) = ((16 : ℕ) : ℝ) by norm_num, Real.rpow_natCast]
  have hphong : phong = ((Vec3.scale (1 / 10) mlightColor).add
          (Vec3.scale (max (Vec3.dot n l) 0) mlightColor)).add
          (Vec3.scale (8 / 10 * (max (Vec3.dot v r) 0) ^ 16) mlightColor) := by
    show phongLight Real.sqrt (fun a b : ℝ => a ^ b) vertexNormal vertexFragmentPos
      viewPosition mlightColor mlightPosition = _
    simp only [phongLight, hpow]
  obtain ⟨hx, hy, hz⟩ := hL
  refine ⟨hphong, ?_, ?_, ?_⟩
  · rw [hphong]
    exact phong_component_bounds mlightColor.x _ _ hx hd0 hd1 hp0 hp1
  · rw [hphong]
    exact phong_component_bounds mlightColor.y _ _ hy hd0 hd1 hp0 hp1
  · rw [hphong]
    exact phong_component_bounds mlightColor.z _ _ hz hd0 hd1 hp0 hp1

/-- C7 at the program's light: a fragment at the origin with normal
`(0, 1, 0)`, lit by `KeyLightColor` from `KeyLightPos` and seen from the
camera's start position. -/
theorem phong_bounds_key_light :
    (1 / 10 * (KeyLightColor.toReal).x ≤
        (phongLight Real.sqrt (fun a b : ℝ => a ^ b) ⟨0, 1, 0⟩ ⟨0, 0, 0⟩
          (⟨0, 4, 7⟩ : Vec3 ℝ) KeyLightColor.toReal KeyLightPos.toReal).x ∧
      (phongLight Real.sqrt (fun a b : ℝ => a ^ b) ⟨0, 1, 0⟩ ⟨0, 0, 0⟩
          (⟨0, 4, 7⟩ : Vec3 ℝ) KeyLightColor.toReal KeyLightPos.toReal).x ≤
        19 / 10 * (KeyLightColor.toReal).x) :=
  (phong_bounds ⟨0, 1, 0⟩ ⟨0, 0, 0⟩ ⟨0, 4, 7⟩ KeyLightColor.toReal KeyLightPos.toReal
    (Vec3.normalize_unit _ (by simp))
    (Vec3.normalize_unit _ (by
      simp only [Vec3.sub, Vec3.toReal, KeyLightPos, ne_eq, Vec3.mk.injEq, not_and]
      norm_num))
    (Vec3.normalize_unit _ (by
      simp only [Vec3.sub, ne_eq, Vec3.mk.injEq, not_and]
      norm_num))
    (by simp only [Vec3.toReal, KeyLightColor]; norm_num)).2.1

/-! ## Theorems: the sphere -/

/-- The eight floats the sphere's combine loop pushes for vertex `k`. -/
theorem sphereCombine_block {α : Type} [Field α] (sqrt : α → α) (atan2 : α → α → α) (pi : α) :
    ∀ (k : Nat) (l : List α), 3 * k + 2 < l.length →
      ((sphereCombine sqrt atan2 pi l).drop (8 * k)).take 8 =
        sphereVertexOut sqrt atan2 pi
          ⟨l.getD (3 * k) 0, l.getD (3 * k + 1) 0, l.getD (3 * k + 2) 0⟩ := by
  intro k
  induction k with
  | zero =>
    intro l hl
    match l, hl with
    | a :: b :: c :: rest, _ =>
      simp [sphereCombine, sphereVertexOut]
  | succ k ih =>
    intro l hl
    match l, hl with
    | a :: b :: c :: rest, hl =>
      have hlen : 3 * k + 2 < rest.length := by
        simp only [List.length_cons] at hl
        omega
      have h := ih rest hlen
      have e1 : 8 * (k + 1) = 8 + 8 * k := by ring
      have e3 : 3 * (k + 1) = 3 * k + 3 := by ring
      have e4 : 3 * (k + 1) + 1 = (3 * k + 1) + 3 := by ring
      have e5 : 3 * (k + 1) + 2 = (3 * k + 2) + 3 := by ring
      rw [e4, e5, e3]
      have hd : ∀ n, (a :: b :: c :: rest).getD (n + 3) 0 = rest.getD n 0 := by
        intro n
        simp [List.getD]
      rw [hd, hd, hd, ← h, e1]
      simp only [sphereCombine]
      have : (sphereVertexOut sqrt atan2 pi ⟨a, b, c⟩).length = 8 := by
        simp [sphereVertexOut]
      rw [← List.drop_drop, ← this, List.drop_left]

/-- The sphere's combine loop pushes eight floats for every three it reads. -/
theorem sphereCombine_length {α : Type} [Field α] (sqrt : α → α) (atan2 : α → α → α) (pi : α) :
    ∀ (n : Nat) (l : List α), l.length = 3 * n →
      (sphereCombine sqrt atan2 pi l).length = 8 * n := by
  intro n
  induction n with
  | zero =>
    intro l hl
    have : l = [] := List.length_eq_zero.mp (by omega)
    subst this
    simp [sphereCombine]
  | succ n ih =>
    intro l hl
    match l, hl with
    | a :: b :: c :: rest, hl =>
      have hlen : rest.length = 3 * n := by
        simp only [List.length_cons] at hl
        omega
      simp [sphereCombine, sphereVertexOut, ih rest hlen]
      ring

/-- The eight floats pushed for a non-zero sphere vertex. -/
theorem sphereVertexOut_props (p : Vec3 ℝ) (hp : p ≠ ⟨0, 0, 0⟩) :
    sphereVertexOut Real.sqrt (fun y x : ℝ => Complex.arg ⟨x, y⟩) Real.pi p =
        [p.x, p.y, p.z,
         p.x / Real.sqrt (p.x ^ 2 + p.y ^ 2 + p.z ^ 2),
         p.y / Real.sqrt (p.x ^ 2 + p.y ^ 2 + p.z ^ 2),
         p.z / Real.sqrt (p.x ^ 2 + p.y ^ 2 + p.z ^ 2),
         Complex.arg ⟨p.z / Real.sqrt (p.x ^ 2 + p.y ^ 2 + p.z ^ 2),
             p.x / Real.sqrt (p.x ^ 2 + p.y ^ 2 + p.z ^ 2)⟩ / (2 * Real.pi) + 1 / 2,
         p.y / Real.sqrt (p.x ^ 2 + p.y ^ 2 + p.z ^ 2) / 2 + 1 / 2] ∧
      Real.sqrt ((p.x / Real.sqrt (p.x ^ 2 + p.y ^ 2 + p.z ^ 2)) ^ 2 +
          (p.y / Real.sqrt (p.x ^ 2 + p.y ^ 2 + p.z ^ 2)) ^ 2 +
          (p.z / Real.sqrt (p.x ^ 2 + p.y ^ 2 + p.z ^ 2)) ^ 2) = 1 ∧
      (0 ≤ Complex.arg ⟨p.z / Real.sqrt (p.x ^ 2 + p.y ^ 2 + p.z ^ 2),
             p.x / Real.sqrt (p.x ^ 2 + p.y ^ 2 + p.z ^ 2)⟩ / (2 * Real.pi) + 1 / 2 ∧
        Complex.arg ⟨p.z / Real.sqrt (p.x ^ 2 + p.y ^ 2 + p.z ^ 2),
             p.x / Real.sqrt (p.x ^ 2 + p.y ^ 2 + p.z ^ 2)⟩ / (2 * Real.pi) + 1 / 2 ≤ 1) ∧
      (0 ≤ p.y / Real.sqrt (p.x ^ 2 + p.y ^ 2 + p.z ^ 2) / 2 + 1 / 2 ∧
        p.y / Real.sqrt (p.x ^ 2 + p.y ^ 2 + p.z ^ 2) / 2 + 1 / 2 ≤ 1) := by
  have hdot : Vec3.dot p p = p.x ^ 2 + p.y ^ 2 + p.z ^ 2 := by
    simp only [Vec3.dot]; ring
  have hpos : 0 < p.x ^ 2 + p.y ^ 2 + p.z ^ 2 := hdot ▸ Vec3.dot_self_pos p hp
  set s := Real.sqrt (p.x ^ 2 + p.y ^ 2 + p.z ^ 2) with hs
  have hspos : 0 < s := Real.sqrt_pos.mpr hpos
  have hss : s ^ 2 = p.x ^ 2 + p.y ^ 2 + p.z ^ 2 := Real.sq_sqrt hpos.le
  have hunit : (p.x / s) ^ 2 + (p.y / s) ^ 2 + (p.z / s) ^ 2 = 1 := by
    field_simp
    linarith
  have hy : (p.y / s) ^ 2 ≤ 1 := by nlinarith [sq_nonneg (p.x / s), sq_nonneg (p.z / s)]
  have hy1 : -1 ≤ p.y / s ∧ p.y / s ≤ 1 := by
    constructor <;> nlinarith
  have hpi : 0 < Real.pi := Real.pi_pos
  have ha1 := Complex.neg_pi_lt_arg (⟨p.z / s, p.x / s⟩ : ℂ)
  have ha2 := Complex.arg_le_pi (⟨p.z / s, p.x / s⟩ : ℂ)
  refine ⟨?_, ?_, ⟨?_, ?_⟩, ⟨?_, ?_⟩⟩
  · have hsub : (p.sub ⟨0, 0, 0⟩) = p := by
      simp [Vec3.sub]
    simp only [sphereVertexOut, hsub, Vec3.normalize, Vec3.scale, hdot, ← hs]
    have e : ∀ a : ℝ, 1 / s * a = a / s := by intro a; ring
    simp only [e]
    congr 7
    ring_nf
  · rw [hunit, Real.sqrt_one]
  · have : -(1 / 2) ≤ Complex.arg ⟨p.z / s, p.x / s⟩ / (2 * Real.pi) := by
      rw [le_div_iff₀ (by positivity)]
      linarith
    linarith
  · have : Complex.arg ⟨p.z / s, p.x / s⟩ / (2 * Real.pi) ≤ 1 / 2 := by
      rw [div_le_iff₀ (by positivity)]
      linarith
    linarith
  · linarith [hy1.1]
  · linarith [hy1.2]

set_option maxRecDepth 1000000 in
/-- The sphere's vertex table: its size, that no vertex is the origin, and its
two poles. -/
theorem sphereVerts_facts :
    sphereVerts.length = 726 ∧ UCreateSphereMesh.nVertices = 242 ∧
      (∀ k, k < 242 → sphereVertex sphereVerts k ≠ ⟨0, 0, 0⟩) ∧
      sphereVertex sphereVerts 0 = ⟨0, 1, 0⟩ ∧ sphereVertex sphereVerts 241 = ⟨0, -1, 0⟩ := by
  decide!

/-- A non-zero rational vector is non-zero as a real vector. -/
theorem Vec3.toReal_ne_zero (v : Vec3 ℚ) (hv : v ≠ ⟨0, 0, 0⟩) : v.toReal ≠ ⟨0, 0, 0⟩ := by
  intro h
  apply hv
  obtain ⟨x, y, z⟩ := v
  simp only [Vec3.toReal, Vec3.mk.injEq] at h
  obtain ⟨hx, hy, hz⟩ := h
  have hx0 : x = 0 := by exact_mod_cast hx
  have hy0 : y = 0 := by exact_mod_cast hy
  have hz0 : z = 0 := by exact_mod_cast hz
  rw [hx0, hy0, hz0]

/-- The eight floats of vertex `k` in the sphere's `combined_values`. -/
theorem sphere_block (k : Nat) (hk : k < 242) :
    ((sphereCombine Real.sqrt (fun y x : ℝ => Complex.arg ⟨x, y⟩) Real.pi
        (sphereVerts.map (fun q : ℚ => (q : ℝ)))).drop (8 * k)).take 8 =
      sphereVertexOut Real.sqrt (fun y x : ℝ => Complex.arg ⟨x, y⟩) Real.pi
        (sphereVertex sphereVerts k).toReal := by
  have hlen : 3 * k + 2 < (sphereVerts.map (fun q : ℚ => (q : ℝ))).length := by
    rw [List.length_map, sphereVerts_facts.1]
    omega
  rw [sphereCombine_block _ _ _ k _ hlen]
  have hd : ∀ n, (sphereVerts.map (fun q : ℚ => (q : ℝ))).getD n 0 =
      ((sphereVerts.getD n 0 : ℚ) : ℝ) := by
    intro n
    have := List.getD_map (l := sphereVerts) (d := (0 : ℚ)) (n := n) (fun q : ℚ => (q : ℝ))
    simpa using this
  simp only [hd, sphereVertex, Vec3.toReal]

/-- C6: for each of the 242 vertices `p` of the sphere table, the combine loop of
`UCreateSphereMesh` (over the reals, `M_PI = pi`) stores `p`, the normal
`n = p / |p|` of length 1, and `u = atan2(n.x, n.z) / (2 pi) + 1/2`,
`v = n.y / 2 + 1/2`, both in `[0, 1]`; the top pole gets `(u, v) = (1/2, 1)` and
the bottom pole `(1/2, 0)`. -/
theorem sphere_normals_and_uvs :
    UCreateSphereMesh.nVertices = 242 ∧
    (∀ k, k < UCreateSphereMesh.nVertices →
      let p := (sphereVertex sphereVerts k).toReal
      let len := Real.sqrt (p.x ^ 2 + p.y ^ 2 + p.z ^ 2)
      let n : Vec3 ℝ := ⟨p.x / len, p.y / len, p.z / len⟩
      let u := Complex.arg ⟨n.z, n.x⟩ / (2 * Real.pi) + 1 / 2
      let v := n.y / 2 + 1 / 2
      ((sphereCombine Real.sqrt (fun y x : ℝ => Complex.arg ⟨x, y⟩) Real.pi
          (sphereVerts.map (fun q : ℚ => (q : ℝ)))).drop (8 * k)).take 8 =
          [p.x, p.y, p.z, n.x, n.y, n.z, u, v] ∧
        Real.sqrt (n.x ^ 2 + n.y ^ 2 + n.z ^ 2) = 1 ∧
        (0 ≤ u ∧ u ≤ 1) ∧ (0 ≤ v ∧ v ≤ 1)) ∧
    ((sphereCombine Real.sqrt (fun y x : ℝ => Complex.arg ⟨x, y⟩) Real.pi
        (sphereVerts.map (fun q : ℚ => (q : ℝ)))).drop (8 * 0)).take 8 =
      [0, 1, 0, 0, 1, 0, 1 / 2, 1] ∧
    ((sphereCombine Real.sqrt (fun y x : ℝ => Complex.arg ⟨x, y⟩) Real.pi
        (sphereVerts.map (fun q : ℚ => (q : ℝ)))).drop (8 * 241)).take 8 =
      [0, -1, 0, 0, -1, 0, 1 / 2, 0] := by
  obtain ⟨-, hnv, hne, h0, h241⟩ := sphereVerts_facts
  refine ⟨hnv, ?_, ?_, ?_⟩
  · intro k hk
    rw [hnv] at hk
    have hp := sphereVertexOut_props (sphereVertex sphereVerts k).toReal
      (Vec3.toReal_ne_zero _ (hne k hk))
    intro p len n u v
    exact ⟨(sphere_block k hk).trans hp.1, hp.2.1, hp.2.2.1, hp.2.2.2⟩
  · rw [sphere_block 0 (by omega), h0]
    have hz : (⟨0, 0⟩ : ℂ) = 0 := rfl
    simp [sphereVertexOut, Vec3.toReal, Vec3.normalize, Vec3.sub, Vec3.scale, Vec3.dot, hz]
    norm_num
  · rw [sphere_block 241 (by omega), h241]
    have hz : (⟨0, 0⟩ : ℂ) = 0 := rfl
    simp [sphereVertexOut, Vec3.toReal, Vec3.normalize, Vec3.sub, Vec3.scale, Vec3.dot, hz]

/-! ## Theorems: the renderer and the mesh tables -/

/-- C8 (as stated, refuted): one frame does not bind and draw a mesh of every
kind that `CreateMeshes` builds; no sphere mesh, for one, is bound or drawn. -/
theorem render_misses_sphere :
    ¬ ∀ k : PrimitiveKind, ∃ m ∈ CreateMeshes, m.kind = k ∧
        rendersMesh (URender UCreateBoxMesh UCreateMesh_nvertices) m := by
  intro h
  obtain ⟨m, -, hk, hr⟩ := h PrimitiveKind.sphere
  cases m <;> simp [MeshName.kind] at hk
  simp [rendersMesh, URender, boundVaos] at hr

/-- C8 (amended): whatever the counts in `gBoxMesh` and `gMesh`, one call of
`URender` binds and draws, of the meshes `CreateMeshes` creates, exactly
`gBoxMesh` and `gCylinderMesh`, so the kinds rendered from `Meshes` are box and
cylinder only; its draw calls are two `glDrawElements` on the box, three
`glDrawArrays` on the cylinder and one `glDrawArrays` on `gMesh` of
`main.cpp`. The vertex arrays it binds are, in order, those of `gBoxMesh`,
`gMesh`, `gCylinderMesh`, `gMesh` and 0: a member of `Meshes` has its vertex
array bound exactly when it is the box or the cylinder, and has a draw call
issued on it exactly then, whatever vertex array is bound on entry; so no cone,
pyramid, sphere, torus, plane or prism mesh is bound, and none is drawn. -/
theorem render_draws_box_and_cylinder (gBoxMesh : GLMesh) (gMesh_nvertices : Nat) :
    (∀ m : MeshName, rendersMesh (URender gBoxMesh gMesh_nvertices) m ↔
        m = MeshName.gBoxMesh ∨ m = MeshName.gCylinderMesh) ∧
      (∀ k : PrimitiveKind,
        (∃ m ∈ CreateMeshes, m.kind = k ∧ rendersMesh (URender gBoxMesh gMesh_nvertices) m) ↔
          k = PrimitiveKind.box ∨ k = PrimitiveKind.cylinder) ∧
      drawCalls Vao.zero (URender gBoxMesh gMesh_nvertices) =
        [(Vao.Objects MeshName.gBoxMesh,
            GLCall.glDrawElements DrawMode.GL_TRIANGLES gBoxMesh.nIndices),
         (Vao.Objects MeshName.gBoxMesh,
            GLCall.glDrawElements DrawMode.GL_TRIANGLES gBoxMesh.nIndices),
         (Vao.Objects MeshName.gCylinderMesh, GLCall.glDrawArrays DrawMode.GL_TRIANGLE_FAN 0 36),
         (Vao.Objects MeshName.gCylinderMesh, GLCall.glDrawArrays DrawMode.GL_TRIANGLE_FAN 36 36),
         (Vao.Objects MeshName.gCylinderMesh,
            GLCall.glDrawArrays DrawMode.GL_TRIANGLE_STRIP 72 146),
         (Vao.gMesh, GLCall.glDrawArrays DrawMode.GL_TRIANGLES 0 gMesh_nvertices)] ∧
      boundVaos (URender gBoxMesh gMesh_nvertices) =
        [Vao.Objects MeshName.gBoxMesh, Vao.gMesh, Vao.Objects MeshName.gCylinderMesh,
         Vao.gMesh, Vao.zero] ∧
      (∀ m : MeshName, Vao.Objects m ∈ boundVaos (URender gBoxMesh gMesh_nvertices) ↔
        m = MeshName.gBoxMesh ∨ m = MeshName.gCylinderMesh) ∧
      (∀ (bound : Vao) (m : MeshName),
        (∃ d ∈ drawCalls bound (URender gBoxMesh gMesh_nvertices), d.1 = Vao.Objects m) ↔
          m = MeshName.gBoxMesh ∨ m = MeshName.gCylinderMesh) ∧
      (∀ bound : Vao, drawCalls bound (URender gBoxMesh gMesh_nvertices) =
        drawCalls Vao.zero (URender gBoxMesh gMesh_nvertices)) ∧
      (∀ m : MeshName,
        m.kind = PrimitiveKind.cone ∨ m.kind = PrimitiveKind.pyramid ∨
          m.kind = PrimitiveKind.sphere ∨ m.kind = PrimitiveKind.torus ∨
          m.kind = PrimitiveKind.plane ∨ m.kind = PrimitiveKind.prism →
        Vao.Objects m ∉ boundVaos (URender gBoxMesh gMesh_nvertices) ∧
          ∀ bound : Vao, ¬ ∃ d ∈ drawCalls bound (URender gBoxMesh gMesh_nvertices),
            d.1 = Vao.Objects m) := by
  have hm : ∀ m : MeshName, rendersMesh (URender gBoxMesh gMesh_nvertices) m ↔
      m = MeshName.gBoxMesh ∨ m = MeshName.gCylinderMesh := by
    intro m
    cases m <;> simp [rendersMesh, URender, boundVaos, drawCalls]
  have hb : ∀ m : MeshName, Vao.Objects m ∈ boundVaos (URender gBoxMesh gMesh_nvertices) ↔
      m = MeshName.gBoxMesh ∨ m = MeshName.gCylinderMesh := by
    intro m
    cases m <;> simp [URender, boundVaos]
  have hd : ∀ (bound : Vao) (m : MeshName),
      (∃ d ∈ drawCalls bound (URender gBoxMesh gMesh_nvertices), d.1 = Vao.Objects m) ↔
        m = MeshName.gBoxMesh ∨ m = MeshName.gCylinderMesh := by
    intro bound m
    cases m <;> simp [URender, drawCalls]
  refine ⟨hm, ?_, rfl, rfl, hb, hd, fun _ => rfl, ?_⟩
  · intro k
    simp only [hm]
    cases k <;> simp [CreateMeshes, MeshName.kind]
  · intro m hk
    rw [hb m]
    refine ⟨?_, ?_⟩
    · cases m <;> simp [MeshName.kind] at hk ⊢
    · intro bound
      rw [hd bound m]
      cases m <;> simp [MeshName.kind] at hk ⊢

set_option maxRecDepth 1000000 in
/-- The index arrays of the plane, the box and the sphere: their lengths and
the bound on their entries. -/
theorem index_tables_facts :
    (UCreatePlaneMesh = ⟨4, 6⟩ ∧ UCreateBoxMesh = ⟨24, 36⟩ ∧
      UCreateSphereMesh = ⟨242, 1440⟩) ∧
    (planeIndices.length = 6 ∧ boxIndices.length = 36 ∧ sphereIndices.length = 1440) ∧
    (planeVerts.length = 8 * 4 ∧ boxVerts.length = 8 * 24 ∧ sphereVerts.length = 3 * 242) ∧
    (∀ i ∈ planeIndices, i < 4) ∧ (∀ i ∈ boxIndices, i < 24) ∧
    (∀ i ∈ sphereIndices, i < 242) := by
  decide!

/-- C9: for the plane, the box and the sphere, `nIndices` is a multiple of 3
and at most the length of the index array, every index is below `nVertices`,
and the uploaded vertex buffer holds eight floats for each of the `nVertices`
vertices (plane 6 over 4, box 36 over 24, sphere 1440 over 242). -/
theorem indexed_meshes_in_bounds :
    (UCreatePlaneMesh.nIndices = 6 ∧ UCreatePlaneMesh.nVertices = 4 ∧
      UCreatePlaneMesh.nIndices % 3 = 0 ∧
      UCreatePlaneMesh.nIndices ≤ planeIndices.length ∧
      (∀ i ∈ planeIndices.take UCreatePlaneMesh.nIndices, i < UCreatePlaneMesh.nVertices) ∧
      planeVerts.length = 8 * UCreatePlaneMesh.nVertices) ∧
    (UCreateBoxMesh.nIndices = 36 ∧ UCreateBoxMesh.nVertices = 24 ∧
      UCreateBoxMesh.nIndices % 3 = 0 ∧
      UCreateBoxMesh.nIndices ≤ boxIndices.length ∧
      (∀ i ∈ boxIndices.take UCreateBoxMesh.nIndices, i < UCreateBoxMesh.nVertices) ∧
      boxVerts.length = 8 * UCreateBoxMesh.nVertices) ∧
    (UCreateSphereMesh.nIndices = 1440 ∧ UCreateSphereMesh.nVertices = 242 ∧
      UCreateSphereMesh.nIndices % 3 = 0 ∧
      UCreateSphereMesh.nIndices ≤ sphereIndices.length ∧
      (∀ i ∈ sphereIndices.take UCreateSphereMesh.nIndices, i < UCreateSphereMesh.nVertices) ∧
      (sphereCombine Real.sqrt (fun y x : ℝ => Complex.arg ⟨x, y⟩) Real.pi
        (sphereVerts.map (fun q : ℚ => (q : ℝ)))).length = 8 * UCreateSphereMesh.nVertices) := by
  obtain ⟨⟨hp, hb, hs⟩, ⟨lp, lb, ls⟩, ⟨vp, vb, vs⟩, ip, ib, is⟩ := index_tables_facts
  rw [hp, hb, hs]
  refine ⟨⟨rfl, rfl, rfl, lp.ge, ?_, vp⟩, ⟨rfl, rfl, rfl, lb.ge, ?_, vb⟩,
    ⟨rfl, rfl, rfl, ls.ge, ?_, ?_⟩⟩
  · intro i hi
    exact ip i (List.mem_of_mem_take hi)
  · intro i hi
    exact ib i (List.mem_of_mem_take hi)
  · intro i hi
    exact is i (List.mem_of_mem_take hi)
  · exact sphereCombine_length _ _ _ 242 _ (by rw [List.length_map, vs])

set_option maxRecDepth 1000000 in
/-- The cylinder's vertex table: its vertex count, and the position and normal
of the vertices of the two cap ranges. -/
theorem cylinderVerts_facts :
    UCreateCylinderMesh.nVertices = 218 ∧
    (∀ k < 36, (positionOf cylinderVerts (0 + k)).map (fun p => p.2.1) = some 0 ∧
        normalOf cylinderVerts (0 + k) = some (0, -1, 0)) ∧
    (∀ k < 36, (positionOf cylinderVerts (36 + k)).map (fun p => p.2.1) = some 1 ∧
        normalOf cylinderVerts (36 + k) = some (0, 1, 0)) := by
  decide!

/-- C10: the `glDrawArrays` calls `URender` issues on the cylinder are the
three its header documents, over the ranges (0, 36), (36, 36), (72, 146); the
ranges are pairwise disjoint and cover exactly the vertices below `nVertices`
(218); every vertex of the first has `y = 0` and normal `(0, -1, 0)`, every
vertex of the second has `y = 1` and normal `(0, 1, 0)`. -/
theorem cylinder_draw_ranges (gBoxMesh : GLMesh) (gMesh_nvertices : Nat) :
    arrayDraws (Vao.Objects MeshName.gCylinderMesh)
        (drawCalls Vao.zero (URender gBoxMesh gMesh_nvertices)) = cylinderDocumentedDraws ∧
      cylinderDocumentedDraws.map Prod.snd = [(0, 36), (36, 36), (72, 146)] ∧
      UCreateCylinderMesh.nVertices = 218 ∧
      (cylinderDocumentedDraws.map Prod.snd).Pairwise
        (fun a b => ∀ k, ¬ (inRange a k ∧ inRange b k)) ∧
      (∀ k, k < UCreateCylinderMesh.nVertices ↔
        ∃ r ∈ cylinderDocumentedDraws.map Prod.snd, inRange r k) ∧
      (∀ k, inRange (0, 36) k →
        (positionOf cylinderVerts k).map (fun p => p.2.1) = some 0 ∧
          normalOf cylinderVerts k = some (0, -1, 0)) ∧
      (∀ k, inRange (36, 36) k →
        (positionOf cylinderVerts k).map (fun p => p.2.1) = some 1 ∧
          normalOf cylinderVerts k = some (0, 1, 0)) := by
  obtain ⟨hn, hbot, htop⟩ := cylinderVerts_facts
  refine ⟨rfl, rfl, hn, ?_, ?_, ?_, ?_⟩
  · have hlist : cylinderDocumentedDraws.map Prod.snd = [(0, 36), (36, 36), (72, 146)] := rfl
    rw [hlist]
    refine List.Pairwise.cons ?_ (List.Pairwise.cons ?_ (List.Pairwise.cons ?_ List.Pairwise.nil))
    · intro b hb k
      simp only [List.mem_cons, List.mem_singleton, List.not_mem_nil, or_false] at hb
      rcases hb with rfl | rfl <;> simp only [inRange] <;> omega
    · intro b hb k
      simp only [List.mem_cons, List.mem_singleton, List.not_mem_nil, or_false] at hb
      subst hb
      simp only [inRange]
      omega
    · intro b hb
      exact absurd hb (List.not_mem_nil b)
  · intro k
    rw [hn]
    have hlist : cylinderDocumentedDraws.map Prod.snd = [(0, 36), (36, 36), (72, 146)] := rfl
    rw [hlist]
    constructor
    · intro hk
      by_cases h1 : k < 36
      · exact ⟨(0, 36), by simp, by simp only [inRange]; omega⟩
      · by_cases h2 : k < 72
        · exact ⟨(36, 36), by simp, by simp only [inRange]; omega⟩
        · exact ⟨(72, 146), by simp, by simp only [inRange]; omega⟩
    · rintro ⟨r, hr, hk⟩
      simp only [List.mem_cons, List.mem_singleton, List.not_mem_nil, or_false] at hr
      rcases hr with rfl | rfl | rfl <;> simp only [inRange] at hk <;> omega
  · intro k hk
    simp only [inRange] at hk
    have := hbot k (by omega)
    rwa [Nat.zero_add] at this
  · intro k hk
    simp only [inRange] at hk
    have := htop (k - 36) (by omega)
    rwa [show 36 + (k - 36) = k by omega] at this

/-! ## Theorems: vertex buffers, destruction and documented draws -/

set_option maxRecDepth 1000000 in
/-- The lengths of the vertex tables. -/
theorem vertex_tables_lengths :
    (planeVerts.length = 8 * 4 ∧ prismVerts.length = 8 * 32 ∧ boxVerts.length = 8 * 24 ∧
      coneVerts.length = 8 * 144 ∧ cylinderVerts.length = 8 * 218 ∧
      taperedCylinderVerts.length = 8 * 218 ∧ pyramid3Verts.length = 8 * 16 ∧
      pyramid4Verts.length = 8 * 24 ∧ sphereVerts.length = 3 * 242 ∧
      gMeshVerts.length = 8 * 18) := by
  decide!

/-- `UCreateTorusMesh` on any segment counts: the connect loop and the combine
loop succeed, `nVertices` is `7 * M * T`, `nIndices` is 0, the two lists have one
length, and `combined_values` holds eight floats a vertex. -/
theorem UCreateTorusMesh_spec {α : Type} [Field α] [CharZero α] (sqrt sin cos : α → α)
    (pi : α) (M T : Nat) (R r : α) :
    ∃ (b : TorusBuffers α) (out : List α),
      connectSegments (segments_list sin cos pi M T R r) M T = some b ∧
        b.vertex_list = wrapVertexList (torusPoint sin cos pi M T R r) M T ∧
        b.vertex_list.length = 7 * M * T ∧
        b.texture_coords.length = b.vertex_list.length ∧
        UCreateTorusMesh sin cos pi M T R r = some ⟨7 * M * T, 0⟩ ∧
        UCreateTorusMesh_combined sqrt sin cos pi M T R r = some out ∧
        out.length = 8 * (7 * M * T) := by
  obtain ⟨ts, hts, hconn⟩ := connectSegments_spec (segments_list sin cos pi M T R r)
    (torusPoint sin cos pi M T R r) M T
    (fun i j hi hj => segAt_segments_list sin cos pi M T R r i j hi hj)
  have hcell : ∀ ii jj, (wrapCell (torusPoint sin cos pi M T R r) M T ii jj).length = 7 :=
    fun _ _ => rfl
  have hrow : ∀ ii, ((List.range T).flatMap
      (fun jj => wrapCell (torusPoint sin cos pi M T R r) M T ii jj)).length = 7 * T := by
    intro ii
    rw [flatMap_length_const _ 7 (hcell ii), List.length_range]
  have hvlen : (wrapVertexList (torusPoint sin cos pi M T R r) M T).length = 7 * M * T := by
    unfold wrapVertexList
    rw [flatMap_length_const _ (7 * T) hrow, List.length_range]
    ring
  have htlen : ts.length = 7 * M * T := by rw [hts]; ring
  obtain ⟨out, hout, holen, -⟩ := torusCombine_spec sqrt
    (wrapVertexList (torusPoint sin cos pi M T R r) M T) ts (hvlen.trans htlen.symm)
  refine ⟨⟨_, ts⟩, out, hconn, rfl, hvlen, htlen.trans hvlen.symm, ?_, ?_, ?_⟩
  · simp only [UCreateTorusMesh, hconn, Option.map_some', hvlen]
  · simp only [UCreateTorusMesh_combined, hconn, Option.some_bind, hout]
  · rw [holen, hvlen]

/-- C11: every creator uploads exactly `8 * nVertices` floats to
`GL_ARRAY_BUFFER`, the layout its attribute pointers assume (3 floats at offset
0, 3 at offset 3 floats, 2 at offset 6 floats, stride 8 floats): the ten creators
of `Meshes` and `UCreateMesh` of `main.cpp`; for the sphere and the torus the
upload is `combined_values`. -/
theorem vertex_buffers_match_layout :
    attribPointers = [(0, 3, 4 * 8, 0), (1, 3, 4 * 8, 4 * 3), (2, 2, 4 * 8, 4 * 6)] ∧
    uploadedFloats (sizeofArray planeVerts) = 8 * UCreatePlaneMesh.nVertices ∧
    (∀ mesh, uploadedFloats (sizeofArray prismVerts) = 8 * (UCreatePrismMesh mesh).nVertices) ∧
    uploadedFloats (sizeofArray boxVerts) = 8 * UCreateBoxMesh.nVertices ∧
    uploadedFloats (sizeofArray coneVerts) = 8 * UCreateConeMesh.nVertices ∧
    uploadedFloats (sizeofArray cylinderVerts) = 8 * UCreateCylinderMesh.nVertices ∧
    uploadedFloats (sizeofArray taperedCylinderVerts) =
      8 * UCreateTaperedCylinderMesh.nVertices ∧
    (∀ mesh, uploadedFloats (sizeofArray pyramid3Verts) =
      8 * (UCreatePyramid3Mesh mesh).nVertices) ∧
    (∀ mesh, uploadedFloats (sizeofArray pyramid4Verts) =
      8 * (UCreatePyramid4Mesh mesh).nVertices) ∧
    uploadedFloats (sizeofArray
        (sphereCombine Real.sqrt (fun y x : ℝ => Complex.arg ⟨x, y⟩) Real.pi
          (sphereVerts.map (fun q : ℚ => (q : ℝ))))) = 8 * UCreateSphereMesh.nVertices ∧
    (∀ M T : Nat, ∃ (out : List ℝ) (mesh : GLMesh),
      UCreateTorusMesh_combined Real.sqrt Real.sin Real.cos Real.pi M T
          (_mainRadius : ℝ) (_tubeRadius : ℝ) = some out ∧
        UCreateTorusMesh Real.sin Real.cos Real.pi M T
          (_mainRadius : ℝ) (_tubeRadius : ℝ) = some mesh ∧
        uploadedFloats (sizeofArray out) = 8 * mesh.nVertices) ∧
    uploadedFloats (sizeofArray gMeshVerts) = 8 * UCreateMesh_nvertices := by
  obtain ⟨hpl, hpr, hbx, hco, hcy, htc, hp3, hp4, hsp, hgm⟩ := vertex_tables_lengths
  have hup : ∀ {β : Type} (l : List β), uploadedFloats (sizeofArray l) = l.length := by
    intro β l
    simp [uploadedFloats, sizeofArray, sizeofElem]
  refine ⟨rfl, ?_, ?_, ?_, ?_, ?_, ?_, ?_, ?_, ?_, ?_, ?_⟩
  · rw [hup, hpl]; simp [UCreatePlaneMesh, sizeofArray, hpl, sizeofElem, floatsPerVertex,
      floatsPerNormal, floatsPerUV]
  · intro mesh
    rw [hup, hpr]; simp [UCreatePrismMesh, sizeofArray, hpr, sizeofElem, floatsPerVertex,
      floatsPerNormal, floatsPerUV]
  · rw [hup, hbx]; simp [UCreateBoxMesh, sizeofArray, hbx, sizeofElem, floatsPerVertex,
      floatsPerNormal, floatsPerUV]
  · rw [hup, hco]; simp [UCreateConeMesh, sizeofArray, hco, sizeofElem, floatsPerVertex,
      floatsPerNormal, floatsPerUV]
  · rw [hup, hcy]; simp [UCreateCylinderMesh, sizeofArray, hcy, sizeofElem, floatsPerVertex,
      floatsPerNormal, floatsPerUV]
  · rw [hup, htc]; simp [UCreateTaperedCylinderMesh, sizeofArray, htc, sizeofElem,
      floatsPerVertex, floatsPerNormal, floatsPerUV]
  · intro mesh
    rw [hup, hp3]; simp [UCreatePyramid3Mesh, sizeofArray, hp3, sizeofElem, floatsPerVertex,
      floatsPerColor, floatsPerUV]
  · intro mesh
    rw [hup, hp4]; simp [UCreatePyramid4Mesh, sizeofArray, hp4, sizeofElem, floatsPerVertex,
      floatsPerColor, floatsPerUV]
  · rw [hup, sphereCombine_length _ _ _ 242 _ (by rw [List.length_map, hsp])]
    simp [UCreateSphereMesh, sizeofArray, hsp, sizeofElem, floatsPerVertex]
  · intro M T
    obtain ⟨b, out, -, -, -, -, hmesh, hout, holen⟩ := UCreateTorusMesh_spec Real.sqrt
      Real.sin Real.cos Real.pi M T (_mainRadius : ℝ) (_tubeRadius : ℝ)
    exact ⟨out, _, hout, hmesh, by rw [hup, holen]⟩
  · rw [hup, hgm]; simp [UCreateMesh_nvertices, sizeofArray, hgm, sizeofElem, floatsPerVertex,
      floatsPerNormal, floatsPerUV]

/-- C12 (the code at its failing input): `CreateMeshes` initialises
`gTaperedCylinderMesh` and `DestroyMeshes` never passes it to `UDestroyMesh`; every
member `DestroyMeshes` does pass was created, and none is passed twice. -/
theorem destroy_misses_tapered_cylinder :
    MeshName.gTaperedCylinderMesh ∈ CreateMeshes ∧
      MeshName.gTaperedCylinderMesh ∉ DestroyMeshes ∧
      (∀ m, m ∈ CreateMeshes ↔ m ∈ DestroyMeshes ∨ m = MeshName.gTaperedCylinderMesh) ∧
      DestroyMeshes.Nodup ∧ CreateMeshes.Nodup ∧
      CreateMeshes.length = 10 ∧ DestroyMeshes.length = 9 := by
  refine ⟨by decide, by decide, ?_, by decide, by decide, rfl, rfl⟩
  intro m
  cases m <;> decide

set_option maxRecDepth 1000000 in
/-- C14 (the code at its failing input): of the ranges the header of
`UCreateTaperedCylinderMesh` documents, the top one, `(36, 72)`, runs over
vertices 36..107 and so overlaps the sides' `(72, 146)` at vertex 72; vertex 73,
in the documented top range, has `y = 0` and normal `(1, 0, 0)`. With the count
36 the top range would hold top-cap vertices only, and the three ranges would
tile the 218 vertices. -/
theorem tapered_cylinder_documented_ranges_overlap :
    taperedCylinderDocumentedDraws.map Prod.snd = [(0, 36), (36, 72), (72, 146)] ∧
      UCreateTaperedCylinderMesh.nVertices = 218 ∧
      (inRange (36, 72) 72 ∧ inRange (72, 146) 72) ∧
      (inRange (36, 72) 73 ∧
        (positionOf taperedCylinderVerts 73).map (fun p => p.2.1) = some 0 ∧
        normalOf taperedCylinderVerts 73 = some (1, 0, 0)) ∧
      (∀ k < 36, (positionOf taperedCylinderVerts (36 + k)).map (fun p => p.2.1) = some 1 ∧
        normalOf taperedCylinderVerts (36 + k) = some (0, 1, 0)) := by
  decide!

/-! ## Theorems: start-up and texture loading -/

/-- The render loop ends once the window asks to close: with the first such
test at `k + n` and more than `n` tests allowed, `n` frames run. -/
theorem renderLoop_closes (glfwWindowShouldClose : Nat → Bool) :
    ∀ (n k fuel : Nat), n < fuel → glfwWindowShouldClose (k + n) = true →
      (∀ m, m < n → glfwWindowShouldClose (k + m) = false) →
      renderLoop glfwWindowShouldClose fuel k = some (List.replicate n MainEvent.frame) := by
  intro n
  induction n with
  | zero =>
    intro k fuel hf hc _
    cases fuel with
    | zero => omega
    | succ fuel =>
      simp only [Nat.add_zero] at hc
      simp [renderLoop, hc]
  | succ n ih =>
    intro k fuel hf hc hopen
    cases fuel with
    | zero => omega
    | succ fuel =>
      have h0 : glfwWindowShouldClose k = false := by
        have := hopen 0 (by omega)
        simpa using this
      have hrec := ih (k + 1) fuel (by omega)
        (by rw [show k + 1 + n = k + (n + 1) by omega]; exact hc)
        (by
          intro m hm
          rw [show k + 1 + m = k + (m + 1) by omega]
          exact hopen (m + 1) (by omega))
      simp [renderLoop, h0, hrec, List.replicate_succ]

/-- C13: `main` ends with `EXIT_FAILURE` exactly when `UInitialize` returns false
or one of the three texture loads fails, and then it ends whatever the window
does, having run no frame and tried the files `images.jpg`, `screen.jpg`,
`handle.jpg` in that order up to the first failure (none when `UInitialize`
failed); otherwise it runs the render loop until the window asks to close and
ends with `EXIT_SUCCESS`. `UCreateTexture` returns false exactly when the image
was not loaded, and then issues no GL call and leaves `textureId` as it was. -/
theorem main_exit_failure_iff (env : MainEnv) (fuel : Nat) :
    ((∃ t, main env fuel = some (EXIT_FAILURE, t)) ↔
        (UInitialize env.window env.glew = false ∨ ∃ f, env.image f = false)) ∧
      ((UInitialize env.window env.glew = false ∨ ∃ f, env.image f = false) →
        ∃ t, (∀ fuel1, main env fuel1 = some (EXIT_FAILURE, t)) ∧
          MainEvent.frame ∉ t ∧
          textureLoads t =
            (if UInitialize env.window env.glew = false then []
             else loadsUntilFailure env.image
               [TextureFile.images_jpg, TextureFile.screen_jpg, TextureFile.handle_jpg])) ∧
      (¬ (UInitialize env.window env.glew = false ∨ ∃ f, env.image f = false) →
        ∀ n, n < fuel → env.glfwWindowShouldClose n = true →
          (∀ m, m < n → env.glfwWindowShouldClose m = false) →
          ∃ t, main env fuel = some (EXIT_SUCCESS, t) ∧ t.count MainEvent.frame = n) ∧
      (∀ (image : Bool) (generated textureId : Nat),
        ((UCreateTexture image generated textureId).1 = false ↔ image = false) ∧
        (image = false →
          (∀ c ∈ (UCreateTexture image generated textureId).2.1, c.isGL = false) ∧
          (UCreateTexture image generated textureId).2.2 = textureId)) := by
  have hex : (∃ f, env.image f = false) ↔
      (env.image TextureFile.images_jpg = false ∨ env.image TextureFile.screen_jpg = false ∨
        env.image TextureFile.handle_jpg = false) := by
    constructor
    · rintro ⟨f, hf⟩
      cases f
      · exact Or.inl hf
      · exact Or.inr (Or.inl hf)
      · exact Or.inr (Or.inr hf)
    · rintro (h | h | h)
      · exact ⟨_, h⟩
      · exact ⟨_, h⟩
      · exact ⟨_, h⟩
  have hcode : EXIT_SUCCESS ≠ EXIT_FAILURE := by decide
  refine ⟨?_, ?_, ?_, ?_⟩
  · rw [hex]
    cases hi : UInitialize env.window env.glew <;>
    cases h1 : env.image TextureFile.images_jpg <;>
    cases h2 : env.image TextureFile.screen_jpg <;>
    cases h3 : env.image TextureFile.handle_jpg <;>
    simp [main, hi, h1, h2, h3, UCreateTexture, hcode]
  · rw [hex]
    cases hi : UInitialize env.window env.glew <;>
    cases h1 : env.image TextureFile.images_jpg <;>
    cases h2 : env.image TextureFile.screen_jpg <;>
    cases h3 : env.image TextureFile.handle_jpg <;>
    simp [main, hi, h1, h2, h3, UCreateTexture, textureLoads, loadsUntilFailure]
  · rw [hex]
    intro hok n hn hc hopen
    have hloop := renderLoop_closes env.glfwWindowShouldClose n 0 fuel hn
      (by simpa using hc) (by intro m hm; simpa using hopen m hm)
    cases hi : UInitialize env.window env.glew <;>
    cases h1 : env.image TextureFile.images_jpg <;>
    cases h2 : env.image TextureFile.screen_jpg <;>
    cases h3 : env.image TextureFile.handle_jpg <;>
    simp [hi, h1, h2, h3] at hok
    simp [main, hi, h1, h2, h3, UCreateTexture, hloop, List.count_replicate]
  · intro image generated textureId
    cases image <;> simp [UCreateTexture, TextureCall.isGL]

/-! ## Theorems: the torus cells, counts and triangles -/

/-- C19: for every cell `(i, j)` with `i < M`, `j < T`, one of the four branches of
the connect loop runs, every subscript it uses on `segments_list` is within
bounds, and the seven positions it appends are
`[P(i,j), P(i,j'), P(i',j'), P(i,j), P(i',j), P(i',j'), P(i,j)]` with
`i' = (i + 1) mod M` and `j' = (j + 1) mod T`, next to seven texture
coordinates. -/
theorem connect_cell_wraps {α : Type} [Field α] [CharZero α] (sin cos : α → α) (pi : α)
    (M T : Nat) (R r : α) (hStep vStep u v : α) (i j : Nat) (hi : i < M) (hj : j < T)
    (b : TorusBuffers α) :
    (connectBranch M T i j = 1 ∨ connectBranch M T i j = 2 ∨ connectBranch M T i j = 3 ∨
        connectBranch M T i j = 4) ∧
      ∃ ts : List (Vec2 α), ts.length = 7 ∧
        connectCell (segments_list sin cos pi M T R r) M T hStep vStep u v i j b =
          some ⟨b.vertex_list ++
              [torusPoint sin cos pi M T R r i j,
               torusPoint sin cos pi M T R r i ((j + 1) % T),
               torusPoint sin cos pi M T R r ((i + 1) % M) ((j + 1) % T),
               torusPoint sin cos pi M T R r i j,
               torusPoint sin cos pi M T R r ((i + 1) % M) j,
               torusPoint sin cos pi M T R r ((i + 1) % M) ((j + 1) % T),
               torusPoint sin cos pi M T R r i j],
            b.texture_coords ++ ts⟩ := by
  constructor
  · unfold connectBranch
    by_cases h1 : i + 1 < M <;> by_cases h2 : j + 1 < T
    · simp [h1, h2]
    · have h2' : j + 1 = T := by omega
      have h1' : ¬ i + 1 = M := by omega
      simp [h1, h2, h1', h2']
    · have h1' : i + 1 = M := by omega
      have h2' : ¬ j + 1 = T := by omega
      simp [h1, h2, h1', h2']
    · have h1' : i + 1 = M := by omega
      have h2' : j + 1 = T := by omega
      simp [h1, h2, h1', h2']
  · exact connectCell_spec (segments_list sin cos pi M T R r)
      (torusPoint sin cos pi M T R r) M T
      (fun i j hi hj => segAt_segments_list sin cos pi M T R r i j hi hj)
      hStep vStep u v i j hi hj b

/-- C19 at the last cell of the program's torus, where both subscripts wrap. -/
theorem connect_cell_wraps_last_cell :
    ∃ ts : List (Vec2 ℝ), ts.length = 7 ∧
      connectCell (segments_list Real.sin Real.cos Real.pi _mainSegments _tubeSegments
          (_mainRadius : ℝ) (_tubeRadius : ℝ)) _mainSegments _tubeSegments
          (1 / 30) (1 / 30) (29 / 30) (29 / 30) 29 29 ⟨[], []⟩ =
        some ⟨[] ++
            [torusPoint Real.sin Real.cos Real.pi _mainSegments _tubeSegments
               (_mainRadius : ℝ) (_tubeRadius : ℝ) 29 29,
             torusPoint Real.sin Real.cos Real.pi _mainSegments _tubeSegments
               (_mainRadius : ℝ) (_tubeRadius : ℝ) 29 ((29 + 1) % _tubeSegments),
             torusPoint Real.sin Real.cos Real.pi _mainSegments _tubeSegments
               (_mainRadius : ℝ) (_tubeRadius : ℝ) ((29 + 1) % _mainSegments)
               ((29 + 1) % _tubeSegments),
             torusPoint Real.sin Real.cos Real.pi _mainSegments _tubeSegments
               (_mainRadius : ℝ) (_tubeRadius : ℝ) 29 29,
             torusPoint Real.sin Real.cos Real.pi _mainSegments _tubeSegments
               (_mainRadius : ℝ) (_tubeRadius : ℝ) ((29 + 1) % _mainSegments) 29,
             torusPoint Real.sin Real.cos Real.pi _mainSegments _tubeSegments
               (_mainRadius : ℝ) (_tubeRadius : ℝ) ((29 + 1) % _mainSegments)
               ((29 + 1) % _tubeSegments),
             torusPoint Real.sin Real.cos Real.pi _mainSegments _tubeSegments
               (_mainRadius : ℝ) (_tubeRadius : ℝ) 29 29],
          [] ++ ts⟩ :=
  (connect_cell_wraps Real.sin Real.cos Real.pi _mainSegments _tubeSegments
    (_mainRadius : ℝ) (_tubeRadius : ℝ) (1 / 30) (1 / 30) (29 / 30) (29 / 30) 29 29
    (by decide) (by decide) ⟨[], []⟩).2

/-- C20: for all segment counts, `UCreateTorusMesh` emits exactly `7 * M * T`
vertices, `vertex_list` and `texture_coords` have the same length, so
`texture_coords[i]` is defined for every `i` below `vertex_list.size()` and the
combine loop succeeds, and the mesh gets `nVertices = 7 * M * T` and
`nIndices = 0`; for the program's `M = T = 30` that is 6300 vertices. -/
theorem torus_vertex_count {α : Type} [Field α] [CharZero α] (sqrt sin cos : α → α)
    (pi : α) (M T : Nat) (R r : α) :
    (∃ b : TorusBuffers α,
      connectSegments (segments_list sin cos pi M T R r) M T = some b ∧
        b.vertex_list.length = 7 * M * T ∧
        b.texture_coords.length = b.vertex_list.length ∧
        (∀ i, i < b.vertex_list.length → ∃ t, b.texture_coords.get? i = some t) ∧
        (∃ out, torusCombine sqrt b.vertex_list b.texture_coords = some out)) ∧
      UCreateTorusMesh sin cos pi M T R r = some ⟨7 * M * T, 0⟩ ∧
      UCreateTorusMesh sin cos pi _mainSegments _tubeSegments R r = some ⟨6300, 0⟩ := by
  obtain ⟨b, out, hconn, -, hvlen, htlen, hmesh, hout, -⟩ :=
    UCreateTorusMesh_spec sqrt sin cos pi M T R r
  obtain ⟨-, -, -, -, -, -, hprog, -, -⟩ :=
    UCreateTorusMesh_spec sqrt sin cos pi _mainSegments _tubeSegments R r
  refine ⟨⟨b, hconn, hvlen, htlen, ?_, ?_⟩, hmesh, hprog⟩
  · intro i hi
    rw [← htlen] at hi
    exact ⟨b.texture_coords.get ⟨i, hi⟩, List.get?_eq_get hi⟩
  · simp only [UCreateTorusMesh_combined, hconn, Option.some_bind] at hout
    exact ⟨out, hout⟩

/-- C20 at the program's torus, over the reals: 6300 vertices and no indices. -/
theorem torus_vertex_count_program :
    UCreateTorusMesh Real.sin Real.cos Real.pi _mainSegments _tubeSegments
        (_mainRadius : ℝ) (_tubeRadius : ℝ) = some ⟨6300, 0⟩ ∧
      ∃ b : TorusBuffers ℝ,
        connectSegments (segments_list Real.sin Real.cos Real.pi _mainSegments _tubeSegments
            (_mainRadius : ℝ) (_tubeRadius : ℝ)) _mainSegments _tubeSegments = some b ∧
          b.vertex_list.length = 7 * _mainSegments * _tubeSegments ∧
          b.texture_coords.length = b.vertex_list.length :=
  have h := torus_vertex_count Real.sqrt Real.sin Real.cos Real.pi _mainSegments
    _tubeSegments (_mainRadius : ℝ) (_tubeRadius : ℝ)
  ⟨h.2.2, h.1.imp (fun _ hb => ⟨hb.1, hb.2.1, hb.2.2.1⟩)⟩

/-- Entry `r` of the cell `(i, j)` in the vertex list of the wrap-around rule. -/
theorem wrapVertexList_get?_cell {α : Type} (P : Nat → Nat → Vec3 α) (M T i j r : Nat)
    (hi : i < M) (hj : j < T) (hr : r < 7) :
    (wrapVertexList P M T).get? (7 * (i * T + j) + r) = (wrapCell P M T i j).get? r := by
  have hcell : ∀ ii jj, (wrapCell P M T ii jj).length = 7 := fun _ _ => rfl
  have hrow : ∀ ii, ((List.range T).flatMap (fun jj => wrapCell P M T ii jj)).length = 7 * T := by
    intro ii
    rw [flatMap_length_const _ 7 (hcell ii), List.length_range]
  have e : 7 * (i * T + j) + r = 7 * T * i + (7 * j + r) := by ring
  rw [e]
  unfold wrapVertexList
  rw [flatMap_get?_block _ (7 * T) hrow (List.range M) i (7 * j + r) i
    (by rw [List.get?_eq_getElem?, List.getElem?_range hi]) (by omega)]
  rw [flatMap_get?_block _ 7 (hcell i) (List.range T) j r j
    (by rw [List.get?_eq_getElem?, List.getElem?_range hj]) hr]

/-- The height of a corner of the cell `(i, j)` is one of the cell's two tube
heights. -/
theorem cellCorners_z (M T : Nat) (R r : ℝ) (i j : Nat) (q : Vec3 ℝ)
    (hq : q ∈ cellCorners (torusPoint Real.sin Real.cos Real.pi M T R r) M T i j) :
    q.z = r * Real.sin ((j : ℝ) * 2 * Real.pi / (T : ℝ)) ∨
      q.z = r * Real.sin ((((j + 1) % T : ℕ) : ℝ) * 2 * Real.pi / (T : ℝ)) := by
  simp only [cellCorners, List.mem_cons, List.mem_singleton, List.not_mem_nil, or_false] at hq
  rcases hq with rfl | rfl | rfl | rfl
  · left; rfl
  · right; rfl
  · left; rfl
  · right; rfl

/-- C15 (the code at its failing input): the program's torus has 6300 vertices, a
multiple of 3, but the connect loop pushes seven vertices a cell, so the
triangles of `glDrawArrays(GL_TRIANGLES, 0, nVertices)` straddle cells: the
third one (list indices 6, 7, 8) is `P(0,0)`, `P(0,1)`, `P(0,2)`, three points at
three different heights, which are the corners of no single cell. -/
theorem torus_triangle_straddles_cells :
    ∃ b : TorusBuffers ℝ,
      connectSegments (segments_list Real.sin Real.cos Real.pi _mainSegments _tubeSegments
          (_mainRadius : ℝ) (_tubeRadius : ℝ)) _mainSegments _tubeSegments = some b ∧
        b.vertex_list.length = 6300 ∧ 6300 % 3 = 0 ∧
        b.vertex_list.get? (3 * 2) = some (torusPoint Real.sin Real.cos Real.pi
          _mainSegments _tubeSegments (_mainRadius : ℝ) (_tubeRadius : ℝ) 0 0) ∧
        b.vertex_list.get? (3 * 2 + 1) = some (torusPoint Real.sin Real.cos Real.pi
          _mainSegments _tubeSegments (_mainRadius : ℝ) (_tubeRadius : ℝ) 0 1) ∧
        b.vertex_list.get? (3 * 2 + 2) = some (torusPoint Real.sin Real.cos Real.pi
          _mainSegments _tubeSegments (_mainRadius : ℝ) (_tubeRadius : ℝ) 0 2) ∧
        ¬ ∃ i j, i < _mainSegments ∧ j < _tubeSegments ∧
          ∀ q ∈ [torusPoint Real.sin Real.cos Real.pi _mainSegments _tubeSegments
                  (_mainRadius : ℝ) (_tubeRadius : ℝ) 0 0,
                torusPoint Real.sin Real.cos Real.pi _mainSegments _tubeSegments
                  (_mainRadius : ℝ) (_tubeRadius : ℝ) 0 1,
                torusPoint Real.sin Real.cos Real.pi _mainSegments _tubeSegments
                  (_mainRadius : ℝ) (_tubeRadius : ℝ) 0 2],
            q ∈ cellCorners (torusPoint Real.sin Real.cos Real.pi _mainSegments
              _tubeSegments (_mainRadius : ℝ) (_tubeRadius : ℝ)) _mainSegments
              _tubeSegments i j := by
  obtain ⟨b, -, hconn, hvl, hvlen, -, -, -, -⟩ := UCreateTorusMesh_spec Real.sqrt Real.sin
    Real.cos Real.pi _mainSegments _tubeSegments (_mainRadius : ℝ) (_tubeRadius : ℝ)
  have hpi : 0 < Real.pi := Real.pi_pos
  have hr : (0 : ℝ) < ((_tubeRadius : ℚ) : ℝ) := by norm_num [_tubeRadius]
  -- the three heights
  have hT : ((_tubeSegments : ℕ) : ℝ) = 30 := by norm_num [_tubeSegments]
  have a0 : ((0 : ℕ) : ℝ) * 2 * Real.pi / ((_tubeSegments : ℕ) : ℝ) = 0 := by simp
  have a1 : ((1 : ℕ) : ℝ) * 2 * Real.pi / ((_tubeSegments : ℕ) : ℝ) = Real.pi / 15 := by
    rw [hT]; push_cast; ring
  have a2 : ((2 : ℕ) : ℝ) * 2 * Real.pi / ((_tubeSegments : ℕ) : ℝ) = 2 * Real.pi / 15 := by
    rw [hT]; push_cast; ring
  have s1 : 0 < Real.sin (Real.pi / 15) :=
    Real.sin_pos_of_pos_of_lt_pi (by positivity) (by linarith)
  have s12 : Real.sin (Real.pi / 15) < Real.sin (2 * Real.pi / 15) :=
    Real.sin_lt_sin_of_lt_of_le_pi_div_two (by linarith) (by linarith) (by linarith)
  refine ⟨b, hconn, ?_, by decide, ?_, ?_, ?_, ?_⟩
  · rw [hvlen]; decide
  · rw [hvl]
    exact wrapVertexList_get?_cell _ _mainSegments _tubeSegments 0 0 6 (by decide) (by decide)
      (by decide)
  · rw [hvl]
    exact wrapVertexList_get?_cell _ _mainSegments _tubeSegments 0 1 0 (by decide) (by decide)
      (by decide)
  · rw [hvl]
    exact wrapVertexList_get?_cell _ _mainSegments _tubeSegments 0 1 1 (by decide) (by decide)
      (by decide)
  · rintro ⟨i, j, -, -, hall⟩
    have h0 := cellCorners_z _ _ _ _ i j _ (hall (torusPoint Real.sin Real.cos Real.pi
      _mainSegments _tubeSegments (_mainRadius : ℝ) (_tubeRadius : ℝ) 0 0) (by simp))
    have h1 := cellCorners_z _ _ _ _ i j _ (hall (torusPoint Real.sin Real.cos Real.pi
      _mainSegments _tubeSegments (_mainRadius : ℝ) (_tubeRadius : ℝ) 0 1) (by simp))
    have h2 := cellCorners_z _ _ _ _ i j _ (hall (torusPoint Real.sin Real.cos Real.pi
      _mainSegments _tubeSegments (_mainRadius : ℝ) (_tubeRadius : ℝ) 0 2) (by simp))
    simp only [torusPoint, a0, a1, a2, Real.sin_zero, mul_zero] at h0 h1 h2
    have z1 : 0 < ((_tubeRadius : ℚ) : ℝ) * Real.sin (Real.pi / 15) := mul_pos hr s1
    have z12 : ((_tubeRadius : ℚ) : ℝ) * Real.sin (Real.pi / 15) <
        ((_tubeRadius : ℚ) : ℝ) * Real.sin (2 * Real.pi / 15) :=
      mul_lt_mul_of_pos_left s12 hr
    rcases h0 with h0 | h0 <;> rcases h1 with h1 | h1 <;> rcases h2 with h2 | h2 <;> linarith

/-! ## Theorems: the sphere's triangulation and rings, the box's normals -/

set_option maxRecDepth 1000000 in
/-- C16 (the code at its failing input): the sphere's index array is the regular
triangulation of its section comments except at one entry: triangle 468, in
the section `ring 15 - bottom`, is `(229, 239, 241)` where the regular one is
`(229, 230, 241)`. So the edge 239-241 is shared by three triangles and the
edges 229-230, 229-239, 230-241 by one each, not by two. -/
theorem sphere_indices_one_off :
    sphereIndices = regularSphereIndices.set 1405 239 ∧
      regularSphereIndices.get? 1405 = some 230 ∧
      sphereIndices ≠ regularSphereIndices ∧
      (triangles sphereIndices).get? 468 = some (229, 239, 241) ∧
      (triangles regularSphereIndices).get? 468 = some (229, 230, 241) ∧
      edgeCount (triangles sphereIndices) 239 241 = 3 ∧
      edgeCount (triangles sphereIndices) 229 230 = 1 ∧
      edgeCount (triangles sphereIndices) 229 239 = 1 ∧
      edgeCount (triangles sphereIndices) 230 241 = 1 := by
  decide!

set_option maxRecDepth 1000000 in
/-- C17 (the code at its failing input): the four vertices of the box's left
face, 8 to 11, commented `Negative X Normal`, carry the normal `(1, 0, 0)`, so
`normal . position = -1/2` there; the other twenty vertices carry the normal
their face comment names and have `normal . position = 1/2`. -/
theorem box_left_face_normal :
    (∀ k < 4, normalOf boxVerts (8 + k) = some (1, 0, 0) ∧
        boxDocumentedNormal (8 + k) = (-1, 0, 0) ∧
        normalDotPosition boxVerts (8 + k) = some (-1 / 2)) ∧
      positionOf boxVerts 8 = some (-1 / 2, 1 / 2, -1 / 2) ∧
      (∀ k < 24, k / 4 ≠ 2 →
        normalOf boxVerts k = some (boxDocumentedNormal k) ∧
          normalDotPosition boxVerts k = some (1 / 2)) := by
  decide!

set_option maxRecDepth 1000000 in
/-- C18 (the code at its failing input): in the section `ring 7` vertex 97 has
`y = 0.1951` and the other fifteen `y = 0.1915`; in the section `ring 11` vertex
171 has `y = 0.5556` and the other fifteen `y = -0.5556`. The other thirteen
sections have one y each, falling from ring to ring. -/
theorem sphere_rings_not_level :
    (sphereVertex sphereVerts 97).y = 1951 / 10000 ∧
      (sphereVertex sphereVerts 98).y = 1915 / 10000 ∧
      ringYs 7 = (1951 / 10000) :: List.replicate 15 (1915 / 10000) ∧
      (sphereVertex sphereVerts 171).y = 5556 / 10000 ∧
      (sphereVertex sphereVerts 170).y = -5556 / 10000 ∧
      ringYs 11 = List.replicate 10 (-5556 / 10000) ++ (5556 / 10000) ::
        List.replicate 5 (-5556 / 10000) ∧
      (∀ r ∈ [1, 2, 3, 4, 5, 6, 8, 9, 10, 12, 13, 14, 15],
        ∀ y ∈ ringYs r, y = (ringYs r).headD 0) ∧
      ([1, 2, 3, 4, 5, 6, 8, 9, 10, 12, 13, 14, 15].map (fun r => (ringYs r).headD 0)).Pairwise
        (fun a b => b < a) := by
  decide!

/-! ## Theorems: the torus's texture coordinates -/

/-- The first branch of the connect loop, for a cell with `i + 1 < M` and
`j + 1 < T` on a full grid: the seven vertices and the seven texture
coordinates it appends. -/
theorem connectCell_inner {α : Type} [Field α] (segs : List (List (Vec3 α)))
    (P : Nat → Nat → Vec3 α) (M T : Nat)
    (hseg : ∀ i j, i < M → j < T → segAt segs i j = some (P i j))
    (hStep vStep u v : α) (i j : Nat) (hi : i + 1 < M) (hj : j + 1 < T)
    (b : TorusBuffers α) :
    connectCell segs M T hStep vStep u v i j b =
      some ⟨b.vertex_list ++
          [P i j, P i (j + 1), P (i + 1) (j + 1), P i j, P (i + 1) j, P (i + 1) (j + 1), P i j],
        b.texture_coords ++
          [⟨u, v⟩, ⟨u, v + vStep⟩, ⟨u + hStep, v + vStep⟩, ⟨u, v⟩, ⟨u + hStep, v⟩,
           ⟨u + hStep, v - vStep⟩, ⟨u, v⟩]⟩ := by
  simp [connectCell, hi, hj, hseg i j (by omega) (by omega),
    hseg i (j + 1) (by omega) hj, hseg (i + 1) (j + 1) hi hj,
    hseg (i + 1) j hi (by omega), pushVertex, pushTexture]

/-- One turn of the inner connect loop. -/
theorem connectTubeLoop_succ {α : Type} [Field α] (segs : List (List (Vec3 α)))
    (M T : Nat) (hStep vStep u : α) (i n j : Nat) (v : α) (b : TorusBuffers α) :
    connectTubeLoop segs M T hStep vStep u i (n + 1) j v b =
      (connectCell segs M T hStep vStep u v i j b).bind
        (fun b1 => connectTubeLoop segs M T hStep vStep u i n (j + 1) (v + vStep) b1) :=
  rfl

/-- One turn of the outer connect loop. -/
theorem connectMainLoop_succ {α : Type} [Field α] (segs : List (List (Vec3 α)))
    (M T : Nat) (hStep vStep : α) (n i : Nat) (u : α) (b : TorusBuffers α) :
    connectMainLoop segs M T hStep vStep (n + 1) i u b =
      (connectTubeLoop segs M T hStep vStep u i T 0 0 b).bind
        (fun b1 => connectMainLoop segs M T hStep vStep n (i + 1) (u + hStep) b1) :=
  rfl

/-- C21 (the code at its failing input): in the first cell of the program's torus
the grid point `P(1, 1)` is pushed twice, as vertices 2 and 5, with the texture
coordinates `(1/30, 1/30)` and `(1/30, -1/30)`: the second has a negative
component, and the two differ. -/
theorem torus_texture_coord_negative :
    ∃ b : TorusBuffers ℝ,
      connectSegments (segments_list Real.sin Real.cos Real.pi _mainSegments _tubeSegments
          (_mainRadius : ℝ) (_tubeRadius : ℝ)) _mainSegments _tubeSegments = some b ∧
        b.vertex_list.get? 2 = some (torusPoint Real.sin Real.cos Real.pi
          _mainSegments _tubeSegments (_mainRadius : ℝ) (_tubeRadius : ℝ) 1 1) ∧
        b.vertex_list.get? 5 = some (torusPoint Real.sin Real.cos Real.pi
          _mainSegments _tubeSegments (_mainRadius : ℝ) (_tubeRadius : ℝ) 1 1) ∧
        b.texture_coords.get? 2 = some ⟨1 / 30, 1 / 30⟩ ∧
        b.texture_coords.get? 5 = some ⟨1 / 30, -1 / 30⟩ ∧
        (-1 / 30 : ℝ) < 0 := by
  obtain ⟨segs, hsegs⟩ : ∃ s, s = segments_list Real.sin Real.cos Real.pi _mainSegments
      _tubeSegments (_mainRadius : ℝ) (_tubeRadius : ℝ) := ⟨_, rfl⟩
  obtain ⟨P, hP⟩ : ∃ p, p = torusPoint Real.sin Real.cos Real.pi _mainSegments
      _tubeSegments (_mainRadius : ℝ) (_tubeRadius : ℝ) := ⟨_, rfl⟩
  rw [← hsegs, ← hP]
  have hseg : ∀ i j, i < _mainSegments → j < _tubeSegments → segAt segs i j = some (P i j) := by
    intro i j hi hj
    rw [hsegs, hP]
    exact segAt_segments_list Real.sin Real.cos Real.pi _mainSegments _tubeSegments
      (_mainRadius : ℝ) (_tubeRadius : ℝ) i j hi hj
  have hM : ((_mainSegments : ℕ) : ℝ) = 30 := by norm_num [_mainSegments]
  have hT : ((_tubeSegments : ℕ) : ℝ) = 30 := by norm_num [_tubeSegments]
  -- the first cell
  have hcell := connectCell_inner segs P _mainSegments _tubeSegments hseg
    (1 / ((_mainSegments : ℕ) : ℝ)) (1 / ((_tubeSegments : ℕ) : ℝ)) 0 0 0 0
    (by decide) (by decide) ⟨[], []⟩
  -- the rest of the first row
  obtain ⟨ts2, -, htube⟩ := connectTubeLoop_spec segs P _mainSegments _tubeSegments hseg
    (1 / ((_mainSegments : ℕ) : ℝ)) (1 / ((_tubeSegments : ℕ) : ℝ)) 0 0 (by decide)
    29 (0 + 1) (0 + 1 / ((_tubeSegments : ℕ) : ℝ))
    ⟨[] ++ [P 0 0, P 0 (0 + 1), P (0 + 1) (0 + 1), P 0 0, P (0 + 1) 0, P (0 + 1) (0 + 1), P 0 0],
      [] ++ [⟨0, 0⟩, ⟨0, 0 + 1 / ((_tubeSegments : ℕ) : ℝ)⟩,
        ⟨0 + 1 / ((_mainSegments : ℕ) : ℝ), 0 + 1 / ((_tubeSegments : ℕ) : ℝ)⟩, ⟨0, 0⟩,
        ⟨0 + 1 / ((_mainSegments : ℕ) : ℝ), 0⟩,
        ⟨0 + 1 / ((_mainSegments : ℕ) : ℝ), 0 - 1 / ((_tubeSegments : ℕ) : ℝ)⟩, ⟨0, 0⟩]⟩
    (by decide)
  have hrow := connectTubeLoop_succ segs _mainSegments _tubeSegments
    (1 / ((_mainSegments : ℕ) : ℝ)) (1 / ((_tubeSegments : ℕ) : ℝ)) 0 0 29 0 0 ⟨[], []⟩
  rw [hcell, Option.some_bind, htube] at hrow
  -- the other rows
  obtain ⟨ts3, -, hmain⟩ := connectMainLoop_spec segs P _mainSegments _tubeSegments hseg
    (1 / ((_mainSegments : ℕ) : ℝ)) (1 / ((_tubeSegments : ℕ) : ℝ))
    29 (0 + 1) (0 + 1 / ((_mainSegments : ℕ) : ℝ)) ⟨_, _⟩ (by decide)
  have hall := connectMainLoop_succ segs _mainSegments _tubeSegments
    (1 / ((_mainSegments : ℕ) : ℝ)) (1 / ((_tubeSegments : ℕ) : ℝ)) 29 0 0 ⟨[], []⟩
  rw [show connectTubeLoop segs _mainSegments _tubeSegments (1 / ((_mainSegments : ℕ) : ℝ))
      (1 / ((_tubeSegments : ℕ) : ℝ)) 0 0 _tubeSegments 0 0 ⟨[], []⟩ = _ from hrow,
    Option.some_bind, hmain] at hall
  refine ⟨_, hall, ?_, ?_, ?_, ?_, by norm_num⟩
  · simp
  · simp
  · simp [hM, hT]
  · simp [hM, hT]
    norm_num

end OpenGL3D
